import Mathlib

/-!
# Music Blocks: drum blocks (`js/blocks/DrumBlocks.js`) and the turtle list (`js/turtles.js`)

A shallow embedding of the flow functions of the percussive blocks
(`PlayNoiseBlock`, `MapDrumBlock`, `SetDrumBlock`, `PlayDrumBlock`) over an
explicit interpreter state `Logo`, of the macro of `PlayDrumMacroBlock`, and of the
methods of the turtle list (`getTurtle`, `pushTurtle`, `removeTurtle`, `companionTurtle`,
`turtleCount`, `add`) over the list itself, followed by theorems about them.

Conventions of the embedding.
* A JavaScript value that reaches a flow function as a block argument is a `JSVal`.
* The ambient per-turtle tables of the interpreter (`logo.drumStyle[turtle]`, ...) are
  total functions of the turtle; the per-note dictionaries (`logo.noteDrums[turtle][blk]`,
  ...) are partial (`Option`), `none` standing for `undefined`.
* A flow function that dereferences `undefined` throws a `TypeError`: it returns
  `Except.error JSError.typeError`. A call that throws returns the error only; what it had
  written by then is given by the definition of the lines before the throw.
* Constants that live outside the two source files (`DRUMNAMES`, `NOISENAMES`,
  `DEFAULTDRUM`, `DEFAULTVOLUME`, `TONEBPM`) are the fields of `Consts`, and so is the one
  fact about the global object that the drum blocks depend on, `globalCallback`.
* An entry of the turtle list is an object: a `TurtleObject` is the reference of the object
  (`ref`) together with the values of the fields read through it, and two values stand for
  the same object exactly when their `ref` is the same.
-/

namespace MusicBlocks

/-! ## Data model -/

/-- The index of a turtle (actor). -/
abbrev Turtle := Nat

/-- The index of a block in `logo.blocks.blockList`. -/
abbrev Blk := Nat

/-- JavaScript values that a block argument can hold. -/
inductive JSVal where
  | undefined : JSVal
  | null : JSVal
  | bool (b : Bool) : JSVal
  | num (n : Int) : JSVal
  | str (s : String) : JSVal
  deriving DecidableEq, Repr

/-- Run-time errors of the embedded code. -/
inductive JSError where
  | typeError : JSError
  /-- The error of an assignment, in strict code, to a variable that is declared nowhere. -/
  | referenceError (name : String) : JSError
  /-- The error `new Error("Turtle " + index + " not found")` of `getTurtle`. -/
  | notFound (index : Int) : JSError
  deriving DecidableEq, Repr

/-- The messages the drum blocks pass to `logo.errorMsg`. -/
inductive ErrMsg where
  | NOINPUTERRORMSG : ErrMsg
  | noiseUsage : ErrMsg
  | drumUsage : ErrMsg
  deriving DecidableEq, Repr

/-- The two closures `__listener` that the clamp blocks register; each one captures the
turtle of the flow call that created it. -/
inductive Listener where
  | mapdrum (turtle : Turtle) : Listener
  | setdrum (turtle : Turtle) : Listener
  deriving DecidableEq, Repr

/-- Constants defined outside `DrumBlocks.js`. An alias table is a list of rows
`(row[0], row[1])`, in the order `for ... in` enumerates them. -/
structure Consts where
  DRUMNAMES : List (String × String)
  NOISENAMES : List (String × String)
  DEFAULTDRUM : String
  DEFAULTVOLUME : Nat
  TONEBPM : ℚ
  /-- Whether the global object has a property `__callback`. Line 308 assigns to
  `__callback`, which neither source file declares; the body of a class is strict code, so
  the assignment succeeds only if a script outside the two files has created the global
  variable. With the two source files alone the value is `false`. -/
  globalCallback : Bool

/-- The part of the interpreter object `logo` that the drum blocks read or write. -/
structure Logo where
  drumStyle : Turtle → List String
  pitchDrumTable : Turtle → List (String × String)
  inNoteBlock : Turtle → List Blk
  noteDrums : Turtle → Blk → Option (List String)
  noteBeatValues : Turtle → Blk → Option (List ℚ)
  beatFactor : Turtle → ℚ
  pushedNote : Turtle → Bool
  synthVolume : Turtle → String → Option (List Nat)
  crescendoInitialVolume : Turtle → String → Option (List Nat)
  bpm : Turtle → List ℚ
  masterBPM : ℚ
  inPitchDrumMatrix : Bool
  inMatrix : Bool
  inRhythmRuler : Bool
  /-- The list `logo.pitchDrumMatrix.drums`. -/
  pitchDrumMatrixDrums : List String
  /-- The blocks passed to `logo.pitchDrumMatrix.addColBlock`. -/
  pitchDrumMatrixColBlocks : List Blk
  /-- The list `logo.pitchTimeMatrix.rowLabels`. -/
  rowLabels : List String
  /-- The list `logo.pitchTimeMatrix.rowArgs`. -/
  rowArgs : List Int
  /-- The blocks passed to `logo.pitchTimeMatrix.addRowBlock`. -/
  pitchTimeMatrixRowBlocks : List Blk
  drumBlocks : List Blk
  currentDrumBlock : Option Blk
  /-- The list `logo.rhythmRuler.Drums`. -/
  rhythmRulerDrums : List Blk
  /-- The list `logo.rhythmRuler.Rulers`. -/
  rhythmRulerRulers : List (List ℚ × List ℚ)
  /-- The field `connections` of `logo.blocks.blockList[blk]`; `none` when the block list has
  no such block. -/
  connections : Blk → Option (List (Option Blk))
  /-- The calls of `logo.errorMsg`, oldest first. -/
  errors : List (ErrMsg × Blk)
  /-- The calls of `logo._processNote`, oldest first: note value, block, turtle. The fourth
  argument is always the closure `__callback` of that block and turtle. -/
  processNoteCalls : List (ℚ × Blk × Turtle)
  /-- The calls of `logo._setDispatchBlock`, oldest first. -/
  dispatchBlocks : List (Blk × Turtle × String)
  /-- The listener slots written by `logo._setListener`. -/
  listeners : Turtle → String → Option Listener

/-! ## Helpers from outside the two source files -/

/-- Modelled from the spec: the helper `last` of the utilities is not under `src/`; it is
"the top of that actor's stack", the final element of a list, and `null` (here `none`)
for an empty list. -/
def last {α : Type} (myList : List α) : Option α :=
  myList.getLast?

/-- Modelled from the spec: `logo.errorMsg(message, blk)` is the external error reporter
(`reportError(message, blockId)`, "non-fatal, logs/display only"); the call is recorded. -/
def errorMsg (logo : Logo) (msg : ErrMsg) (blk : Blk) : Logo :=
  { logo with errors := logo.errors ++ [(msg, blk)] }

/-- Modelled from the spec: `logo.clearNoteParams(turtle, blk, drums)` is not under `src/`;
it "opens a new Note-Recording Context scoped to this block", a fresh resource list
(`drums`) and a fresh, empty beat-weight list for `blk`. -/
def clearNoteParams (logo : Logo) (turtle : Turtle) (blk : Blk) (drums : List String) : Logo :=
  { logo with
    noteDrums := Function.update logo.noteDrums turtle
      (Function.update (logo.noteDrums turtle) blk (some drums))
    noteBeatValues := Function.update logo.noteBeatValues turtle
      (Function.update (logo.noteBeatValues turtle) blk (some [])) }

/-- Modelled from the spec: `logo._processNote(noteValue, blk, turtle, callback)` is the
external note-processing collaborator (`scheduleNote`); it runs `callback` at a later
scheduling tick, so the call itself only records the request. -/
def processNote (logo : Logo) (noteValue : ℚ) (blk : Blk) (turtle : Turtle) : Logo :=
  { logo with processNoteCalls := logo.processNoteCalls ++ [(noteValue, blk, turtle)] }

/-- Modelled from the spec: `logo._setDispatchBlock(blk, turtle, listenerName)` is not under
`src/`; it records which region instance is open for the actor. -/
def setDispatchBlock (logo : Logo) (blk : Blk) (turtle : Turtle) (listenerName : String) :
    Logo :=
  { logo with dispatchBlocks := logo.dispatchBlocks ++ [(blk, turtle, listenerName)] }

/-- Modelled from the spec: `logo._setListener(turtle, listenerName, listener)` is not under
`src/`; it "records `onExit` under the slot", the last registered listener winning. -/
def setListener (logo : Logo) (turtle : Turtle) (listenerName : String) (l : Listener) :
    Logo :=
  { logo with
    listeners := Function.update logo.listeners turtle
      (Function.update (logo.listeners turtle) listenerName (some l)) }

/-! ## JavaScript primitives -/

/-- The element `args[i]` of an array: `undefined` past the end. -/
def argAt (args : List JSVal) (i : Nat) : JSVal :=
  (args.get? i).getD JSVal.undefined

/-- The test `row[k] === v` for a string `row[k]`. -/
def strictEqStr (s : String) (v : JSVal) : Bool :=
  decide (v = JSVal.str s)

/-- The string a value holds once `s === v` has succeeded for some string `s`. -/
def strOf (v : JSVal) (dflt : String) : String :=
  match v with
  | JSVal.str s => s
  | _ => dflt

/-- The test `arg.slice(0, 4) === 'http'`. -/
def sliceIsHttp (arg : String) : Bool :=
  decide (arg.toList.take 4 = ['h', 't', 't', 'p'])

/-- The value of `list.indexOf(x)`: the first position of `x`, or `-1`. -/
def jsIndexOf (l : List Blk) (x : Blk) : Int :=
  if x ∈ l then (l.indexOf x : Int) else -1

/-- The effect of `list.splice(j, 1)` on the list: a negative `j` counts from the end
(clamped at `0`), a `j` past the end removes nothing. -/
def spliceOne {α : Type} (l : List α) (j : Int) : List α :=
  let start : Int := if j < 0 then max ((l.length : Int) + j) 0 else min j (l.length : Int)
  l.eraseIdx start.toNat

/-- The effect of `stack.pop()` on the stack; popping an empty array leaves it empty. -/
def pop {α : Type} (stack : List α) : List α :=
  stack.dropLast

/-- The list `dict[turtle][blk]` after `dict[turtle][blk].push(x)`; a `TypeError` if
`dict[turtle][blk]` is `undefined` or `blk` is `null`. -/
def pushAt {α : Type} (dict : Turtle → Blk → Option (List α)) (turtle : Turtle)
    (blk : Option Blk) (x : α) : Except JSError (Turtle → Blk → Option (List α)) :=
  match blk with
  | none => Except.error JSError.typeError
  | some b =>
    match dict turtle b with
    | none => Except.error JSError.typeError
    | some xs =>
      Except.ok (Function.update dict turtle (Function.update (dict turtle) b (some (xs ++ [x]))))

/-- The test `v == null`, true of `null` and of `undefined`. -/
def looseEqNull (v : JSVal) : Bool :=
  match v with
  | JSVal.undefined => true
  | JSVal.null => true
  | _ => false

/-- The test `typeof(v) === 'string'`. -/
def typeofIsString (v : JSVal) : Bool :=
  match v with
  | JSVal.str _ => true
  | _ => false

/-- The guard `args.length !== 1 || args[0] == null || typeof(args[0]) !== 'string'`
(lines 44 and 246). -/
def badInput (args : List JSVal) : Bool :=
  args.length != 1 || looseEqNull (argAt args 0) || !(typeofIsString (argAt args 0))

/-! ## The alias loops -/

/-- The alias loop with `break` (lines 52-60 and 257-265), started with `dflt` in the result
variable: the first row one column of which is `arg` decides and ends the loop. -/
def aliasScan (table : List (String × String)) (arg : String) (dflt : String) : String :=
  match table with
  | [] => dflt
  | row :: rest =>
    if row.1 = arg then row.2
    else if row.2 = arg then arg
    else aliasScan rest arg dflt

/-- One turn of the alias loop without `break` (lines 143-147 and 194-198): the new value of
`drumname`. -/
def aliasStep (arg0 : JSVal) (drumname : String) (row : String × String) : String :=
  if strictEqStr row.1 arg0 then row.2
  else if strictEqStr row.2 arg0 then strOf arg0 drumname
  else drumname

/-- The alias loop without `break` (lines 142-148 and 193-199): every row is visited. -/
def aliasScanAll (table : List (String × String)) (arg0 : JSVal) (dflt : String) : String :=
  table.foldl (aliasStep arg0) dflt

/-! ## Shared pieces of the flow functions -/

/-- The property names that every plain object inherits from `Object.prototype`: for
these `object[name]` is a function or an object, never `undefined`, also when the object
has no property of its own under the name. -/
def inheritedNames : List String :=
  ["constructor", "__defineGetter__", "__defineSetter__", "hasOwnProperty",
    "__lookupGetter__", "__lookupSetter__", "isPrototypeOf", "propertyIsEnumerable",
    "toString", "valueOf", "__proto__", "toLocaleString"]

/-- The test `object[name] == undefined` on a plain object whose own property under `name`
is `own` (`none` when it has none). -/
def lookupUndefined {α : Type} (own : Option α) (name : String) : Bool :=
  own.isNone && !inheritedNames.contains name

/-- Lines 65-68 and 289-292: a resource with no recorded volume gets the default one. The
table `logo.synthVolume[turtle]` is a plain object, indexed by the resource name. -/
def initVolume (env : Consts) (logo : Logo) (turtle : Turtle) (name : String) : Logo :=
  if lookupUndefined (logo.synthVolume turtle name) name then
    { logo with
      synthVolume := Function.update logo.synthVolume turtle
        (Function.update (logo.synthVolume turtle) name (some [env.DEFAULTVOLUME]))
      crescendoInitialVolume := Function.update logo.crescendoInitialVolume turtle
        (Function.update (logo.crescendoInitialVolume turtle) name (some [env.DEFAULTVOLUME])) }
  else logo

/-- Lines 64 and 288 and 297: `logo.noteDrums[turtle][last(logo.inNoteBlock[turtle])].push(name)`. -/
def pushNoteDrum (logo : Logo) (turtle : Turtle) (name : String) : Except JSError Logo :=
  match pushAt logo.noteDrums turtle (last (logo.inNoteBlock turtle)) name with
  | Except.error e => Except.error e
  | Except.ok nd => Except.ok { logo with noteDrums := nd }

/-- Lines 74-78 and 319-323: the beat factor is pushed onto the innermost open note, if any,
and `pushedNote` is set. -/
def noteTail (logo : Logo) (turtle : Turtle) : Except JSError Logo :=
  if (logo.inNoteBlock turtle).length > 0 then
    match pushAt logo.noteBeatValues turtle (last (logo.inNoteBlock turtle))
        (logo.beatFactor turtle) with
    | Except.error e => Except.error e
    | Except.ok nb =>
      Except.ok { logo with
        noteBeatValues := nb
        pushedNote := Function.update logo.pushedNote turtle true }
  else
    Except.ok { logo with pushedNote := Function.update logo.pushedNote turtle true }

/-- Lines 276-278 and 284-286: `blk` joins `logo.drumBlocks` unless it is there. -/
def addDrumBlock (logo : Logo) (blk : Blk) : Logo :=
  if jsIndexOf logo.drumBlocks blk = -1 then
    { logo with drumBlocks := logo.drumBlocks ++ [blk] }
  else logo

/-- The test of line 293, `connections[0] == null && last(connections) == null`. -/
def isStandalone (connections : List (Option Blk)) : Bool :=
  (connections.head?).join.isNone && (last connections).join.isNone

/-- Lines 44-45 and 246-247: a bad input is reported through `logo.errorMsg`. -/
def reportBadInput (args : List JSVal) (logo : Logo) (blk : Blk) : Logo :=
  if badInput args then errorMsg logo ErrMsg.NOINPUTERRORMSG blk else logo

/-! ## `PlayNoiseBlock` -/

/-- Lines 43-49 of `PlayNoiseBlock.flow`: the variable `arg`. -/
def PlayNoiseBlock.arg (args : List JSVal) : String :=
  if badInput args then "noise1" else strOf (argAt args 0) "noise1"

/-- Lines 51-60 of `PlayNoiseBlock.flow`: the variable `noisename`. -/
def PlayNoiseBlock.noisename (env : Consts) (arg : String) : String :=
  aliasScan env.NOISENAMES arg arg

/-- Lines 62-78 of `PlayNoiseBlock.flow`: the noise is added to the innermost open note as
if it were a drum; without an open note the block is reported and the function returns. -/
def PlayNoiseBlock.play (env : Consts) (logo : Logo) (turtle : Turtle) (blk : Blk)
    (noisename : String) : Except JSError Logo :=
  if (logo.inNoteBlock turtle).length > 0 then
    match pushNoteDrum logo turtle noisename with
    | Except.error e => Except.error e
    | Except.ok logo => noteTail (initVolume env logo turtle noisename) turtle
  else
    Except.ok (errorMsg logo ErrMsg.noiseUsage blk)

/-- The method `PlayNoiseBlock.flow(args, logo, turtle, blk)` (lines 42-79). -/
def PlayNoiseBlock.flow (env : Consts) (args : List JSVal) (logo : Logo) (turtle : Turtle)
    (blk : Blk) : Except JSError Logo :=
  let logo := reportBadInput args logo blk
  let arg := PlayNoiseBlock.arg args
  let noisename := PlayNoiseBlock.noisename env arg
  PlayNoiseBlock.play env logo turtle blk noisename

/-! ## The clamp blocks `MapDrumBlock` and `SetDrumBlock` -/

/-- The listener name `'_mapdrum_' + turtle`. -/
def MapDrumBlock.listenerName (turtle : Turtle) : String :=
  "_mapdrum_" ++ toString turtle

/-- The listener name `'_setdrum_' + turtle`. -/
def SetDrumBlock.listenerName (turtle : Turtle) : String :=
  "_setdrum_" ++ toString turtle

/-- The bodies of the two closures `__listener` (lines 155-157 and 206-209). -/
def runListener (l : Listener) (logo : Logo) : Logo :=
  match l with
  | Listener.mapdrum turtle =>
    { logo with drumStyle := Function.update logo.drumStyle turtle (pop (logo.drumStyle turtle)) }
  | Listener.setdrum turtle =>
    { logo with
      drumStyle := Function.update logo.drumStyle turtle (pop (logo.drumStyle turtle))
      pitchDrumTable := Function.update logo.pitchDrumTable turtle [] }

/-- Lines 160-164 and 212-216: the rhythm ruler records the clamp block. -/
def recordRhythmRuler (logo : Logo) (blk : Blk) : Logo :=
  if logo.inRhythmRuler then
    { logo with
      currentDrumBlock := some blk
      rhythmRulerDrums := logo.rhythmRulerDrums ++ [blk]
      rhythmRulerRulers := logo.rhythmRulerRulers ++ [([], [])] }
  else logo

/-- Lines 141-148 of `MapDrumBlock.flow`: the variable `drumname`. -/
def MapDrumBlock.drumname (env : Consts) (args : List JSVal) : String :=
  aliasScanAll env.DRUMNAMES (argAt args 0) env.DEFAULTDRUM

/-- The method `MapDrumBlock.flow(args, logo, turtle, blk)` (lines 140-167): the new state
and the returned pair `[args[1], 1]`. -/
def MapDrumBlock.flow (env : Consts) (args : List JSVal) (logo : Logo) (turtle : Turtle)
    (blk : Blk) : Logo × (JSVal × Nat) :=
  let drumname := MapDrumBlock.drumname env args
  let logo := { logo with
    drumStyle := Function.update logo.drumStyle turtle (logo.drumStyle turtle ++ [drumname]) }
  let listenerName := MapDrumBlock.listenerName turtle
  let logo := setDispatchBlock logo blk turtle listenerName
  let logo := setListener logo turtle listenerName (Listener.mapdrum turtle)
  let logo := recordRhythmRuler logo blk
  (logo, (argAt args 1, 1))

/-- Lines 192-199 of `SetDrumBlock.flow`: the variable `drumname`. -/
def SetDrumBlock.drumname (env : Consts) (args : List JSVal) : String :=
  aliasScanAll env.DRUMNAMES (argAt args 0) env.DEFAULTDRUM

/-- The method `SetDrumBlock.flow(args, logo, turtle, blk)` (lines 191-219): the new state
and the returned pair `[args[1], 1]`. -/
def SetDrumBlock.flow (env : Consts) (args : List JSVal) (logo : Logo) (turtle : Turtle)
    (blk : Blk) : Logo × (JSVal × Nat) :=
  let drumname := SetDrumBlock.drumname env args
  let logo := { logo with
    drumStyle := Function.update logo.drumStyle turtle (logo.drumStyle turtle ++ [drumname]) }
  let listenerName := SetDrumBlock.listenerName turtle
  let logo := setDispatchBlock logo blk turtle listenerName
  let logo := setListener logo turtle listenerName (Listener.setdrum turtle)
  let logo := recordRhythmRuler logo blk
  (logo, (argAt args 1, 1))

/-! ## `PlayDrumBlock` -/

/-- Lines 246-251 of `PlayDrumBlock.flow`: the variable `arg`. -/
def PlayDrumBlock.arg (env : Consts) (args : List JSVal) : String :=
  if badInput args then env.DEFAULTDRUM else strOf (argAt args 0) env.DEFAULTDRUM

/-- Lines 253-266 of `PlayDrumBlock.flow`: the variable `drumname` before the override. -/
def PlayDrumBlock.resolve (env : Consts) (arg : String) : String :=
  if sliceIsHttp arg then arg else aliasScan env.DRUMNAMES arg env.DEFAULTDRUM

/-- Lines 268-271 of `PlayDrumBlock.flow`: inside a setdrum clamp the top of the stack
replaces the drum name. -/
def PlayDrumBlock.override (logo : Logo) (turtle : Turtle) (drumname : String) : String :=
  if (logo.drumStyle turtle).length > 0 then (last (logo.drumStyle turtle)).getD drumname
  else drumname

/-- Lines 299-306 of `PlayDrumBlock.flow`: the local variable `beatValue`. -/
def PlayDrumBlock.beatValue (env : Consts) (logo : Logo) (turtle : Turtle) : ℚ :=
  let bpmFactor :=
    if (logo.bpm turtle).length > 0 then env.TONEBPM / (last (logo.bpm turtle)).getD 0
    else env.TONEBPM / logo.masterBPM
  let noteBeatValue : ℚ := 4
  bpmFactor / noteBeatValue

/-- The closure `__callback` of lines 308-311, for the turtle and block it captures. -/
def PlayDrumBlock.callback (turtle : Turtle) (blk : Blk) (logo : Logo) : Logo :=
  let j := jsIndexOf (logo.inNoteBlock turtle) blk
  { logo with
    inNoteBlock := Function.update logo.inNoteBlock turtle (spliceOne (logo.inNoteBlock turtle) j) }

/-- Lines 295-297 of `PlayDrumBlock.flow`: the stand-alone block opens a note of its own
and puts the drum name into it. -/
def PlayDrumBlock.openOwnNote (logo : Logo) (turtle : Turtle) (blk : Blk)
    (drumname : String) : Except JSError Logo :=
  let logo := clearNoteParams logo turtle blk []
  let logo := { logo with
    inNoteBlock := Function.update logo.inNoteBlock turtle (logo.inNoteBlock turtle ++ [blk]) }
  pushNoteDrum logo turtle drumname

/-- Lines 294-313 of `PlayDrumBlock.flow`: a stand-alone drum block played as a quarter
note. The value `beatValue` is computed and not used; `_processNote` receives
`noteBeatValue`. The assignment of line 308 throws a `ReferenceError` unless the global
variable `__callback` exists (`env.globalCallback`): line 313 is not reached then, nothing is
scheduled, and the note opened by lines 295-297 stays open. -/
def PlayDrumBlock.standalone (env : Consts) (logo : Logo) (turtle : Turtle) (blk : Blk)
    (drumname : String) : Except JSError Logo :=
  match PlayDrumBlock.openOwnNote logo turtle blk drumname with
  | Except.error e => Except.error e
  | Except.ok logo =>
    let noteBeatValue : ℚ := 4
    let _beatValue := PlayDrumBlock.beatValue env logo turtle
    if env.globalCallback then Except.ok (processNote logo noteBeatValue blk turtle)
    else Except.error (JSError.referenceError "__callback")

/-- Lines 273-317 of `PlayDrumBlock.flow`: the dispatch on the surrounding context. The
result is `none` in the last branch (lines 315-316), where the caller reports the usage
warning and returns early. -/
def PlayDrumBlock.dispatch (env : Consts) (logo : Logo) (turtle : Turtle) (blk : Blk)
    (drumname : String) : Except JSError (Option Logo) :=
  if logo.inPitchDrumMatrix then
    Except.ok (some (addDrumBlock { logo with
      pitchDrumMatrixDrums := logo.pitchDrumMatrixDrums ++ [drumname]
      pitchDrumMatrixColBlocks := logo.pitchDrumMatrixColBlocks ++ [blk] } blk))
  else if logo.inMatrix then
    Except.ok (some (addDrumBlock { logo with
      rowLabels := logo.rowLabels ++ [drumname]
      rowArgs := logo.rowArgs ++ [-1]
      pitchTimeMatrixRowBlocks := logo.pitchTimeMatrixRowBlocks ++ [blk] } blk))
  else if (logo.inNoteBlock turtle).length > 0 then
    match pushNoteDrum logo turtle drumname with
    | Except.error e => Except.error e
    | Except.ok logo => Except.ok (some (initVolume env logo turtle drumname))
  else
    match logo.connections blk with
    | none => Except.error JSError.typeError
    | some connections =>
      if isStandalone connections then
        match PlayDrumBlock.standalone env logo turtle blk drumname with
        | Except.error e => Except.error e
        | Except.ok logo => Except.ok (some logo)
      else
        Except.ok none

/-- Lines 273-323 of `PlayDrumBlock.flow`: the dispatch, then, unless the function has
returned early with the usage warning, the beat factor and the `pushedNote` flag. -/
def PlayDrumBlock.play (env : Consts) (logo : Logo) (turtle : Turtle) (blk : Blk)
    (drumname : String) : Except JSError Logo :=
  match PlayDrumBlock.dispatch env logo turtle blk drumname with
  | Except.error e => Except.error e
  | Except.ok none => Except.ok (errorMsg logo ErrMsg.drumUsage blk)
  | Except.ok (some logo) => noteTail logo turtle

/-- The method `PlayDrumBlock.flow(args, logo, turtle, blk)` (lines 245-324). -/
def PlayDrumBlock.flow (env : Consts) (args : List JSVal) (logo : Logo) (turtle : Turtle)
    (blk : Blk) : Except JSError Logo :=
  let logo := reportBadInput args logo blk
  let arg := PlayDrumBlock.arg env args
  let drumname := PlayDrumBlock.override logo turtle (PlayDrumBlock.resolve env arg)
  PlayDrumBlock.play env logo turtle blk drumname

/-! ## Traces of clamp blocks -/

/-- The two clamp blocks of the drum palette. -/
inductive ClampKind where
  | mapdrum : ClampKind
  | setdrum : ClampKind
  deriving DecidableEq, Repr

/-- One step of a run of clamp blocks for one turtle: a flow call of a clamp block, or the
invocation of the exit listener such a call registered. -/
inductive ClampEvent where
  | enter (kind : ClampKind) (args : List JSVal) (blk : Blk) : ClampEvent
  | exit (kind : ClampKind) : ClampEvent

/-- A well-nested run of clamp blocks: nothing, or a clamp whose flow call is followed by a
well-nested body, then by its own exit listener, then by a well-nested rest. -/
inductive Regions where
  | done : Regions
  | clamp (kind : ClampKind) (args : List JSVal) (blk : Blk) (body next : Regions) : Regions

/-- The sequence of flow calls and listener invocations of a well-nested run. -/
def Regions.events : Regions → List ClampEvent
  | Regions.done => []
  | Regions.clamp kind args blk body next =>
    ClampEvent.enter kind args blk :: (body.events ++ ClampEvent.exit kind :: next.events)

/-- The state after the flow call of a clamp block. -/
def clampFlow (env : Consts) (kind : ClampKind) (args : List JSVal) (logo : Logo)
    (turtle : Turtle) (blk : Blk) : Logo :=
  match kind with
  | ClampKind.mapdrum => (MapDrumBlock.flow env args logo turtle blk).1
  | ClampKind.setdrum => (SetDrumBlock.flow env args logo turtle blk).1

/-- The closure a flow call of a clamp block registers for its turtle. -/
def clampListener (kind : ClampKind) (turtle : Turtle) : Listener :=
  match kind with
  | ClampKind.mapdrum => Listener.mapdrum turtle
  | ClampKind.setdrum => Listener.setdrum turtle

/-- One step of a run of clamp blocks for `turtle`. -/
def stepClamp (env : Consts) (turtle : Turtle) (logo : Logo) : ClampEvent → Logo
  | ClampEvent.enter kind args blk => clampFlow env kind args logo turtle blk
  | ClampEvent.exit kind => runListener (clampListener kind turtle) logo

/-- A run of clamp blocks for `turtle`, step by step. -/
def runClamps (env : Consts) (turtle : Turtle) (logo : Logo) (events : List ClampEvent) : Logo :=
  events.foldl (stepClamp env turtle) logo

/-! ## The listeners as calls -/

/-- The call `__listener(event)` of a closure registered by a clamp block (lines 155-157 and
206-209). No statement of either closure throws: `pop()` on an empty array returns
`undefined`, and the table is reset by an assignment. -/
def invokeListener (l : Listener) (logo : Logo) : Except JSError Logo :=
  Except.ok (runListener l logo)

/-- What the drum blocks keep for one turtle `u`: `drumStyle[u]`, `inNoteBlock[u]`,
`noteDrums[u]`, `noteBeatValues[u]` and `pushedNote[u]`. -/
def actorView (logo : Logo) (u : Turtle) :
    List String × List Blk × (Blk → Option (List String)) × (Blk → Option (List ℚ)) × Bool :=
  (logo.drumStyle u, logo.inNoteBlock u, logo.noteDrums u, logo.noteBeatValues u,
    logo.pushedNote u)

/-! ## The turtle list (`js/turtles.js`) -/

/-- An actor object, an instance of the class `Turtle`: the reference of the object and the
values of the fields `turtles.js` reads through it. Two values stand for the same object
exactly when their `ref` is the same, whatever the other fields hold; two objects with
different `ref` may agree in every other field. -/
structure TurtleObject where
  ref : Nat
  id : Nat
  name : String
  companionTurtle : JSVal
  inTrash : Bool
  running : Bool
  deriving DecidableEq, Repr

/-- The value of `array[index]` for an integer `index`: `undefined` (here `none`) outside
`0 .. length - 1`. -/
def jsGet {α : Type} (array : List α) (index : Int) : Option α :=
  if index < 0 then none else array.get? index.toNat

/-- The test `!turtle` on an entry of the turtle list: an object is truthy. -/
def TurtleObject.isFalsy (_turtle : TurtleObject) : Bool :=
  false

/-- The method `getTurtleCount()` (lines 441-443) on the list `_turtleList`. -/
def TurtlesModel.getTurtleCount (turtleList : List TurtleObject) : Nat :=
  turtleList.length

/-- The method `getTurtle(index)` (lines 427-433) on the list `_turtleList`, for an integer
`index`. -/
def TurtlesModel.getTurtle (turtleList : List TurtleObject) (index : Int) :
    Except JSError TurtleObject :=
  match jsGet turtleList index with
  | none => Except.error (JSError.notFound index)
  | some turtle =>
    if turtle.isFalsy then Except.error (JSError.notFound index) else Except.ok turtle

/-- The method `removeTurtle(index)` (lines 471-475) on the list `_turtleList`, for an integer
`index`: the list afterwards. -/
def TurtlesModel.removeTurtle (turtleList : List TurtleObject) (index : Int) :
    List TurtleObject :=
  if index ≥ 0 ∧ index < (turtleList.length : Int) then spliceOne turtleList index
  else turtleList

/-- The test `this._turtleList.includes(turtle)` of line 451: `includes` compares object
references, not the values of fields. -/
def TurtlesModel.includes (turtleList : List TurtleObject) (turtle : TurtleObject) : Bool :=
  turtleList.any (fun entry => entry.ref == turtle.ref)

/-- The method `pushTurtle(turtle)` (lines 450-453) on the list `_turtleList`: the list
afterwards. -/
def TurtlesModel.pushTurtle (turtleList : List TurtleObject) (turtle : TurtleObject) :
    List TurtleObject :=
  if !TurtlesModel.includes turtleList turtle then turtleList ++ [turtle] else turtleList

/-- The loop of `companionTurtle(i)` (lines 589-593) from the index `t` on, with `steps`
turns left before `t` reaches `getTurtleCount()`; after the loop `i` is returned (line
594). -/
def TurtlesModel.companionTurtleFrom (turtleList : List TurtleObject) (i : JSVal) :
    Nat → Nat → Except JSError JSVal
  | 0, _ => Except.ok i
  | steps + 1, t =>
    match TurtlesModel.getTurtle turtleList t with
    | Except.error e => Except.error e
    | Except.ok turtle =>
      if turtle.companionTurtle = i then Except.ok (JSVal.num t)
      else TurtlesModel.companionTurtleFrom turtleList i steps (t + 1)

/-- The method `companionTurtle(i)` (lines 588-595) on the list `_turtleList`. -/
def TurtlesModel.companionTurtle (turtleList : List TurtleObject) (i : JSVal) :
    Except JSError JSVal :=
  TurtlesModel.companionTurtleFrom turtleList i (TurtlesModel.getTurtleCount turtleList) 0

/-- The loop of `turtleCount()` (lines 603-607) from the index `t` on, with `steps` turns
left and `count` turtles counted so far. The second operand of `&&` is evaluated only when
the first holds. -/
def TurtlesModel.turtleCountFrom (turtleList : List TurtleObject) :
    Nat → Nat → Nat → Except JSError Nat
  | 0, _, count => Except.ok count
  | steps + 1, t, count =>
    match TurtlesModel.companionTurtle turtleList (JSVal.num t) with
    | Except.error e => Except.error e
    | Except.ok c =>
      if c = JSVal.num t then
        match TurtlesModel.getTurtle turtleList t with
        | Except.error e => Except.error e
        | Except.ok turtle =>
          if !turtle.inTrash then TurtlesModel.turtleCountFrom turtleList steps (t + 1) (count + 1)
          else TurtlesModel.turtleCountFrom turtleList steps (t + 1) count
      else TurtlesModel.turtleCountFrom turtleList steps (t + 1) count

/-- The method `turtleCount()` (lines 601-609) on the list `_turtleList`. -/
def TurtlesModel.turtleCount (turtleList : List TurtleObject) : Except JSError Nat :=
  TurtlesModel.turtleCountFrom turtleList (TurtlesModel.getTurtleCount turtleList) 0 0

/-- A start block, as far as `add` reads or writes it. -/
structure StartBlock where
  name : String
  value : JSVal
  deriving DecidableEq, Repr

/-- The part of the component `Turtles` that `add` reads or writes. The calls of the
collaborators are recorded, oldest first. -/
structure Turtles where
  turtleList : List TurtleObject
  /-- The calls of `addTurtleStageProps(turtle, blkInfoAvailable, infoDict)`. -/
  stageProps : List (TurtleObject × Bool)
  /-- The calls of `createArtwork(turtle, i, useTurtleArtwork)`. -/
  artwork : List (TurtleObject × Nat × Bool)
  /-- The calls of `createHitArea(turtle)`. -/
  hitAreas : List TurtleObject
  /-- The handlers registered with `turtle.container.on(event, ...)`. -/
  handlers : List (TurtleObject × String)
  /-- The calls of `addTurtleGraphicProps(turtle, blkInfoAvailable, infoDict)`. -/
  graphicProps : List (TurtleObject × Bool)
  /-- The number of calls of `this.activity.refreshCanvas()`. -/
  refreshCanvasCalls : Nat

/-- The value `blkInfoAvailable` of lines 110-111, for `infoDict` an object (its list of
keys and values) or `undefined` (here `none`). -/
def blkInfoAvailable (infoDict : Option (List (String × JSVal))) : Bool :=
  match infoDict with
  | none => false
  | some entries => decide (entries.length > 0)

/-- The loop of lines 141-146 of `add` from the index `j` on, with `steps` turns left: the
value of `i` after the loop. -/
def Turtles.companionColourFrom (turtleList : List TurtleObject) (i : Nat) :
    Nat → Nat → Except JSError Nat
  | 0, _ => Except.ok i
  | steps + 1, j =>
    match TurtlesModel.getTurtle turtleList j with
    | Except.error e => Except.error e
    | Except.ok turtle =>
      if turtle.companionTurtle
          = JSVal.num ((TurtlesModel.getTurtleCount turtleList : Int) - 1) then
        Except.ok (j % 10)
      else Turtles.companionColourFrom turtleList i steps (j + 1)

/-- Lines 150-224 of `add`: the hit area, the five event handlers, the graphic properties
and the canvas refresh. -/
def Turtles.finishAdd (self : Turtles) (turtle : TurtleObject) (info : Bool) : Turtles :=
  { self with
    hitAreas := self.hitAreas ++ [turtle]
    handlers := self.handlers ++ [(turtle, "mousedown"), (turtle, "pressup"), (turtle, "click"),
      (turtle, "mouseover"), (turtle, "mouseout")]
    graphicProps := self.graphicProps ++ [(turtle, info)]
    refreshCanvasCalls := self.refreshCanvasCalls + 1 }

/-- Modelled from the spec: the class `Turtle` is not under `src/`. The expression
`new Turtle(this.activity, id, turtleName, this, startBlock)` of line 121 "constructs ... a
new Actor": the object did not exist before, so its reference is the reference of no entry
of the list, whatever its fields hold. The values of its fields are those of `made`; which
reference it gets is of no consequence to the code, which only compares references, and the
model takes the first number above the references of the list. -/
def newTurtle (turtleList : List TurtleObject) (made : TurtleObject) : TurtleObject :=
  { made with ref := (turtleList.map TurtleObject.ref).foldr max 0 + 1 }

/-- The method `add(startBlock, infoDict)` (lines 101-225) for `startBlock` a block or `null`
(here `none`) and `infoDict` an object or `undefined`: the component and the start block
afterwards. The class `Turtle` is outside the two source files; `made` gives the fields of
the object that `new Turtle(this.activity, id, turtleName, this, startBlock)` constructs. -/
def Turtles.add (self : Turtles) (startBlock : Option StartBlock)
    (infoDict : Option (List (String × JSVal))) (made : TurtleObject) :
    Except JSError (Turtles × Option StartBlock) :=
  let count := TurtlesModel.getTurtleCount self.turtleList
  let startBlock := startBlock.map (fun b =>
    if b.value ≠ JSVal.num count then { b with value := JSVal.num count } else b)
  let info := blkInfoAvailable infoDict
  let turtle := newTurtle self.turtleList made
  let self := { self with stageProps := self.stageProps ++ [(turtle, info)] }
  let i := TurtlesModel.getTurtleCount self.turtleList % 10
  let self := { self with turtleList := TurtlesModel.pushTurtle self.turtleList turtle }
  match startBlock with
  | none => Except.ok (self, none)
  | some b =>
    if b.name = "start" then
      Except.ok (Turtles.finishAdd { self with artwork := self.artwork ++ [(turtle, i, true)] }
        turtle info, some b)
    else
      match Turtles.companionColourFrom self.turtleList i
          (TurtlesModel.getTurtleCount self.turtleList) 0 with
      | Except.error e => Except.error e
      | Except.ok i =>
        Except.ok (Turtles.finishAdd
          { self with artwork := self.artwork ++ [(turtle, i, false)] } turtle info, some b)

/-! ## Traces of the turtle list -/

/-- A call that changes the turtle list. -/
inductive ListOp where
  | pushTurtle (turtle : TurtleObject) : ListOp
  | removeTurtle (index : Int) : ListOp

/-- The turtle list after one call. -/
def applyOp (turtleList : List TurtleObject) : ListOp → List TurtleObject
  | ListOp.pushTurtle turtle => TurtlesModel.pushTurtle turtleList turtle
  | ListOp.removeTurtle index => TurtlesModel.removeTurtle turtleList index

/-- The turtle list reached from the empty list by a sequence of calls. -/
def runOps (ops : List ListOp) : List TurtleObject :=
  ops.foldl applyOp []

/-! ## Counting turtles, in the words of the specification -/

/-- An actor has a companion link when its field `companionTurtle` is a number. -/
def hasLink (turtle : TurtleObject) : Bool :=
  match turtle.companionTurtle with
  | JSVal.num _ => true
  | _ => false

/-- The number of actors that have no companion link and are not in the trash. -/
def countUnlinkedLive (turtleList : List TurtleObject) : Nat :=
  (turtleList.filter (fun turtle => !hasLink turtle && !turtle.inTrash)).length

/-- The test that the actor at index `t` is not in the trash and that no companion link of
the list points at `t`. -/
def isUntargetedLive (turtleList : List TurtleObject) (t : Nat) : Bool :=
  decide (∀ turtle ∈ turtleList, turtle.companionTurtle ≠ JSVal.num t) &&
    (match turtleList.get? t with
     | some turtle => !turtle.inTrash
     | none => false)

/-- The number of actors that are not in the trash and at whose index no companion link
points. -/
def countUntargetedLive (turtleList : List TurtleObject) : Nat :=
  ((List.range turtleList.length).filter (isUntargetedLive turtleList)).length

/-- The registries of the claim on `turtleCount`: each companion link that is set points
at the index of another actor that itself has no link, and no two links point at the same
index. -/
def wellLinked (turtleList : List TurtleObject) : Bool :=
  (List.range turtleList.length).all (fun s =>
    match turtleList.get? s with
    | none => true
    | some turtle =>
      match turtle.companionTurtle with
      | JSVal.num n =>
        decide (0 ≤ n) && decide (n ≠ (s : Int)) &&
          (match turtleList.get? n.toNat with
           | some target => !hasLink target
           | none => false)
      | _ => true) &&
    decide ((turtleList.map (fun turtle => turtle.companionTurtle)).filter
      (fun v => match v with
        | JSVal.num _ => true
        | _ => false)).Nodup

/-! ## `PlayDrumMacroBlock` -/

/-- The truthiness of a value. -/
def truthy (v : JSVal) : Bool :=
  match v with
  | JSVal.undefined => false
  | JSVal.null => false
  | JSVal.bool b => b
  | JSVal.num n => decide (n ≠ 0)
  | JSVal.str s => decide (s ≠ "")

/-- The value of `a || b`. -/
def jsOr (a b : JSVal) : JSVal :=
  if truthy a then a else b

/-- The macro of `PlayDrumMacroBlock(name, displayName, isDrum, drumName)` (lines 88-91): a
block `playdrum` whose argument is a name block. -/
structure DrumMacro where
  /-- The name of block `0` of the macro. -/
  block : String
  /-- The name of block `1`, `isDrum ? 'drumname' : 'effectsname'`. -/
  nameBlock : String
  /-- The field `value` of block `1`: `drumName || isDrum ? (displayName || name) : name`,
  in which `? :` binds less tightly than `||`. -/
  value : JSVal
  deriving DecidableEq, Repr

/-- The macro built by the constructor `PlayDrumMacroBlock(name, displayName, isDrum,
drumName)` (lines 84-92); an argument that is not passed is `undefined`. -/
def PlayDrumMacroBlock.macroOf (name displayName isDrum drumName : JSVal) : DrumMacro where
  block := "playdrum"
  nameBlock := if truthy isDrum then "drumname" else "effectsname"
  value := if truthy (jsOr drumName isDrum) then jsOr displayName name else name

/-- The constructor calls of `_createPlayDrumMacros` (lines 95-118), in order. -/
def createPlayDrumMacros : List (JSVal × JSVal × JSVal × JSVal) :=
  let u := JSVal.undefined
  let t := JSVal.bool true
  let s := JSVal.str
  [(s "duck", u, u, u), (s "cat", u, u, u), (s "cricket", u, u, u), (s "dog", u, u, u),
    (s "bottle", u, u, u), (s "bubbles", u, u, u), (s "chine", s "chime", t, u),
    (s "clang", u, u, u), (s "clap", u, u, u), (s "slap", u, u, u), (s "crash", u, u, u),
    (s "splash", u, u, u), (s "cowbell", s "cow bell", t, u),
    (s "ridebell", s "ride bell", t, u), (s "fingercymbals", s "finger cymbals", t, u),
    (s "trianglebell", s "triangle bell", t, u), (s "hihat", s "hi hat", t, u),
    (s "darbuka", s "darbuka drum", t, u), (s "cup", s "cup drum", t, u),
    (s "floortom", s "floor tom", t, s "floor tom tom"), (s "tom", s "tom tom", t, u),
    (s "kick", s "kick drum", t, u), (s "snare", s "snare drum", t, u)]

/-- The macro of the block that `_createPlayDrumMacros` sets up under `name`, if any. -/
def macroNamed (name : String) : Option DrumMacro :=
  (createPlayDrumMacros.find? (fun call => decide (call.1 = JSVal.str name))).map
    (fun call => PlayDrumMacroBlock.macroOf call.1 call.2.1 call.2.2.1 call.2.2.2)

/-! ## Sample data -/

/-- An interpreter state with no turtle inside anything: every table empty, every flag off,
every block without connections. -/
def emptyLogo : Logo where
  drumStyle := fun _ => []
  pitchDrumTable := fun _ => []
  inNoteBlock := fun _ => []
  noteDrums := fun _ _ => none
  noteBeatValues := fun _ _ => none
  beatFactor := fun _ => 1
  pushedNote := fun _ => false
  synthVolume := fun _ _ => none
  crescendoInitialVolume := fun _ _ => none
  bpm := fun _ => []
  masterBPM := 90
  inPitchDrumMatrix := false
  inMatrix := false
  inRhythmRuler := false
  pitchDrumMatrixDrums := []
  pitchDrumMatrixColBlocks := []
  rowLabels := []
  rowArgs := []
  pitchTimeMatrixRowBlocks := []
  drumBlocks := []
  currentDrumBlock := none
  rhythmRulerDrums := []
  rhythmRulerRulers := []
  connections := fun _ => some [none, none, none]
  errors := []
  processNoteCalls := []
  dispatchBlocks := []
  listeners := fun _ _ => none

/-- The state `emptyLogo` with one note, block `5`, open for turtle `0`. -/
def openNoteLogo : Logo :=
  { emptyLogo with
    inNoteBlock := fun t => if t = 0 then [5] else []
    noteDrums := fun t b => if t = 0 ∧ b = 5 then some [] else none
    noteBeatValues := fun t b => if t = 0 ∧ b = 5 then some [] else none }

/-- A small alias table in which the informal name `bass` occurs twice and the canonical
name `tom tom` is also the informal name of another row. -/
def sampleConsts : Consts where
  DRUMNAMES := [("snare", "snare drum"), ("bass", "kick drum"), ("bass", "floor tom"),
    ("tom tom", "floor tom"), ("tom", "tom tom")]
  NOISENAMES := [("white noise", "noise1"), ("noise2", "noise1"), ("brown noise", "noise2")]
  DEFAULTDRUM := "kick drum"
  DEFAULTVOLUME := 50
  TONEBPM := 240000
  globalCallback := false

/-- The constants of `sampleConsts` on a page where a script outside the two source files
has created the global variable `__callback`. -/
def hostConsts : Consts :=
  { sampleConsts with globalCallback := true }

/-- Alias tables in which no canonical name is the informal name of another row. -/
def plainConsts : Consts where
  DRUMNAMES := [("snare", "snare drum"), ("kick", "kick drum"), ("tom tom", "tom tom")]
  NOISENAMES := [("white noise", "noise1"), ("brown noise", "noise2")]
  DEFAULTDRUM := "kick drum"
  DEFAULTVOLUME := 50
  TONEBPM := 240000
  globalCallback := false

/-- The state `emptyLogo` at tempo 90: the stack `bpm[turtle]` holds one entry, `90`, and the
master tempo is `120`. -/
def tempoLogo : Logo :=
  { emptyLogo with
    bpm := fun _ => [90]
    masterBPM := 120 }

/-- A state in which both matrices are under construction while turtle `0` has the note `5`
open. -/
def matrixLogo : Logo :=
  { openNoteLogo with
    inPitchDrumMatrix := true
    inMatrix := true }

/-- A state in which turtle `0` is inside a setdrum clamp (`kick drum`) with the note `5`
open. -/
def clampedNoteLogo : Logo :=
  { openNoteLogo with drumStyle := fun t => if t = 0 then ["kick drum"] else [] }

/-- A state in which turtle `0` has the notes `7` and `8` open, `8` innermost. -/
def twoNotesLogo : Logo :=
  { emptyLogo with
    inNoteBlock := fun t => if t = 0 then [7, 8] else []
    noteDrums := fun t b => if t = 0 ∧ (b = 7 ∨ b = 8) then some [] else none
    noteBeatValues := fun t b => if t = 0 ∧ (b = 7 ∨ b = 8) then some [] else none }

/-- A state in which a block with a connection before it is run outside any note. -/
def connectedLogo : Logo :=
  { emptyLogo with connections := fun _ => some [some 3, none] }

/-- A state in which every turtle has the note `5` open, with empty lists. -/
def busyLogo : Logo :=
  { emptyLogo with
    inNoteBlock := fun _ => [5]
    noteDrums := fun _ _ => some []
    noteBeatValues := fun _ _ => some [] }

/-- Three actor objects. -/
def sampleTurtles : List TurtleObject :=
  [{ ref := 1, id := 100, name := "start", companionTurtle := JSVal.undefined,
      inTrash := false, running := false },
    { ref := 2, id := 101, name := "drone", companionTurtle := JSVal.num 0, inTrash := false,
      running := true },
    { ref := 3, id := 102, name := "start", companionTurtle := JSVal.undefined,
      inTrash := true, running := false }]

/-- A component with no turtle and no call recorded. -/
def emptyTurtles : Turtles where
  turtleList := []
  stageProps := []
  artwork := []
  hitAreas := []
  handlers := []
  graphicProps := []
  refreshCanvasCalls := 0

/-- A primary actor: no companion link, not in the trash. -/
def primaryTurtle : TurtleObject where
  ref := 10
  id := 200
  name := "start"
  companionTurtle := JSVal.null
  inTrash := false
  running := false

/-- An actor whose companion link is the index `0`, not in the trash. -/
def linkedTurtle : TurtleObject where
  ref := 11
  id := 201
  name := "drum"
  companionTurtle := JSVal.num 0
  inTrash := false
  running := false

/-- An actor whose companion link is the index `1`, not in the trash. -/
def linkedToOneTurtle : TurtleObject where
  ref := 12
  id := 202
  name := "drum"
  companionTurtle := JSVal.num 1
  inTrash := false
  running := false

/-- An actor whose companion link is the index `2`, not in the trash. -/
def linkedToTwoTurtle : TurtleObject where
  ref := 13
  id := 203
  name := "drum"
  companionTurtle := JSVal.num 2
  inTrash := false
  running := false

/-- The fields of a freshly constructed actor. -/
def freshTurtle : TurtleObject where
  ref := 20
  id := 300
  name := "start"
  companionTurtle := JSVal.null
  inTrash := false
  running := false

/-! ## Lemmas on the alias loops -/

theorem aliasScan_split (pre : List (String × String)) (row : String × String)
    (post : List (String × String)) (arg dflt : String)
    (hpre : ∀ r ∈ pre, r.1 ≠ arg ∧ r.2 ≠ arg) (hrow : row.1 = arg ∨ row.2 = arg) :
    aliasScan (pre ++ row :: post) arg dflt = row.2 := by
  induction pre with
  | nil =>
    by_cases h1 : row.1 = arg
    · simp [aliasScan, h1]
    · have h2 : row.2 = arg := hrow.resolve_left h1
      simp [aliasScan, h1, h2]
  | cons hd tl ih =>
    have h0 := hpre hd (List.mem_cons_self _ _)
    simp only [List.cons_append, aliasScan, h0.1, h0.2, if_false]
    exact ih (fun r hr => hpre r (List.mem_cons_of_mem _ hr))

theorem exists_first_match (table : List (String × String)) (arg : String)
    (h : ∃ row ∈ table, row.1 = arg ∨ row.2 = arg) :
    ∃ pre row post, table = pre ++ row :: post ∧ (∀ r ∈ pre, r.1 ≠ arg ∧ r.2 ≠ arg) ∧
      (row.1 = arg ∨ row.2 = arg) := by
  induction table with
  | nil => obtain ⟨r, hr, _⟩ := h; simp at hr
  | cons hd tl ih =>
    by_cases h1 : hd.1 = arg ∨ hd.2 = arg
    · exact ⟨[], hd, tl, rfl, by simp, h1⟩
    · have h' : ∃ row ∈ tl, row.1 = arg ∨ row.2 = arg := by
        obtain ⟨r, hr, hm⟩ := h
        rcases List.mem_cons.1 hr with rfl | hr
        · exact absurd hm h1
        · exact ⟨r, hr, hm⟩
      obtain ⟨pre, row, post, e, hp, hm⟩ := ih h'
      refine ⟨hd :: pre, row, post, by simp [e], ?_, hm⟩
      intro r hr
      rcases List.mem_cons.1 hr with rfl | hr
      · exact ⟨fun h => h1 (Or.inl h), fun h => h1 (Or.inr h)⟩
      · exact hp r hr

theorem aliasScan_unmatched (table : List (String × String)) (arg dflt : String)
    (h : ∀ row ∈ table, row.1 ≠ arg ∧ row.2 ≠ arg) : aliasScan table arg dflt = dflt := by
  induction table with
  | nil => rfl
  | cons hd tl ih =>
    have h0 := h hd (List.mem_cons_self _ _)
    simp only [aliasScan, h0.1, h0.2, if_false]
    exact ih (fun r hr => h r (List.mem_cons_of_mem _ hr))

theorem aliasScan_mem_canonical (table : List (String × String)) (arg dflt : String)
    (h : ∃ row ∈ table, row.1 = arg ∨ row.2 = arg) :
    ∃ row ∈ table, row.2 = aliasScan table arg dflt := by
  obtain ⟨pre, row, post, e, hp, hm⟩ := exists_first_match table arg h
  refine ⟨row, by simp [e], ?_⟩
  rw [e, aliasScan_split pre row post arg dflt hp hm]

theorem aliasScan_canonical (table : List (String × String)) (c dflt : String)
    (hmem : ∃ row ∈ table, row.2 = c) (hinf : ∀ row ∈ table, row.1 = c → row.2 = c) :
    aliasScan table c dflt = c := by
  obtain ⟨r, hr, hc⟩ := hmem
  obtain ⟨pre, row, post, e, hp, hm⟩ := exists_first_match table c ⟨r, hr, Or.inr hc⟩
  rw [e, aliasScan_split pre row post c dflt hp hm]
  rcases hm with hm | hm
  · exact hinf row (by simp [e]) hm
  · exact hm

theorem playDrum_arg_str (env : Consts) (arg : String) :
    PlayDrumBlock.arg env [JSVal.str arg] = arg := by
  simp [PlayDrumBlock.arg, badInput, argAt, looseEqNull, typeofIsString, strOf]

theorem playNoise_arg_str (arg : String) :
    PlayNoiseBlock.arg [JSVal.str arg] = arg := by
  simp [PlayNoiseBlock.arg, badInput, argAt, looseEqNull, typeofIsString, strOf]

theorem playDrum_override_empty (logo : Logo) (turtle : Turtle) (drumname : String)
    (h : logo.drumStyle turtle = []) : PlayDrumBlock.override logo turtle drumname = drumname := by
  simp [PlayDrumBlock.override, h]

theorem playDrum_override_top (logo : Logo) (turtle : Turtle) (drumname top : String)
    (stack : List String) (h : logo.drumStyle turtle = stack ++ [top]) :
    PlayDrumBlock.override logo turtle drumname = top := by
  simp [PlayDrumBlock.override, h, last]

/-! ## Alias resolution (C3, C4, C5, C6) -/

/-- C3: alias resolution in the percussive blocks is first-match-wins. If the drum table
splits as `pre ++ row :: post`, no row of `pre` has the valid string argument in either
column and `row` has it in one, then for an argument not beginning with `http` the name
`PlayDrumBlock.flow` resolves before any override is the canonical name `row.2`; the same
holds for `PlayNoiseBlock.flow` over the noise table; and for an argument beginning with
`http` `PlayDrumBlock.flow` resolves to the argument itself, whatever the table. Every
argument that is in a column of some row has such a first matching row. -/
theorem C3_first_match_wins (env : Consts) (arg : String) :
    (∀ pre row post, env.DRUMNAMES = pre ++ row :: post →
        (∀ r ∈ pre, r.1 ≠ arg ∧ r.2 ≠ arg) → (row.1 = arg ∨ row.2 = arg) →
        sliceIsHttp arg = false →
        PlayDrumBlock.resolve env (PlayDrumBlock.arg env [JSVal.str arg]) = row.2) ∧
    (∀ pre row post, env.NOISENAMES = pre ++ row :: post →
        (∀ r ∈ pre, r.1 ≠ arg ∧ r.2 ≠ arg) → (row.1 = arg ∨ row.2 = arg) →
        PlayNoiseBlock.noisename env (PlayNoiseBlock.arg [JSVal.str arg]) = row.2) ∧
    (sliceIsHttp arg = true →
        PlayDrumBlock.resolve env (PlayDrumBlock.arg env [JSVal.str arg]) = arg) ∧
    ((∃ row ∈ env.DRUMNAMES, row.1 = arg ∨ row.2 = arg) → sliceIsHttp arg = false →
        ∃ pre row post, env.DRUMNAMES = pre ++ row :: post ∧
          (∀ r ∈ pre, r.1 ≠ arg ∧ r.2 ≠ arg) ∧ (row.1 = arg ∨ row.2 = arg) ∧
          PlayDrumBlock.resolve env (PlayDrumBlock.arg env [JSVal.str arg]) = row.2) ∧
    ((∃ row ∈ env.NOISENAMES, row.1 = arg ∨ row.2 = arg) →
        ∃ pre row post, env.NOISENAMES = pre ++ row :: post ∧
          (∀ r ∈ pre, r.1 ≠ arg ∧ r.2 ≠ arg) ∧ (row.1 = arg ∨ row.2 = arg) ∧
          PlayNoiseBlock.noisename env (PlayNoiseBlock.arg [JSVal.str arg]) = row.2) := by
  have hdrum : ∀ pre row post, env.DRUMNAMES = pre ++ row :: post →
      (∀ r ∈ pre, r.1 ≠ arg ∧ r.2 ≠ arg) → (row.1 = arg ∨ row.2 = arg) →
      sliceIsHttp arg = false →
      PlayDrumBlock.resolve env (PlayDrumBlock.arg env [JSVal.str arg]) = row.2 := by
    intro pre row post e hp hm hh
    rw [playDrum_arg_str, PlayDrumBlock.resolve, hh, e]
    simpa using aliasScan_split pre row post arg env.DEFAULTDRUM hp hm
  have hnoise : ∀ pre row post, env.NOISENAMES = pre ++ row :: post →
      (∀ r ∈ pre, r.1 ≠ arg ∧ r.2 ≠ arg) → (row.1 = arg ∨ row.2 = arg) →
      PlayNoiseBlock.noisename env (PlayNoiseBlock.arg [JSVal.str arg]) = row.2 := by
    intro pre row post e hp hm
    rw [playNoise_arg_str, PlayNoiseBlock.noisename, e]
    exact aliasScan_split pre row post arg arg hp hm
  refine ⟨hdrum, hnoise, ?_, ?_, ?_⟩
  · intro hh
    rw [playDrum_arg_str, PlayDrumBlock.resolve, hh]
    rfl
  · intro hex hh
    obtain ⟨pre, row, post, e, hp, hm⟩ := exists_first_match env.DRUMNAMES arg hex
    exact ⟨pre, row, post, e, hp, hm, hdrum pre row post e hp hm hh⟩
  · intro hex
    obtain ⟨pre, row, post, e, hp, hm⟩ := exists_first_match env.NOISENAMES arg hex
    exact ⟨pre, row, post, e, hp, hm, hnoise pre row post e hp hm⟩

/-- C3, at a table where `bass` is the informal name of two rows: the first one wins in
both blocks, and an `http` reference is its own resolution. -/
theorem C3_first_match_wins_witness :
    PlayDrumBlock.resolve sampleConsts (PlayDrumBlock.arg sampleConsts [JSVal.str "bass"])
        = "kick drum" ∧
      PlayNoiseBlock.noisename sampleConsts (PlayNoiseBlock.arg [JSVal.str "noise2"])
        = "noise1" ∧
      PlayDrumBlock.resolve sampleConsts
        (PlayDrumBlock.arg sampleConsts [JSVal.str "http://a.b/c.wav"]) = "http://a.b/c.wav" :=
  ⟨(C3_first_match_wins sampleConsts "bass").1 [("snare", "snare drum")] ("bass", "kick drum")
      [("bass", "floor tom"), ("tom tom", "floor tom"), ("tom", "tom tom")] rfl
      (by decide) (by decide) (by decide),
    (C3_first_match_wins sampleConsts "noise2").2.1 [("white noise", "noise1")]
      ("noise2", "noise1") [("brown noise", "noise2")] rfl (by decide) (by decide),
    (C3_first_match_wins sampleConsts "http://a.b/c.wav").2.2.1 (by decide)⟩

/-- C4, as stated, fails: `cowbell` is in neither column of the sample table and the stack
`drumStyle[0]` is empty, yet `PlayDrumBlock.flow` resolves it to the default drum and
appends that name to the open note. -/
theorem C4_counterexample :
    (∀ row ∈ sampleConsts.DRUMNAMES, row.1 ≠ "cowbell" ∧ row.2 ≠ "cowbell") ∧
      openNoteLogo.drumStyle 0 = [] ∧
      PlayDrumBlock.override openNoteLogo 0
        (PlayDrumBlock.resolve sampleConsts (PlayDrumBlock.arg sampleConsts [JSVal.str "cowbell"]))
        = "kick drum" ∧
      "kick drum" ≠ "cowbell" ∧
      ∃ logo', PlayDrumBlock.flow sampleConsts [JSVal.str "cowbell"] openNoteLogo 0 1
          = Except.ok logo' ∧ logo'.noteDrums 0 5 = some ["kick drum"] :=
  ⟨by decide, rfl, by decide, by decide, _, rfl, rfl⟩

/-- C4, amended: for a valid string argument that is in neither column of any row of the
drum table, and an empty `drumStyle` stack, the name `PlayDrumBlock.flow` resolves is the
argument itself when the argument begins with `http`, and `DEFAULTDRUM` otherwise. -/
theorem C4_unmatched_default (env : Consts) (logo : Logo) (turtle : Turtle) (arg : String)
    (hun : ∀ row ∈ env.DRUMNAMES, row.1 ≠ arg ∧ row.2 ≠ arg)
    (hempty : logo.drumStyle turtle = []) :
    PlayDrumBlock.override logo turtle
        (PlayDrumBlock.resolve env (PlayDrumBlock.arg env [JSVal.str arg]))
      = if sliceIsHttp arg then arg else env.DEFAULTDRUM := by
  rw [playDrum_override_empty logo turtle _ hempty, playDrum_arg_str,
    PlayDrumBlock.resolve, aliasScan_unmatched env.DRUMNAMES arg env.DEFAULTDRUM hun]

/-- C4, amended, at the sample table: `cowbell` resolves to the default drum. -/
theorem C4_unmatched_default_witness :
    PlayDrumBlock.override openNoteLogo 0
        (PlayDrumBlock.resolve sampleConsts (PlayDrumBlock.arg sampleConsts [JSVal.str "cowbell"]))
      = if sliceIsHttp "cowbell" then "cowbell" else sampleConsts.DEFAULTDRUM :=
  C4_unmatched_default sampleConsts openNoteLogo 0 "cowbell" (by decide) rfl

/-- C5, the code at a table where `bass` is the informal name of two rows: the clamp blocks
push the canonical name of the last matching row (`floor tom`), `PlayDrumBlock.flow`
resolves the same argument to that of the first (`kick drum`). -/
theorem C5_clamp_last_match :
    SetDrumBlock.drumname sampleConsts [JSVal.str "bass", JSVal.num 2] = "floor tom" ∧
      MapDrumBlock.drumname sampleConsts [JSVal.str "bass", JSVal.num 2] = "floor tom" ∧
      (SetDrumBlock.flow sampleConsts [JSVal.str "bass", JSVal.num 2] emptyLogo 0 1).1.drumStyle 0
        = ["floor tom"] ∧
      (MapDrumBlock.flow sampleConsts [JSVal.str "bass", JSVal.num 2] emptyLogo 0 1).1.drumStyle 0
        = ["floor tom"] ∧
      sliceIsHttp "bass" = false ∧
      PlayDrumBlock.resolve sampleConsts (PlayDrumBlock.arg sampleConsts [JSVal.str "bass"])
        = "kick drum" := by
  decide

/-- C6, as stated, fails: `tom tom` is a canonical name of the sample drum table and
`noise2` one of the sample noise table, yet the scans resolve them to other names, and
resolving the resolution of `tom` (of `brown noise`) again gives a different name. -/
theorem C6_counterexample :
    (∃ row ∈ sampleConsts.DRUMNAMES, row.2 = "tom tom") ∧
      aliasScan sampleConsts.DRUMNAMES "tom tom" sampleConsts.DEFAULTDRUM = "floor tom" ∧
      PlayDrumBlock.resolve sampleConsts "tom" = "tom tom" ∧
      PlayDrumBlock.resolve sampleConsts (PlayDrumBlock.resolve sampleConsts "tom")
        = "floor tom" ∧
      (∃ row ∈ sampleConsts.NOISENAMES, row.2 = "noise2") ∧
      PlayNoiseBlock.noisename sampleConsts "noise2" = "noise1" ∧
      PlayNoiseBlock.noisename sampleConsts "brown noise" = "noise2" ∧
      PlayNoiseBlock.noisename sampleConsts (PlayNoiseBlock.noisename sampleConsts "brown noise")
        = "noise1" := by
  decide

/-- C6, amended: a canonical name `c` that is not the informal name of a row with another
canonical name is resolved to itself by the alias scan of `PlayDrumBlock.flow` and by that
of `PlayNoiseBlock.flow`; hence, in a table none of whose canonical names is the informal
name of a row with another canonical name, resolving the resolution of an argument again
gives the same name (for the drum block: of an argument that matches a row or begins with
`http`). -/
theorem C6_canonical_fixed (env : Consts) :
    (∀ c, (∃ row ∈ env.DRUMNAMES, row.2 = c) → (∀ row ∈ env.DRUMNAMES, row.1 = c → row.2 = c) →
        aliasScan env.DRUMNAMES c env.DEFAULTDRUM = c ∧ PlayDrumBlock.resolve env c = c) ∧
    (∀ c, (∃ row ∈ env.NOISENAMES, row.2 = c) → (∀ row ∈ env.NOISENAMES, row.1 = c → row.2 = c) →
        PlayNoiseBlock.noisename env c = c) ∧
    ((∀ r ∈ env.DRUMNAMES, ∀ row ∈ env.DRUMNAMES, row.1 = r.2 → row.2 = r.2) →
        ∀ arg, (sliceIsHttp arg = true ∨ ∃ row ∈ env.DRUMNAMES, row.1 = arg ∨ row.2 = arg) →
        PlayDrumBlock.resolve env (PlayDrumBlock.resolve env arg)
          = PlayDrumBlock.resolve env arg) ∧
    ((∀ r ∈ env.NOISENAMES, ∀ row ∈ env.NOISENAMES, row.1 = r.2 → row.2 = r.2) →
        ∀ arg, PlayNoiseBlock.noisename env (PlayNoiseBlock.noisename env arg)
          = PlayNoiseBlock.noisename env arg) := by
  have hdrum : ∀ c, (∃ row ∈ env.DRUMNAMES, row.2 = c) →
      (∀ row ∈ env.DRUMNAMES, row.1 = c → row.2 = c) → PlayDrumBlock.resolve env c = c := by
    intro c hmem hinf
    unfold PlayDrumBlock.resolve
    split
    · rfl
    · exact aliasScan_canonical _ c _ hmem hinf
  refine ⟨fun c hmem hinf => ⟨aliasScan_canonical _ c _ hmem hinf, hdrum c hmem hinf⟩,
    fun c hmem hinf => aliasScan_canonical _ c _ hmem hinf, ?_, ?_⟩
  · intro hclean arg harg
    by_cases hh : sliceIsHttp arg = true
    · have e : PlayDrumBlock.resolve env arg = arg := by simp [PlayDrumBlock.resolve, hh]
      rw [e, e]
    · have hm : ∃ row ∈ env.DRUMNAMES, row.1 = arg ∨ row.2 = arg := harg.resolve_left hh
      have e : PlayDrumBlock.resolve env arg = aliasScan env.DRUMNAMES arg env.DEFAULTDRUM := by
        simp [PlayDrumBlock.resolve, hh]
      obtain ⟨r, hr, hc⟩ := aliasScan_mem_canonical env.DRUMNAMES arg env.DEFAULTDRUM hm
      rw [e, ← hc]
      exact hdrum r.2 ⟨r, hr, rfl⟩ (fun row hrow => hclean r hr row hrow)
  · intro hclean arg
    by_cases hm : ∃ row ∈ env.NOISENAMES, row.1 = arg ∨ row.2 = arg
    · obtain ⟨r, hr, hc⟩ := aliasScan_mem_canonical env.NOISENAMES arg arg hm
      unfold PlayNoiseBlock.noisename
      rw [← hc]
      exact aliasScan_canonical _ r.2 _ ⟨r, hr, rfl⟩ (fun row hrow => hclean r hr row hrow)
    · have hun : ∀ row ∈ env.NOISENAMES, row.1 ≠ arg ∧ row.2 ≠ arg := by
        intro row hrow
        exact ⟨fun h => hm ⟨row, hrow, Or.inl h⟩, fun h => hm ⟨row, hrow, Or.inr h⟩⟩
      unfold PlayNoiseBlock.noisename
      rw [aliasScan_unmatched _ arg arg hun, aliasScan_unmatched _ arg arg hun]

/-- C6, amended, at the sample tables: `snare drum` and `noise1` are canonical names that
are no informal name of another row, and are resolved to themselves; over the plain tables
resolving twice is resolving once. -/
theorem C6_canonical_fixed_witness :
    (aliasScan sampleConsts.DRUMNAMES "snare drum" sampleConsts.DEFAULTDRUM = "snare drum" ∧
        PlayDrumBlock.resolve sampleConsts "snare drum" = "snare drum") ∧
      PlayNoiseBlock.noisename sampleConsts "noise1" = "noise1" ∧
      PlayDrumBlock.resolve plainConsts (PlayDrumBlock.resolve plainConsts "snare")
        = PlayDrumBlock.resolve plainConsts "snare" ∧
      PlayNoiseBlock.noisename plainConsts (PlayNoiseBlock.noisename plainConsts "brown noise")
        = PlayNoiseBlock.noisename plainConsts "brown noise" :=
  ⟨(C6_canonical_fixed sampleConsts).1 "snare drum" (by decide) (by decide),
    (C6_canonical_fixed sampleConsts).2.1 "noise1" (by decide) (by decide),
    (C6_canonical_fixed plainConsts).2.2.1 (by decide) "snare" (Or.inr (by decide)),
    (C6_canonical_fixed plainConsts).2.2.2 (by decide) "brown noise"⟩

/-! ## The clamp blocks and their listeners (C2) -/

theorem clampFlow_drumStyle (env : Consts) (kind : ClampKind) (args : List JSVal) (logo : Logo)
    (turtle : Turtle) (blk : Blk) :
    ∃ drumname, (clampFlow env kind args logo turtle blk).drumStyle
      = Function.update logo.drumStyle turtle (logo.drumStyle turtle ++ [drumname]) := by
  cases kind
  · refine ⟨MapDrumBlock.drumname env args, ?_⟩
    simp only [clampFlow, MapDrumBlock.flow, recordRhythmRuler, setListener, setDispatchBlock]
    split <;> rfl
  · refine ⟨SetDrumBlock.drumname env args, ?_⟩
    simp only [clampFlow, SetDrumBlock.flow, recordRhythmRuler, setListener, setDispatchBlock]
    split <;> rfl

theorem runListener_drumStyle (kind : ClampKind) (turtle : Turtle) (logo : Logo) :
    (runListener (clampListener kind turtle) logo).drumStyle
      = Function.update logo.drumStyle turtle (pop (logo.drumStyle turtle)) := by
  cases kind <;> rfl

theorem runClamps_append (env : Consts) (turtle : Turtle) (logo : Logo)
    (es fs : List ClampEvent) :
    runClamps env turtle logo (es ++ fs) = runClamps env turtle (runClamps env turtle logo es) fs := by
  simp [runClamps, List.foldl_append]

theorem runClamps_cons (env : Consts) (turtle : Turtle) (logo : Logo) (e : ClampEvent)
    (es : List ClampEvent) :
    runClamps env turtle logo (e :: es) = runClamps env turtle (stepClamp env turtle logo e) es :=
  rfl

theorem enter_exit_drumStyle (env : Consts) (kind : ClampKind) (args : List JSVal)
    (turtle : Turtle) (blk : Blk) (logo mid : Logo)
    (hmid : mid.drumStyle = (clampFlow env kind args logo turtle blk).drumStyle) :
    (runListener (clampListener kind turtle) mid).drumStyle = logo.drumStyle := by
  obtain ⟨d, hd⟩ := clampFlow_drumStyle env kind args logo turtle blk
  rw [runListener_drumStyle, hmid, hd]
  simp [pop]

theorem runClamps_regions_drumStyle (env : Consts) (turtle : Turtle) (r : Regions) :
    ∀ logo : Logo, (runClamps env turtle logo r.events).drumStyle = logo.drumStyle := by
  induction r with
  | done => intro logo; rfl
  | clamp kind args blk body next ihb ihn =>
    intro logo
    rw [Regions.events, runClamps_cons, runClamps_append, runClamps_cons, ihn]
    exact enter_exit_drumStyle env kind args turtle blk logo _ (ihb _)

/-- C2: for every turtle and every well-nested run of `SetDrumBlock.flow` and
`MapDrumBlock.flow` calls, each matched later by one invocation of the listener it
registered, `drumStyle` at the end is `drumStyle` at the start (so `drumStyle[turtle]` is
empty if it started empty); in particular one flow call followed at once by its listener
restores `drumStyle[turtle]` exactly. -/
theorem C2_clamps_balance (env : Consts) (turtle : Turtle) (r : Regions) (logo : Logo) :
    (runClamps env turtle logo r.events).drumStyle turtle = logo.drumStyle turtle ∧
      (runClamps env turtle logo r.events).drumStyle = logo.drumStyle ∧
      (∀ args blk, (runListener (Listener.setdrum turtle)
          (SetDrumBlock.flow env args logo turtle blk).1).drumStyle turtle
            = logo.drumStyle turtle) ∧
      (∀ args blk, (runListener (Listener.mapdrum turtle)
          (MapDrumBlock.flow env args logo turtle blk).1).drumStyle turtle
            = logo.drumStyle turtle) := by
  have h := runClamps_regions_drumStyle env turtle r logo
  refine ⟨by rw [h], h, ?_, ?_⟩
  · intro args blk
    exact congrFun (enter_exit_drumStyle env ClampKind.setdrum args turtle blk logo _ rfl) turtle
  · intro args blk
    exact congrFun (enter_exit_drumStyle env ClampKind.mapdrum args turtle blk logo _ rfl) turtle

/-! ## Lemmas on the shared pieces of the flow functions -/

theorem reportBadInput_eq (args : List JSVal) (logo : Logo) (blk : Blk) :
    reportBadInput args logo blk = { logo with
      errors := if badInput args then logo.errors ++ [(ErrMsg.NOINPUTERRORMSG, blk)]
        else logo.errors } := by
  unfold reportBadInput errorMsg
  split <;> rfl

theorem initVolume_eq (env : Consts) (logo : Logo) (turtle : Turtle) (name : String) :
    initVolume env logo turtle name = { logo with
      synthVolume := (initVolume env logo turtle name).synthVolume
      crescendoInitialVolume := (initVolume env logo turtle name).crescendoInitialVolume } := by
  unfold initVolume
  split <;> rfl

theorem addDrumBlock_eq (logo : Logo) (blk : Blk) :
    addDrumBlock logo blk = { logo with drumBlocks := (addDrumBlock logo blk).drumBlocks } := by
  unfold addDrumBlock
  split <;> rfl

theorem pushNoteDrum_ok (logo : Logo) (turtle : Turtle) (name : String) (pre : List Blk)
    (n : Blk) (ds : List String) (hin : logo.inNoteBlock turtle = pre ++ [n])
    (hd : logo.noteDrums turtle n = some ds) :
    pushNoteDrum logo turtle name = Except.ok { logo with
      noteDrums := Function.update logo.noteDrums turtle
        (Function.update (logo.noteDrums turtle) n (some (ds ++ [name]))) } := by
  simp [pushNoteDrum, pushAt, last, hin, hd]

theorem noteTail_ok (logo : Logo) (turtle : Turtle) (pre : List Blk)
    (n : Blk) (bs : List ℚ) (hin : logo.inNoteBlock turtle = pre ++ [n])
    (hb : logo.noteBeatValues turtle n = some bs) :
    noteTail logo turtle = Except.ok { logo with
      noteBeatValues := Function.update logo.noteBeatValues turtle
        (Function.update (logo.noteBeatValues turtle) n (some (bs ++ [logo.beatFactor turtle])))
      pushedNote := Function.update logo.pushedNote turtle true } := by
  simp [noteTail, pushAt, last, hin, hb]

theorem noteTail_closed (logo : Logo) (turtle : Turtle) (hin : logo.inNoteBlock turtle = []) :
    noteTail logo turtle
      = Except.ok { logo with pushedNote := Function.update logo.pushedNote turtle true } := by
  simp [noteTail, hin]

/-- The state `PlayDrumBlock.flow` and `PlayNoiseBlock.flow` leave when they add `name` to
the innermost open note `n` of `turtle`. -/
theorem playDrum_play_openNote (env : Consts) (logo : Logo) (turtle : Turtle) (blk : Blk)
    (name : String) (pre : List Blk) (n : Blk) (ds : List String) (bs : List ℚ)
    (hpm : logo.inPitchDrumMatrix = false) (hm : logo.inMatrix = false)
    (hin : logo.inNoteBlock turtle = pre ++ [n])
    (hd : logo.noteDrums turtle n = some ds) (hb : logo.noteBeatValues turtle n = some bs) :
    PlayDrumBlock.play env logo turtle blk name = Except.ok { logo with
      noteDrums := Function.update logo.noteDrums turtle
        (Function.update (logo.noteDrums turtle) n (some (ds ++ [name])))
      noteBeatValues := Function.update logo.noteBeatValues turtle
        (Function.update (logo.noteBeatValues turtle) n (some (bs ++ [logo.beatFactor turtle])))
      pushedNote := Function.update logo.pushedNote turtle true
      synthVolume := (initVolume env logo turtle name).synthVolume
      crescendoInitialVolume := (initVolume env logo turtle name).crescendoInitialVolume } := by
  have hlen : (logo.inNoteBlock turtle).length > 0 := by simp [hin]
  unfold PlayDrumBlock.play PlayDrumBlock.dispatch
  rw [if_neg (by simp [hpm]), if_neg (by simp [hm]), if_pos hlen,
    pushNoteDrum_ok logo turtle name pre n ds hin hd]
  simp only []
  rw [noteTail_ok _ turtle pre n bs (by rw [initVolume_eq]; exact hin)
    (by rw [initVolume_eq]; exact hb)]
  unfold initVolume
  split <;> rfl

theorem playNoise_play_openNote (env : Consts) (logo : Logo) (turtle : Turtle) (blk : Blk)
    (name : String) (pre : List Blk) (n : Blk) (ds : List String) (bs : List ℚ)
    (hin : logo.inNoteBlock turtle = pre ++ [n])
    (hd : logo.noteDrums turtle n = some ds) (hb : logo.noteBeatValues turtle n = some bs) :
    PlayNoiseBlock.play env logo turtle blk name = Except.ok { logo with
      noteDrums := Function.update logo.noteDrums turtle
        (Function.update (logo.noteDrums turtle) n (some (ds ++ [name])))
      noteBeatValues := Function.update logo.noteBeatValues turtle
        (Function.update (logo.noteBeatValues turtle) n (some (bs ++ [logo.beatFactor turtle])))
      pushedNote := Function.update logo.pushedNote turtle true
      synthVolume := (initVolume env logo turtle name).synthVolume
      crescendoInitialVolume := (initVolume env logo turtle name).crescendoInitialVolume } := by
  have hlen : (logo.inNoteBlock turtle).length > 0 := by simp [hin]
  unfold PlayNoiseBlock.play
  rw [if_pos hlen, pushNoteDrum_ok logo turtle name pre n ds hin hd]
  simp only []
  rw [noteTail_ok _ turtle pre n bs (by rw [initVolume_eq]; exact hin)
    (by rw [initVolume_eq]; exact hb)]
  unfold initVolume
  split <;> rfl

theorem setDrum_flow_eq (env : Consts) (args : List JSVal) (logo : Logo) (turtle : Turtle)
    (blk : Blk) :
    (SetDrumBlock.flow env args logo turtle blk).1 = { logo with
      drumStyle := Function.update logo.drumStyle turtle
        (logo.drumStyle turtle ++ [SetDrumBlock.drumname env args])
      dispatchBlocks := logo.dispatchBlocks ++ [(blk, turtle, SetDrumBlock.listenerName turtle)]
      listeners := Function.update logo.listeners turtle
        (Function.update (logo.listeners turtle) (SetDrumBlock.listenerName turtle)
          (some (Listener.setdrum turtle)))
      currentDrumBlock := if logo.inRhythmRuler then some blk else logo.currentDrumBlock
      rhythmRulerDrums := if logo.inRhythmRuler then logo.rhythmRulerDrums ++ [blk]
        else logo.rhythmRulerDrums
      rhythmRulerRulers := if logo.inRhythmRuler then logo.rhythmRulerRulers ++ [([], [])]
        else logo.rhythmRulerRulers } := by
  simp only [SetDrumBlock.flow, recordRhythmRuler, setListener, setDispatchBlock]
  split <;> rfl

theorem mapDrum_flow_eq (env : Consts) (args : List JSVal) (logo : Logo) (turtle : Turtle)
    (blk : Blk) :
    (MapDrumBlock.flow env args logo turtle blk).1 = { logo with
      drumStyle := Function.update logo.drumStyle turtle
        (logo.drumStyle turtle ++ [MapDrumBlock.drumname env args])
      dispatchBlocks := logo.dispatchBlocks ++ [(blk, turtle, MapDrumBlock.listenerName turtle)]
      listeners := Function.update logo.listeners turtle
        (Function.update (logo.listeners turtle) (MapDrumBlock.listenerName turtle)
          (some (Listener.mapdrum turtle)))
      currentDrumBlock := if logo.inRhythmRuler then some blk else logo.currentDrumBlock
      rhythmRulerDrums := if logo.inRhythmRuler then logo.rhythmRulerDrums ++ [blk]
        else logo.rhythmRulerDrums
      rhythmRulerRulers := if logo.inRhythmRuler then logo.rhythmRulerRulers ++ [([], [])]
        else logo.rhythmRulerRulers } := by
  simp only [MapDrumBlock.flow, recordRhythmRuler, setListener, setDispatchBlock]
  split <;> rfl

theorem playDrum_override_report (args : List JSVal) (logo : Logo) (turtle : Turtle) (blk : Blk)
    (drumname : String) :
    PlayDrumBlock.override (reportBadInput args logo blk) turtle drumname
      = PlayDrumBlock.override logo turtle drumname := by
  rw [reportBadInput_eq]
  rfl

/-- The effect of `PlayDrumBlock.flow` outside any matrix while a note is open. -/
theorem playDrum_flow_openNote (env : Consts) (args : List JSVal) (logo : Logo)
    (turtle : Turtle) (blk : Blk) (pre : List Blk) (n : Blk) (ds : List String) (bs : List ℚ)
    (hpm : logo.inPitchDrumMatrix = false) (hm : logo.inMatrix = false)
    (hin : logo.inNoteBlock turtle = pre ++ [n])
    (hd : logo.noteDrums turtle n = some ds) (hb : logo.noteBeatValues turtle n = some bs) :
    ∃ logo', PlayDrumBlock.flow env args logo turtle blk = Except.ok logo' ∧
      logo'.noteDrums = Function.update logo.noteDrums turtle
        (Function.update (logo.noteDrums turtle) n (some (ds ++
          [PlayDrumBlock.override logo turtle
            (PlayDrumBlock.resolve env (PlayDrumBlock.arg env args))]))) ∧
      logo'.noteBeatValues = Function.update logo.noteBeatValues turtle
        (Function.update (logo.noteBeatValues turtle) n
          (some (bs ++ [logo.beatFactor turtle]))) ∧
      logo'.pushedNote = Function.update logo.pushedNote turtle true ∧
      logo'.drumStyle = logo.drumStyle ∧ logo'.inNoteBlock = logo.inNoteBlock ∧
      logo'.inPitchDrumMatrix = logo.inPitchDrumMatrix ∧ logo'.inMatrix = logo.inMatrix ∧
      logo'.beatFactor = logo.beatFactor ∧
      logo'.pitchDrumMatrixDrums = logo.pitchDrumMatrixDrums ∧
      logo'.rowLabels = logo.rowLabels ∧ logo'.rowArgs = logo.rowArgs := by
  have e := playDrum_play_openNote env (reportBadInput args logo blk) turtle blk
    (PlayDrumBlock.override (reportBadInput args logo blk) turtle
      (PlayDrumBlock.resolve env (PlayDrumBlock.arg env args))) pre n ds bs
    (by rw [reportBadInput_eq]; exact hpm) (by rw [reportBadInput_eq]; exact hm)
    (by rw [reportBadInput_eq]; exact hin) (by rw [reportBadInput_eq]; exact hd)
    (by rw [reportBadInput_eq]; exact hb)
  refine ⟨_, e, ?_⟩
  rw [playDrum_override_report, reportBadInput_eq]
  exact ⟨rfl, rfl, rfl, rfl, rfl, rfl, rfl, rfl, rfl, rfl, rfl⟩

/-- The effect of `PlayNoiseBlock.flow` while a note is open. -/
theorem playNoise_flow_openNote (env : Consts) (args : List JSVal) (logo : Logo)
    (turtle : Turtle) (blk : Blk) (pre : List Blk) (n : Blk) (ds : List String) (bs : List ℚ)
    (hin : logo.inNoteBlock turtle = pre ++ [n])
    (hd : logo.noteDrums turtle n = some ds) (hb : logo.noteBeatValues turtle n = some bs) :
    ∃ logo', PlayNoiseBlock.flow env args logo turtle blk = Except.ok logo' ∧
      logo'.noteDrums = Function.update logo.noteDrums turtle
        (Function.update (logo.noteDrums turtle) n (some (ds ++
          [PlayNoiseBlock.noisename env (PlayNoiseBlock.arg args)]))) ∧
      logo'.noteBeatValues = Function.update logo.noteBeatValues turtle
        (Function.update (logo.noteBeatValues turtle) n
          (some (bs ++ [logo.beatFactor turtle]))) ∧
      logo'.pushedNote = Function.update logo.pushedNote turtle true ∧
      logo'.drumStyle = logo.drumStyle ∧ logo'.inNoteBlock = logo.inNoteBlock := by
  have e := playNoise_play_openNote env (reportBadInput args logo blk) turtle blk
    (PlayNoiseBlock.noisename env (PlayNoiseBlock.arg args)) pre n ds bs
    (by rw [reportBadInput_eq]; exact hin) (by rw [reportBadInput_eq]; exact hd)
    (by rw [reportBadInput_eq]; exact hb)
  refine ⟨_, e, ?_⟩
  rw [reportBadInput_eq]
  exact ⟨rfl, rfl, rfl, rfl, rfl⟩

/-! ## Playing into an open note (C8) -/

/-- C8: when `PlayDrumBlock.flow` (outside any matrix) or `PlayNoiseBlock.flow` runs for
`turtle` with a note open, `n` being the last entry of `inNoteBlock[turtle]`, exactly one
name, the one the block resolved, is appended to `noteDrums[turtle][n]`, exactly one value,
`beatFactor[turtle]`, is appended to `noteBeatValues[turtle][n]`, `pushedNote[turtle]`
becomes true, and the lists of every other note of `turtle`, and `inNoteBlock`, are
unchanged. -/
theorem C8_open_note_push (env : Consts) (args : List JSVal) (logo : Logo)
    (turtle : Turtle) (blk : Blk) (pre : List Blk) (n : Blk) (ds : List String) (bs : List ℚ)
    (hin : logo.inNoteBlock turtle = pre ++ [n])
    (hd : logo.noteDrums turtle n = some ds) (hb : logo.noteBeatValues turtle n = some bs) :
    (logo.inPitchDrumMatrix = false → logo.inMatrix = false →
      ∃ logo', PlayDrumBlock.flow env args logo turtle blk = Except.ok logo' ∧
        logo'.noteDrums turtle n = some (ds ++ [PlayDrumBlock.override logo turtle
          (PlayDrumBlock.resolve env (PlayDrumBlock.arg env args))]) ∧
        logo'.noteBeatValues turtle n = some (bs ++ [logo.beatFactor turtle]) ∧
        logo'.pushedNote turtle = true ∧
        (∀ b, b ≠ n → logo'.noteDrums turtle b = logo.noteDrums turtle b ∧
          logo'.noteBeatValues turtle b = logo.noteBeatValues turtle b) ∧
        logo'.inNoteBlock = logo.inNoteBlock) ∧
    (∃ logo', PlayNoiseBlock.flow env args logo turtle blk = Except.ok logo' ∧
        logo'.noteDrums turtle n
          = some (ds ++ [PlayNoiseBlock.noisename env (PlayNoiseBlock.arg args)]) ∧
        logo'.noteBeatValues turtle n = some (bs ++ [logo.beatFactor turtle]) ∧
        logo'.pushedNote turtle = true ∧
        (∀ b, b ≠ n → logo'.noteDrums turtle b = logo.noteDrums turtle b ∧
          logo'.noteBeatValues turtle b = logo.noteBeatValues turtle b) ∧
        logo'.inNoteBlock = logo.inNoteBlock) := by
  constructor
  · intro hpm hm
    obtain ⟨l, e, h1, h2, h3, _, h5, _⟩ :=
      playDrum_flow_openNote env args logo turtle blk pre n ds bs hpm hm hin hd hb
    refine ⟨l, e, by simp [h1], by simp [h2], by simp [h3], ?_, h5⟩
    intro b hbn
    simp [h1, h2, hbn]
  · obtain ⟨l, e, h1, h2, h3, _, h5⟩ :=
      playNoise_flow_openNote env args logo turtle blk pre n ds bs hin hd hb
    refine ⟨l, e, by simp [h1], by simp [h2], by simp [h3], ?_, h5⟩
    intro b hbn
    simp [h1, h2, hbn]

/-- C8, at a state where turtle `0` has the note `5` open: the drum `snare` and the noise
`brown noise` are each appended, with the beat factor `1`, to the lists of that note. -/
theorem C8_open_note_push_witness :
    (∃ logo', PlayDrumBlock.flow sampleConsts [JSVal.str "snare"] openNoteLogo 0 1
        = Except.ok logo' ∧
      logo'.noteDrums 0 5 = some ["snare drum"] ∧ logo'.noteBeatValues 0 5 = some [1] ∧
      logo'.pushedNote 0 = true) ∧
    (∃ logo', PlayNoiseBlock.flow sampleConsts [JSVal.str "brown noise"] openNoteLogo 0 1
        = Except.ok logo' ∧
      logo'.noteDrums 0 5 = some ["noise2"] ∧ logo'.noteBeatValues 0 5 = some [1] ∧
      logo'.pushedNote 0 = true) := by
  constructor
  · obtain ⟨l, e, h1, h2, h3, _⟩ := (C8_open_note_push sampleConsts [JSVal.str "snare"]
      openNoteLogo 0 1 [] 5 [] [] rfl rfl rfl).1 rfl rfl
    exact ⟨l, e, h1, h2, h3⟩
  · obtain ⟨l, e, h1, h2, h3, _⟩ := (C8_open_note_push sampleConsts [JSVal.str "brown noise"]
      openNoteLogo 0 1 [] 5 [] [] rfl rfl rfl).2
    exact ⟨l, e, h1, h2, h3⟩

/-! ## A drum played inside and after a setdrum clamp (C1) -/

/-- C1, as stated, fails: turtle `0` has an empty `drumStyle` stack and an open note `5`, but
a pitch-drum matrix is under construction; after `SetDrumBlock.flow` the drum block adds the
pushed name to the matrix and leaves the drum list of the open note as it was. -/
theorem C1_counterexample :
    ({ openNoteLogo with inPitchDrumMatrix := true } : Logo).drumStyle 0 = [] ∧
      ({ openNoteLogo with inPitchDrumMatrix := true } : Logo).inNoteBlock 0 = [5] ∧
      ({ openNoteLogo with inPitchDrumMatrix := true } : Logo).noteDrums 0 5 = some [] ∧
      ∃ logo', PlayDrumBlock.flow sampleConsts [JSVal.str "snare"]
          (SetDrumBlock.flow sampleConsts [JSVal.str "kick", JSVal.num 2]
            { openNoteLogo with inPitchDrumMatrix := true } 0 1).1 0 2 = Except.ok logo' ∧
        logo'.noteDrums 0 5 = some [] ∧ logo'.pitchDrumMatrixDrums = ["kick drum"] :=
  ⟨rfl, rfl, rfl, _, rfl, rfl, rfl⟩

/-- C1, amended: outside any matrix, for a turtle whose `drumStyle` stack is empty and whose
innermost open note is `n`, and for all arguments `a`, `body`, `b`, `b2`: after
`SetDrumBlock.flow([a, body])` the top of `drumStyle[turtle]` is the name setdrum pushed,
and `PlayDrumBlock.flow([b])` appends that name to the drum list of `n`, whatever `b` is;
once the exit listener of setdrum has run (right after the clamp's flow call, or after the
drum played inside it), `PlayDrumBlock.flow([b2])` appends its own resolution of `b2`. -/
theorem C1_override_in_clamp (env : Consts) (logo : Logo) (turtle : Turtle)
    (a body b b2 : JSVal) (blk blk1 blk2 : Blk) (pre : List Blk) (n : Blk)
    (ds : List String) (bs : List ℚ)
    (hempty : logo.drumStyle turtle = [])
    (hpm : logo.inPitchDrumMatrix = false) (hm : logo.inMatrix = false)
    (hin : logo.inNoteBlock turtle = pre ++ [n])
    (hd : logo.noteDrums turtle n = some ds) (hb : logo.noteBeatValues turtle n = some bs) :
    last ((SetDrumBlock.flow env [a, body] logo turtle blk).1.drumStyle turtle)
        = some (SetDrumBlock.drumname env [a, body]) ∧
      (∃ played, PlayDrumBlock.flow env [b] (SetDrumBlock.flow env [a, body] logo turtle blk).1
          turtle blk1 = Except.ok played ∧
        played.noteDrums turtle n = some (ds ++ [SetDrumBlock.drumname env [a, body]]) ∧
        ∃ later, PlayDrumBlock.flow env [b2] (runListener (Listener.setdrum turtle) played)
            turtle blk2 = Except.ok later ∧
          later.noteDrums turtle n = some (ds ++ [SetDrumBlock.drumname env [a, body]] ++
            [PlayDrumBlock.resolve env (PlayDrumBlock.arg env [b2])])) ∧
      (∃ later, PlayDrumBlock.flow env [b2] (runListener (Listener.setdrum turtle)
            (SetDrumBlock.flow env [a, body] logo turtle blk).1) turtle blk2 = Except.ok later ∧
          later.noteDrums turtle n
            = some (ds ++ [PlayDrumBlock.resolve env (PlayDrumBlock.arg env [b2])])) := by
  have hs := setDrum_flow_eq env [a, body] logo turtle blk
  have htop : (SetDrumBlock.flow env [a, body] logo turtle blk).1.drumStyle turtle
      = [] ++ [SetDrumBlock.drumname env [a, body]] := by
    rw [hs]; simp [hempty]
  refine ⟨by rw [htop]; rfl, ?_, ?_⟩
  · obtain ⟨played, e, h1, h2, _, h4, h5, h6, h7, _⟩ :=
      playDrum_flow_openNote env [b] (SetDrumBlock.flow env [a, body] logo turtle blk).1
        turtle blk1 pre n ds bs (by rw [hs]; exact hpm) (by rw [hs]; exact hm)
        (by rw [hs]; exact hin) (by rw [hs]; exact hd) (by rw [hs]; exact hb)
    rw [playDrum_override_top _ turtle _ _ [] htop] at h1
    have hnd : played.noteDrums turtle n = some (ds ++ [SetDrumBlock.drumname env [a, body]]) := by
      rw [h1]; simp
    refine ⟨played, e, hnd, ?_⟩
    have hnb : played.noteBeatValues turtle n
        = some (bs ++ [(SetDrumBlock.flow env [a, body] logo turtle blk).1.beatFactor turtle]) := by
      rw [h2]; simp
    have hds : (runListener (Listener.setdrum turtle) played).drumStyle turtle = [] := by
      simp [runListener, pop, h4, htop]
    obtain ⟨later, e', k1, _⟩ :=
      playDrum_flow_openNote env [b2] (runListener (Listener.setdrum turtle) played)
        turtle blk2 pre n _ _ (by simp [runListener, h6, hs, hpm])
        (by simp [runListener, h7, hs, hm])
        (by simp [runListener, h5, hs, hin]) (by simpa [runListener] using hnd)
        (by simpa [runListener] using hnb)
    rw [playDrum_override_empty _ turtle _ hds] at k1
    exact ⟨later, e', by rw [k1]; simp⟩
  · have hds : (runListener (Listener.setdrum turtle)
        (SetDrumBlock.flow env [a, body] logo turtle blk).1).drumStyle turtle = [] := by
      simp [runListener, pop, htop]
    obtain ⟨later, e', k1, _⟩ :=
      playDrum_flow_openNote env [b2] (runListener (Listener.setdrum turtle)
          (SetDrumBlock.flow env [a, body] logo turtle blk).1)
        turtle blk2 pre n ds bs (by simp [runListener, hs, hpm]) (by simp [runListener, hs, hm])
        (by simp [runListener, hs, hin]) (by simp [runListener, hs, hd])
        (by simp [runListener, hs, hb])
    rw [playDrum_override_empty _ turtle _ hds] at k1
    exact ⟨later, e', by rw [k1]; simp⟩

/-- C1, amended, on the scenario of the specification: inside `setdrum("kick")` the block
`playdrum("snare")` records `kick drum`; after the clamp it records `snare drum`. -/
theorem C1_override_in_clamp_witness :
    ∃ played, PlayDrumBlock.flow sampleConsts [JSVal.str "snare"]
        (SetDrumBlock.flow sampleConsts [JSVal.str "kick drum", JSVal.num 2] openNoteLogo 0 1).1
        0 2 = Except.ok played ∧
      played.noteDrums 0 5 = some ["kick drum"] ∧
      ∃ later, PlayDrumBlock.flow sampleConsts [JSVal.str "snare"]
          (runListener (Listener.setdrum 0) played) 0 3 = Except.ok later ∧
        later.noteDrums 0 5 = some ["kick drum", "snare drum"] := by
  obtain ⟨played, e, h1, later, e', h2⟩ :=
    (C1_override_in_clamp sampleConsts openNoteLogo 0 (JSVal.str "kick drum") (JSVal.num 2)
      (JSVal.str "snare") (JSVal.str "snare") 1 2 3 [] 5 [] [] rfl rfl rfl rfl rfl rfl).2.1
  exact ⟨played, e, h1, later, e', h2⟩

/-! ## The dispatch of `PlayDrumBlock.flow` (C7) -/

theorem noteTail_total (logo : Logo) (turtle : Turtle)
    (hwf : ∀ n, last (logo.inNoteBlock turtle) = some n →
      ∃ bs, logo.noteBeatValues turtle n = some bs) :
    ∃ nb, noteTail logo turtle = Except.ok { logo with
      noteBeatValues := nb
      pushedNote := Function.update logo.pushedNote turtle true } := by
  rcases List.eq_nil_or_concat (logo.inNoteBlock turtle) with hin | ⟨pre, n, hin⟩
  · exact ⟨logo.noteBeatValues, noteTail_closed logo turtle hin⟩
  · rw [List.concat_eq_append] at hin
    obtain ⟨bs, hb⟩ := hwf n (by simp [last, hin])
    exact ⟨_, noteTail_ok logo turtle pre n bs hin hb⟩

theorem playDrum_play_pitchDrumMatrix (env : Consts) (logo : Logo) (turtle : Turtle) (blk : Blk)
    (name : String) (hpm : logo.inPitchDrumMatrix = true)
    (hwf : ∀ n, last (logo.inNoteBlock turtle) = some n →
      ∃ bs, logo.noteBeatValues turtle n = some bs) :
    ∃ nb, PlayDrumBlock.play env logo turtle blk name = Except.ok { logo with
      pitchDrumMatrixDrums := logo.pitchDrumMatrixDrums ++ [name]
      pitchDrumMatrixColBlocks := logo.pitchDrumMatrixColBlocks ++ [blk]
      drumBlocks := (addDrumBlock logo blk).drumBlocks
      noteBeatValues := nb
      pushedNote := Function.update logo.pushedNote turtle true } := by
  obtain ⟨nb, e⟩ := noteTail_total (addDrumBlock { logo with
      pitchDrumMatrixDrums := logo.pitchDrumMatrixDrums ++ [name]
      pitchDrumMatrixColBlocks := logo.pitchDrumMatrixColBlocks ++ [blk] } blk) turtle
    (by rw [addDrumBlock_eq]; exact hwf)
  refine ⟨nb, ?_⟩
  unfold PlayDrumBlock.play PlayDrumBlock.dispatch
  rw [if_pos hpm]
  simp only []
  rw [e]
  unfold addDrumBlock
  split <;> rfl

theorem playDrum_play_matrix (env : Consts) (logo : Logo) (turtle : Turtle) (blk : Blk)
    (name : String) (hpm : logo.inPitchDrumMatrix = false) (hm : logo.inMatrix = true)
    (hwf : ∀ n, last (logo.inNoteBlock turtle) = some n →
      ∃ bs, logo.noteBeatValues turtle n = some bs) :
    ∃ nb, PlayDrumBlock.play env logo turtle blk name = Except.ok { logo with
      rowLabels := logo.rowLabels ++ [name]
      rowArgs := logo.rowArgs ++ [-1]
      pitchTimeMatrixRowBlocks := logo.pitchTimeMatrixRowBlocks ++ [blk]
      drumBlocks := (addDrumBlock logo blk).drumBlocks
      noteBeatValues := nb
      pushedNote := Function.update logo.pushedNote turtle true } := by
  obtain ⟨nb, e⟩ := noteTail_total (addDrumBlock { logo with
      rowLabels := logo.rowLabels ++ [name]
      rowArgs := logo.rowArgs ++ [-1]
      pitchTimeMatrixRowBlocks := logo.pitchTimeMatrixRowBlocks ++ [blk] } blk) turtle
    (by rw [addDrumBlock_eq]; exact hwf)
  refine ⟨nb, ?_⟩
  unfold PlayDrumBlock.play PlayDrumBlock.dispatch
  rw [if_neg (by simp [hpm]), if_pos hm]
  simp only []
  rw [e]
  unfold addDrumBlock
  split <;> rfl

/-- The note a stand-alone block opens (lines 295-297), from a state with no open note. -/
theorem openOwnNote_closed (logo : Logo) (turtle : Turtle) (blk : Blk) (name : String)
    (hin : logo.inNoteBlock turtle = []) :
    PlayDrumBlock.openOwnNote logo turtle blk name = Except.ok { logo with
      noteDrums := Function.update logo.noteDrums turtle
        (Function.update (logo.noteDrums turtle) blk (some [name]))
      noteBeatValues := Function.update logo.noteBeatValues turtle
        (Function.update (logo.noteBeatValues turtle) blk (some []))
      inNoteBlock := Function.update logo.inNoteBlock turtle [blk] } := by
  simp [PlayDrumBlock.openOwnNote, clearNoteParams, pushNoteDrum, pushAt, last, hin]

/-- The stand-alone branch where the global variable `__callback` exists. -/
theorem playDrum_play_standalone (env : Consts) (logo : Logo) (turtle : Turtle) (blk : Blk)
    (name : String) (conns : List (Option Blk))
    (hpm : logo.inPitchDrumMatrix = false) (hm : logo.inMatrix = false)
    (hin : logo.inNoteBlock turtle = []) (hc : logo.connections blk = some conns)
    (hs : isStandalone conns = true) (hg : env.globalCallback = true) :
    PlayDrumBlock.play env logo turtle blk name = Except.ok { logo with
      noteDrums := Function.update logo.noteDrums turtle
        (Function.update (logo.noteDrums turtle) blk (some [name]))
      noteBeatValues := Function.update logo.noteBeatValues turtle
        (Function.update (logo.noteBeatValues turtle) blk (some [logo.beatFactor turtle]))
      inNoteBlock := Function.update logo.inNoteBlock turtle [blk]
      processNoteCalls := logo.processNoteCalls ++ [(4, blk, turtle)]
      pushedNote := Function.update logo.pushedNote turtle true } := by
  unfold PlayDrumBlock.play PlayDrumBlock.dispatch
  rw [if_neg (by simp [hpm]), if_neg (by simp [hm]), if_neg (by simp [hin])]
  simp [hc, hs, hg, PlayDrumBlock.standalone, openOwnNote_closed logo turtle blk name hin,
    pushAt, last, processNote, noteTail]

/-- The stand-alone branch where the global variable `__callback` does not exist: the call
ends with the `ReferenceError` of line 308. -/
theorem playDrum_play_standalone_throws (env : Consts) (logo : Logo) (turtle : Turtle)
    (blk : Blk) (name : String) (conns : List (Option Blk))
    (hpm : logo.inPitchDrumMatrix = false) (hm : logo.inMatrix = false)
    (hin : logo.inNoteBlock turtle = []) (hc : logo.connections blk = some conns)
    (hs : isStandalone conns = true) (hg : env.globalCallback = false) :
    PlayDrumBlock.play env logo turtle blk name
      = Except.error (JSError.referenceError "__callback") := by
  unfold PlayDrumBlock.play PlayDrumBlock.dispatch
  rw [if_neg (by simp [hpm]), if_neg (by simp [hm]), if_neg (by simp [hin])]
  simp [hc, hs, hg, PlayDrumBlock.standalone, openOwnNote_closed logo turtle blk name hin]

theorem playDrum_play_misused (env : Consts) (logo : Logo) (turtle : Turtle) (blk : Blk)
    (name : String) (conns : List (Option Blk))
    (hpm : logo.inPitchDrumMatrix = false) (hm : logo.inMatrix = false)
    (hin : logo.inNoteBlock turtle = []) (hc : logo.connections blk = some conns)
    (hs : isStandalone conns = false) :
    PlayDrumBlock.play env logo turtle blk name
      = Except.ok (errorMsg logo ErrMsg.drumUsage blk) := by
  unfold PlayDrumBlock.play PlayDrumBlock.dispatch
  rw [if_neg (by simp [hpm]), if_neg (by simp [hm]), if_neg (by simp [hin])]
  simp [hc, hs]

/-- C7: `PlayDrumBlock.flow` takes exactly one dispatch branch, in the order pitch-drum
matrix, pitch/time matrix, open note, stand-alone block, usage warning. Inside the pitch-drum
matrix the name is appended to `pitchDrumMatrix.drums` and `rowLabels`, `rowArgs` and
`noteDrums` are unchanged, also when `inMatrix` is set and a note is open; with only
`inMatrix` set the name is appended to `rowLabels` and `-1` to `rowArgs` while `noteDrums`
is unchanged, also when a note is open. In every branch but the last nothing is reported
beyond a bad input, and a note is scheduled in the stand-alone branch only: there the block
opens a note of its own and, where the global variable `__callback` exists, schedules it;
where it does not, the branch ends at line 308 with a `ReferenceError`, the note open. -/
theorem C7_dispatch_order (env : Consts) (args : List JSVal) (logo : Logo) (turtle : Turtle)
    (blk : Blk)
    (hwf : ∀ n, last (logo.inNoteBlock turtle) = some n →
      ∃ bs, logo.noteBeatValues turtle n = some bs) :
    (logo.inPitchDrumMatrix = true →
      ∃ logo', PlayDrumBlock.flow env args logo turtle blk = Except.ok logo' ∧
        logo'.pitchDrumMatrixDrums = logo.pitchDrumMatrixDrums ++
          [PlayDrumBlock.override logo turtle
            (PlayDrumBlock.resolve env (PlayDrumBlock.arg env args))] ∧
        logo'.rowLabels = logo.rowLabels ∧ logo'.rowArgs = logo.rowArgs ∧
        logo'.noteDrums = logo.noteDrums ∧ logo'.inNoteBlock = logo.inNoteBlock ∧
        logo'.processNoteCalls = logo.processNoteCalls ∧
        logo'.errors = (reportBadInput args logo blk).errors) ∧
    (logo.inPitchDrumMatrix = false → logo.inMatrix = true →
      ∃ logo', PlayDrumBlock.flow env args logo turtle blk = Except.ok logo' ∧
        logo'.rowLabels = logo.rowLabels ++
          [PlayDrumBlock.override logo turtle
            (PlayDrumBlock.resolve env (PlayDrumBlock.arg env args))] ∧
        logo'.rowArgs = logo.rowArgs ++ [-1] ∧
        logo'.rowLabels.length = logo.rowLabels.length + 1 ∧
        logo'.rowArgs.length = logo.rowArgs.length + 1 ∧
        logo'.pitchDrumMatrixDrums = logo.pitchDrumMatrixDrums ∧
        logo'.noteDrums = logo.noteDrums ∧ logo'.inNoteBlock = logo.inNoteBlock ∧
        logo'.processNoteCalls = logo.processNoteCalls ∧
        logo'.errors = (reportBadInput args logo blk).errors) ∧
    (logo.inPitchDrumMatrix = false → logo.inMatrix = false →
      ∀ pre n ds, logo.inNoteBlock turtle = pre ++ [n] → logo.noteDrums turtle n = some ds →
      ∃ logo', PlayDrumBlock.flow env args logo turtle blk = Except.ok logo' ∧
        logo'.noteDrums turtle n = some (ds ++
          [PlayDrumBlock.override logo turtle
            (PlayDrumBlock.resolve env (PlayDrumBlock.arg env args))]) ∧
        logo'.pitchDrumMatrixDrums = logo.pitchDrumMatrixDrums ∧
        logo'.rowLabels = logo.rowLabels ∧ logo'.rowArgs = logo.rowArgs ∧
        logo'.inNoteBlock = logo.inNoteBlock ∧
        logo'.processNoteCalls = logo.processNoteCalls ∧
        logo'.errors = (reportBadInput args logo blk).errors) ∧
    (logo.inPitchDrumMatrix = false → logo.inMatrix = false → logo.inNoteBlock turtle = [] →
      ∀ conns, logo.connections blk = some conns → isStandalone conns = true →
      (env.globalCallback = true →
        ∃ logo', PlayDrumBlock.flow env args logo turtle blk = Except.ok logo' ∧
          logo'.processNoteCalls = logo.processNoteCalls ++ [(4, blk, turtle)] ∧
          logo'.inNoteBlock turtle = [blk] ∧
          logo'.noteDrums turtle blk = some
            [PlayDrumBlock.override logo turtle
              (PlayDrumBlock.resolve env (PlayDrumBlock.arg env args))] ∧
          logo'.pitchDrumMatrixDrums = logo.pitchDrumMatrixDrums ∧
          logo'.rowLabels = logo.rowLabels ∧ logo'.rowArgs = logo.rowArgs ∧
          logo'.errors = (reportBadInput args logo blk).errors) ∧
      (env.globalCallback = false →
        PlayDrumBlock.flow env args logo turtle blk
          = Except.error (JSError.referenceError "__callback") ∧
        ∃ reached, PlayDrumBlock.openOwnNote (reportBadInput args logo blk) turtle blk
            (PlayDrumBlock.override logo turtle
              (PlayDrumBlock.resolve env (PlayDrumBlock.arg env args))) = Except.ok reached ∧
          reached.inNoteBlock turtle = [blk] ∧
          reached.noteDrums turtle blk = some
            [PlayDrumBlock.override logo turtle
              (PlayDrumBlock.resolve env (PlayDrumBlock.arg env args))] ∧
          reached.processNoteCalls = logo.processNoteCalls ∧
          reached.pitchDrumMatrixDrums = logo.pitchDrumMatrixDrums ∧
          reached.rowLabels = logo.rowLabels ∧ reached.rowArgs = logo.rowArgs ∧
          reached.errors = (reportBadInput args logo blk).errors)) ∧
    (logo.inPitchDrumMatrix = false → logo.inMatrix = false → logo.inNoteBlock turtle = [] →
      ∀ conns, logo.connections blk = some conns → isStandalone conns = false →
      PlayDrumBlock.flow env args logo turtle blk
        = Except.ok (errorMsg (reportBadInput args logo blk) ErrMsg.drumUsage blk)) := by
  refine ⟨?_, ?_, ?_, ?_, ?_⟩
  · intro hpm
    obtain ⟨nb, e⟩ := playDrum_play_pitchDrumMatrix env (reportBadInput args logo blk) turtle blk
      (PlayDrumBlock.override (reportBadInput args logo blk) turtle
        (PlayDrumBlock.resolve env (PlayDrumBlock.arg env args)))
      (by rw [reportBadInput_eq]; exact hpm) (by rw [reportBadInput_eq]; exact hwf)
    refine ⟨_, e, ?_⟩
    rw [playDrum_override_report, reportBadInput_eq]
    exact ⟨rfl, rfl, rfl, rfl, rfl, rfl, rfl⟩
  · intro hpm hm
    obtain ⟨nb, e⟩ := playDrum_play_matrix env (reportBadInput args logo blk) turtle blk
      (PlayDrumBlock.override (reportBadInput args logo blk) turtle
        (PlayDrumBlock.resolve env (PlayDrumBlock.arg env args)))
      (by rw [reportBadInput_eq]; exact hpm) (by rw [reportBadInput_eq]; exact hm)
      (by rw [reportBadInput_eq]; exact hwf)
    refine ⟨_, e, ?_⟩
    rw [playDrum_override_report, reportBadInput_eq]
    exact ⟨rfl, rfl, by simp, by simp, rfl, rfl, rfl, rfl, rfl⟩
  · intro hpm hm pre n ds hin hd
    obtain ⟨bs, hb⟩ := hwf n (by simp [last, hin])
    have e := playDrum_play_openNote env (reportBadInput args logo blk) turtle blk
      (PlayDrumBlock.override (reportBadInput args logo blk) turtle
        (PlayDrumBlock.resolve env (PlayDrumBlock.arg env args))) pre n ds bs
      (by rw [reportBadInput_eq]; exact hpm) (by rw [reportBadInput_eq]; exact hm)
      (by rw [reportBadInput_eq]; exact hin) (by rw [reportBadInput_eq]; exact hd)
      (by rw [reportBadInput_eq]; exact hb)
    refine ⟨_, e, ?_⟩
    rw [playDrum_override_report, reportBadInput_eq]
    exact ⟨by simp, rfl, rfl, rfl, rfl, rfl, rfl⟩
  · intro hpm hm hin conns hc hs
    have hin' : (reportBadInput args logo blk).inNoteBlock turtle = [] := by
      rw [reportBadInput_eq]; exact hin
    constructor
    · intro hg
      have e := playDrum_play_standalone env (reportBadInput args logo blk) turtle blk
        (PlayDrumBlock.override (reportBadInput args logo blk) turtle
          (PlayDrumBlock.resolve env (PlayDrumBlock.arg env args))) conns
        (by rw [reportBadInput_eq]; exact hpm) (by rw [reportBadInput_eq]; exact hm)
        hin' (by rw [reportBadInput_eq]; exact hc) hs hg
      refine ⟨_, e, ?_⟩
      rw [playDrum_override_report, reportBadInput_eq]
      exact ⟨rfl, by simp, by simp, rfl, rfl, rfl, rfl⟩
    · intro hg
      have e := playDrum_play_standalone_throws env (reportBadInput args logo blk) turtle blk
        (PlayDrumBlock.override (reportBadInput args logo blk) turtle
          (PlayDrumBlock.resolve env (PlayDrumBlock.arg env args))) conns
        (by rw [reportBadInput_eq]; exact hpm) (by rw [reportBadInput_eq]; exact hm)
        hin' (by rw [reportBadInput_eq]; exact hc) hs hg
      refine ⟨e, _, openOwnNote_closed _ turtle blk _ hin', ?_⟩
      rw [reportBadInput_eq]
      exact ⟨by simp, by simp, rfl, rfl, rfl, rfl, rfl⟩
  · intro hpm hm hin conns hc hs
    exact playDrum_play_misused env (reportBadInput args logo blk) turtle blk _ conns
      (by rw [reportBadInput_eq]; exact hpm) (by rw [reportBadInput_eq]; exact hm)
      (by rw [reportBadInput_eq]; exact hin) (by rw [reportBadInput_eq]; exact hc) hs

/-- C7, at a state where both matrices are under construction and a note is open: the name
goes to `pitchDrumMatrix.drums` only; with the pitch-drum matrix off it goes to `rowLabels`,
with `-1` in `rowArgs`, and the open note is untouched; outside the matrices the name goes
to the open note, or a stand-alone block schedules a quarter note where the global variable
`__callback` exists and throws where it does not, or a connected block is reported. -/
theorem C7_dispatch_order_witness :
    (∃ logo', PlayDrumBlock.flow sampleConsts [JSVal.str "snare"] matrixLogo 0 1
        = Except.ok logo' ∧
      logo'.pitchDrumMatrixDrums = ["snare drum"] ∧ logo'.rowLabels = [] ∧
      logo'.rowArgs = [] ∧ logo'.noteDrums 0 5 = some []) ∧
    (∃ logo', PlayDrumBlock.flow sampleConsts [JSVal.str "snare"]
        { matrixLogo with inPitchDrumMatrix := false } 0 1 = Except.ok logo' ∧
      logo'.rowLabels = ["snare drum"] ∧ logo'.rowArgs = [-1] ∧
      logo'.pitchDrumMatrixDrums = [] ∧ logo'.noteDrums 0 5 = some []) ∧
    (∃ logo', PlayDrumBlock.flow sampleConsts [JSVal.str "snare"] openNoteLogo 0 1
        = Except.ok logo' ∧
      logo'.noteDrums 0 5 = some ["snare drum"] ∧ logo'.pitchDrumMatrixDrums = [] ∧
      logo'.rowLabels = [] ∧ logo'.processNoteCalls = []) ∧
    (∃ logo', PlayDrumBlock.flow hostConsts [JSVal.str "snare"] emptyLogo 0 1
        = Except.ok logo' ∧
      logo'.processNoteCalls = [(4, 1, 0)] ∧ logo'.inNoteBlock 0 = [1] ∧
      logo'.noteDrums 0 1 = some ["snare drum"]) ∧
    PlayDrumBlock.flow sampleConsts [JSVal.str "snare"] emptyLogo 0 1
      = Except.error (JSError.referenceError "__callback") ∧
    PlayDrumBlock.flow sampleConsts [JSVal.str "snare"]
        { emptyLogo with connections := fun _ => some [some 3, none] } 0 1
      = Except.ok (errorMsg (reportBadInput [JSVal.str "snare"]
          { emptyLogo with connections := fun _ => some [some 3, none] } 1)
          ErrMsg.drumUsage 1) := by
  refine ⟨?_, ?_, ?_, ?_, ?_, ?_⟩
  · obtain ⟨l, e, h1, h2, h3, h4, _⟩ := (C7_dispatch_order sampleConsts [JSVal.str "snare"]
      matrixLogo 0 1 (by intro n hn; cases hn; exact ⟨[], rfl⟩)).1 rfl
    exact ⟨l, e, h1, h2, h3, by rw [h4]; rfl⟩
  · obtain ⟨l, e, h1, h2, _, _, h3, h4, _⟩ := (C7_dispatch_order sampleConsts [JSVal.str "snare"]
      { matrixLogo with inPitchDrumMatrix := false } 0 1
      (by intro n hn; cases hn; exact ⟨[], rfl⟩)).2.1 rfl rfl
    exact ⟨l, e, h1, h2, h3, by rw [h4]; rfl⟩
  · obtain ⟨l, e, h1, h2, h3, _, _, h4, _⟩ := (C7_dispatch_order sampleConsts [JSVal.str "snare"]
      openNoteLogo 0 1 (by intro n hn; cases hn; exact ⟨[], rfl⟩)).2.2.1 rfl rfl [] 5 [] rfl rfl
    exact ⟨l, e, h1, h2, h3, h4⟩
  · obtain ⟨l, e, h1, h2, h3, _⟩ := ((C7_dispatch_order hostConsts [JSVal.str "snare"]
      emptyLogo 0 1 (by intro n hn; cases hn)).2.2.2.1 rfl rfl rfl [none, none, none]
      rfl rfl).1 rfl
    exact ⟨l, e, h1, h2, h3⟩
  · exact (((C7_dispatch_order sampleConsts [JSVal.str "snare"]
      emptyLogo 0 1 (by intro n hn; cases hn)).2.2.2.1 rfl rfl rfl [none, none, none]
      rfl rfl).2 rfl).1
  · exact (C7_dispatch_order sampleConsts [JSVal.str "snare"]
      { emptyLogo with connections := fun _ => some [some 3, none] } 0 1
      (by intro n hn; cases hn)).2.2.2.2 rfl rfl rfl [some 3, none] rfl rfl

/-! ## The stand-alone drum block (C9, C10) -/

theorem jsIndexOf_first (pre post : List Blk) (blk : Blk) (h : blk ∉ pre) :
    jsIndexOf (pre ++ blk :: post) blk = (pre.length : Int) := by
  have hmem : blk ∈ pre ++ blk :: post := by simp
  unfold jsIndexOf
  rw [if_pos hmem]
  congr 1
  induction pre with
  | nil => simp
  | cons hd tl ih =>
    have hne : hd ≠ blk := fun e => h (by simp [e])
    have htl : blk ∉ tl := fun e => h (List.mem_cons_of_mem _ e)
    simp [List.indexOf_cons_ne _ hne, ih htl (by simp)]

theorem eraseIdx_first {α : Type} (pre post : List α) (x : α) :
    (pre ++ x :: post).eraseIdx pre.length = pre ++ post := by
  induction pre with
  | nil => rfl
  | cons hd tl ih => simp [List.eraseIdx, ih]

theorem spliceOne_first {α : Type} (pre post : List α) (x : α) :
    spliceOne (pre ++ x :: post) (pre.length : Int) = pre ++ post := by
  have h0 : ¬ ((pre.length : Int) < 0) := by omega
  have h1 : min (pre.length : Int) ((pre ++ x :: post).length : Int) = (pre.length : Int) := by
    simp only [List.length_append, List.length_cons]
    omega
  simp only [spliceOne, if_neg h0, h1, Int.toNat_ofNat]
  exact eraseIdx_first pre post x

/-- The first occurrence of a member of a list. -/
theorem mem_first_split (l : List Blk) (blk : Blk) (h : blk ∈ l) :
    ∃ pre post, l = pre ++ blk :: post ∧ blk ∉ pre := by
  induction l with
  | nil => cases h
  | cons x tl ih =>
    by_cases hx : x = blk
    · exact ⟨[], tl, by rw [hx]; rfl, by simp⟩
    · have ht : blk ∈ tl := by
        rcases List.mem_cons.mp h with e | e
        · exact absurd e.symm hx
        · exact e
      obtain ⟨pre, post, e, hp⟩ := ih ht
      refine ⟨x :: pre, post, by rw [e]; rfl, ?_⟩
      intro hm
      rcases List.mem_cons.mp hm with e' | e'
      · exact hx e'.symm
      · exact hp e'

theorem callback_removes_first (turtle : Turtle) (blk : Blk) (logo : Logo) (pre post : List Blk)
    (h : blk ∉ pre) (hin : logo.inNoteBlock turtle = pre ++ blk :: post) :
    (PlayDrumBlock.callback turtle blk logo).inNoteBlock
      = Function.update logo.inNoteBlock turtle (pre ++ post) := by
  simp only [PlayDrumBlock.callback, hin, jsIndexOf_first pre post blk h, spliceOne_first]

/-- C9, as stated, fails: at tempo 90 with `TONEBPM = 240000` the beat duration is `2000/3`,
but a stand-alone drum block never passes it on: with the two source files alone the call
ends at line 308 and schedules nothing, and where the global variable `__callback` exists
the first argument passed to the note-processing collaborator is the note value `4`. -/
theorem C9_counterexample :
    tempoLogo.bpm 0 = [90] ∧ sampleConsts.TONEBPM = 240000 ∧ hostConsts.TONEBPM = 240000 ∧
      (sampleConsts.TONEBPM / 90) / 4 = 2000 / 3 ∧
      PlayDrumBlock.flow sampleConsts [JSVal.str "snare"] tempoLogo 0 1
        = Except.error (JSError.referenceError "__callback") ∧
      ∃ logo', PlayDrumBlock.flow hostConsts [JSVal.str "snare"] tempoLogo 0 1
          = Except.ok logo' ∧
        logo'.processNoteCalls = [(4, 1, 0)] ∧ (4 : ℚ) ≠ 2000 / 3 :=
  ⟨rfl, rfl, rfl, by norm_num [sampleConsts], rfl, _, rfl, rfl, by norm_num⟩

/-- C9, amended: on the stand-alone path of `PlayDrumBlock.flow` (no matrix, no open note,
no connection before or after the block) a call that reaches line 313 schedules the note
through the note-processing collaborator with the note value `4`, a quarter note, as its
first argument, whatever the tempo stack, the master tempo and `TONEBPM` are; line 313 is
reached where the assignment of line 308 succeeds. -/
theorem C9_standalone_note_value (env : Consts) (args : List JSVal) (logo : Logo)
    (turtle : Turtle) (blk : Blk) (conns : List (Option Blk))
    (hpm : logo.inPitchDrumMatrix = false) (hm : logo.inMatrix = false)
    (hin : logo.inNoteBlock turtle = []) (hc : logo.connections blk = some conns)
    (hs : isStandalone conns = true) :
    (∀ logo', PlayDrumBlock.flow env args logo turtle blk = Except.ok logo' →
        logo'.processNoteCalls = logo.processNoteCalls ++ [(4, blk, turtle)]) ∧
      (env.globalCallback = true →
        ∃ logo', PlayDrumBlock.flow env args logo turtle blk = Except.ok logo' ∧
          logo'.processNoteCalls = logo.processNoteCalls ++ [(4, blk, turtle)]) := by
  have hpm' : (reportBadInput args logo blk).inPitchDrumMatrix = false := by
    rw [reportBadInput_eq]; exact hpm
  have hm' : (reportBadInput args logo blk).inMatrix = false := by
    rw [reportBadInput_eq]; exact hm
  have hin' : (reportBadInput args logo blk).inNoteBlock turtle = [] := by
    rw [reportBadInput_eq]; exact hin
  have hc' : (reportBadInput args logo blk).connections blk = some conns := by
    rw [reportBadInput_eq]; exact hc
  have hok : env.globalCallback = true →
      ∃ logo', PlayDrumBlock.flow env args logo turtle blk = Except.ok logo' ∧
        logo'.processNoteCalls = logo.processNoteCalls ++ [(4, blk, turtle)] := by
    intro hg
    have e := playDrum_play_standalone env (reportBadInput args logo blk) turtle blk
      (PlayDrumBlock.override (reportBadInput args logo blk) turtle
        (PlayDrumBlock.resolve env (PlayDrumBlock.arg env args))) conns hpm' hm' hin' hc' hs hg
    refine ⟨_, e, ?_⟩
    rw [reportBadInput_eq]
  refine ⟨?_, hok⟩
  intro logo' h
  cases hg : env.globalCallback with
  | true =>
    obtain ⟨l, e, hl⟩ := hok hg
    rw [e] at h
    cases h
    exact hl
  | false =>
    have e := playDrum_play_standalone_throws env (reportBadInput args logo blk) turtle blk
      (PlayDrumBlock.override (reportBadInput args logo blk) turtle
        (PlayDrumBlock.resolve env (PlayDrumBlock.arg env args))) conns hpm' hm' hin' hc' hs hg
    have h' : PlayDrumBlock.play env (reportBadInput args logo blk) turtle blk
        (PlayDrumBlock.override (reportBadInput args logo blk) turtle
          (PlayDrumBlock.resolve env (PlayDrumBlock.arg env args))) = Except.ok logo' := h
    rw [e] at h'
    cases h'

/-- C9, amended, at tempo 90 with `TONEBPM = 240000`, where the global variable `__callback`
exists: the scheduled first argument is `4`. -/
theorem C9_standalone_note_value_witness :
    ∃ logo', PlayDrumBlock.flow hostConsts [JSVal.str "snare"] tempoLogo 0 1
        = Except.ok logo' ∧
      logo'.processNoteCalls = tempoLogo.processNoteCalls ++ [(4, 1, 0)] :=
  (C9_standalone_note_value hostConsts [JSVal.str "snare"] tempoLogo 0 1
    [none, none, none] rfl rfl rfl rfl rfl).2 rfl

/-- C10, the code at the stand-alone `snare` block `1` of turtle `0`, with no matrix, no open
note and no global variable `__callback`: the call ends with the `ReferenceError` of line
308. By then the note `1` has been opened with the drum list `snare drum`; nothing has been
scheduled, so no completion callback is left to close the note: `1` stays in
`inNoteBlock[0]`. -/
theorem C10_standalone_throws :
    sampleConsts.globalCallback = false ∧ emptyLogo.inPitchDrumMatrix = false ∧
      emptyLogo.inMatrix = false ∧ emptyLogo.inNoteBlock 0 = [] ∧
      emptyLogo.connections 1 = some [none, none, none] ∧
      PlayDrumBlock.flow sampleConsts [JSVal.str "snare"] emptyLogo 0 1
        = Except.error (JSError.referenceError "__callback") ∧
      ∃ reached, PlayDrumBlock.openOwnNote emptyLogo 0 1 "snare drum" = Except.ok reached ∧
        reached.inNoteBlock 0 = [1] ∧ reached.noteDrums 0 1 = some ["snare drum"] ∧
        reached.processNoteCalls = [] :=
  ⟨rfl, rfl, rfl, rfl, rfl, rfl, _, rfl, rfl, rfl, rfl⟩

/-! ## The completion callback when its note is gone (C11) -/

theorem spliceOne_neg_one {α : Type} (l : List α) : spliceOne l (-1) = l.dropLast := by
  have h0 : ((-1 : Int) < 0) := by omega
  simp only [spliceOne, if_pos h0]
  rcases List.eq_nil_or_concat l with rfl | ⟨pre, x, rfl⟩
  · rfl
  · rw [List.concat_eq_append]
    have hs : (max (((pre ++ [x]).length : Int) + -1) 0).toNat = pre.length := by
      simp only [List.length_append, List.length_singleton]
      omega
    rw [hs, eraseIdx_first, List.dropLast_concat, List.append_nil]

theorem callback_absent (turtle : Turtle) (blk : Blk) (logo : Logo)
    (h : blk ∉ logo.inNoteBlock turtle) :
    (PlayDrumBlock.callback turtle blk logo).inNoteBlock
      = Function.update logo.inNoteBlock turtle (logo.inNoteBlock turtle).dropLast := by
  simp only [PlayDrumBlock.callback, jsIndexOf, if_neg h, spliceOne_neg_one]

/-- C11, as stated, fails: when the callback of block `1` runs while `1` is not in
`inNoteBlock[0] = [7, 8]`, `indexOf` yields `-1` and `splice(-1, 1)` removes the last entry,
the open note `8`; the list is not left unchanged, and an entry other than `1` is removed.
With the single open note `5` the list becomes empty. -/
theorem C11_counterexample :
    (1 : Blk) ∉ twoNotesLogo.inNoteBlock 0 ∧ twoNotesLogo.inNoteBlock 0 = [7, 8] ∧
      jsIndexOf (twoNotesLogo.inNoteBlock 0) 1 = -1 ∧
      (PlayDrumBlock.callback 0 1 twoNotesLogo).inNoteBlock 0 = [7] ∧
      (PlayDrumBlock.callback 0 1 twoNotesLogo).inNoteBlock 0 ≠ twoNotesLogo.inNoteBlock 0 ∧
      (1 : Blk) ∉ openNoteLogo.inNoteBlock 0 ∧ openNoteLogo.inNoteBlock 0 = [5] ∧
      (PlayDrumBlock.callback 0 1 openNoteLogo).inNoteBlock 0 = [] := by
  decide

/-- C11, amended: in every state the completion callback of a stand-alone drum note changes
`inNoteBlock[turtle]` only, and removes at most one entry of it: the first occurrence of
`blk` when `blk` is in the list, the other entries keeping their order, and the last entry
of the list when `blk` is not in it, so that the list is then unchanged only if it is
empty. -/
theorem C11_callback_removes_one (turtle : Turtle) (blk : Blk) (logo : Logo) :
    (blk ∈ logo.inNoteBlock turtle →
      ∃ pre post, blk ∉ pre ∧ logo.inNoteBlock turtle = pre ++ blk :: post ∧
        (PlayDrumBlock.callback turtle blk logo).inNoteBlock turtle = pre ++ post) ∧
    (blk ∉ logo.inNoteBlock turtle →
      (PlayDrumBlock.callback turtle blk logo).inNoteBlock turtle
        = (logo.inNoteBlock turtle).dropLast ∧
      ((PlayDrumBlock.callback turtle blk logo).inNoteBlock turtle = logo.inNoteBlock turtle
        ↔ logo.inNoteBlock turtle = [])) ∧
    (∀ u, u ≠ turtle →
      (PlayDrumBlock.callback turtle blk logo).inNoteBlock u = logo.inNoteBlock u) ∧
    PlayDrumBlock.callback turtle blk logo
      = { logo with inNoteBlock := (PlayDrumBlock.callback turtle blk logo).inNoteBlock } := by
  refine ⟨?_, ?_, ?_, rfl⟩
  · intro hmem
    obtain ⟨pre, post, hsplit, hpre⟩ := mem_first_split (logo.inNoteBlock turtle) blk hmem
    refine ⟨pre, post, hpre, hsplit, ?_⟩
    rw [callback_removes_first turtle blk logo pre post hpre hsplit]
    simp
  · intro habs
    have hd : (PlayDrumBlock.callback turtle blk logo).inNoteBlock turtle
        = (logo.inNoteBlock turtle).dropLast := by
      rw [callback_absent turtle blk logo habs]
      simp
    refine ⟨hd, ?_⟩
    rw [hd]
    constructor
    · intro h
      have hl := congrArg List.length h
      rw [List.length_dropLast] at hl
      cases hlist : logo.inNoteBlock turtle with
      | nil => rfl
      | cons x xs =>
        rw [hlist] at hl
        simp only [List.length_cons] at hl
        omega
    · intro h
      rw [h]
      rfl
  · intro u hu
    simp [PlayDrumBlock.callback, hu]

/-- C11, amended, on three states of turtle `0` and the callback of block `1`: from
`[7, 1, 8, 1]` the first `1` goes; from `[7, 8]`, where `1` is absent, the last entry `8`
goes; the lists of turtle `2` stay. -/
theorem C11_callback_removes_one_witness :
    (∃ pre post, (1 : Blk) ∉ pre ∧ [7, 1, 8, 1] = pre ++ (1 : Blk) :: post ∧
      (PlayDrumBlock.callback 0 1
        { emptyLogo with inNoteBlock := fun _ => [7, 1, 8, 1] }).inNoteBlock 0 = pre ++ post) ∧
    (PlayDrumBlock.callback 0 1 twoNotesLogo).inNoteBlock 0 = [7, 8].dropLast ∧
    (PlayDrumBlock.callback 0 1 twoNotesLogo).inNoteBlock 2 = twoNotesLogo.inNoteBlock 2 :=
  ⟨(C11_callback_removes_one 0 1 { emptyLogo with inNoteBlock := fun _ => [7, 1, 8, 1] }).1
      (by decide),
    ((C11_callback_removes_one 0 1 twoNotesLogo).2.1 (by decide)).1,
    (C11_callback_removes_one 0 1 twoNotesLogo).2.2.1 2 (by decide)⟩

/-! ## A drum block outside any context (C12) -/

theorem reportBadInput_errors (args : List JSVal) (logo : Logo) (blk : Blk) :
    (reportBadInput args logo blk).errors = logo.errors ∨
      (reportBadInput args logo blk).errors = logo.errors ++ [(ErrMsg.NOINPUTERRORMSG, blk)] := by
  rw [reportBadInput_eq]
  by_cases h : badInput args = true
  · right; simp [h]
  · left; simp [h]

/-- C12: when `PlayDrumBlock.flow` runs outside any matrix, with no note open for the turtle,
for a block with a connection before or after it, it reports exactly one usage warning for
`blk`, schedules no note, and leaves `inNoteBlock`, `noteDrums`, `noteBeatValues`,
`synthVolume`, `drumBlocks` and `pushedNote` unchanged. -/
theorem C12_usage_warning (env : Consts) (args : List JSVal) (logo : Logo) (turtle : Turtle)
    (blk : Blk) (conns : List (Option Blk))
    (hpm : logo.inPitchDrumMatrix = false) (hm : logo.inMatrix = false)
    (hin : logo.inNoteBlock turtle = []) (hc : logo.connections blk = some conns)
    (hs : isStandalone conns = false) :
    ∃ logo', PlayDrumBlock.flow env args logo turtle blk = Except.ok logo' ∧
      logo'.errors = (reportBadInput args logo blk).errors ++ [(ErrMsg.drumUsage, blk)] ∧
      logo'.errors.count (ErrMsg.drumUsage, blk)
        = logo.errors.count (ErrMsg.drumUsage, blk) + 1 ∧
      logo'.processNoteCalls = logo.processNoteCalls ∧
      logo'.inNoteBlock = logo.inNoteBlock ∧ logo'.noteDrums = logo.noteDrums ∧
      logo'.noteBeatValues = logo.noteBeatValues ∧ logo'.synthVolume = logo.synthVolume ∧
      logo'.drumBlocks = logo.drumBlocks ∧ logo'.pushedNote = logo.pushedNote := by
  have e := playDrum_play_misused env (reportBadInput args logo blk) turtle blk
    (PlayDrumBlock.override (reportBadInput args logo blk) turtle
      (PlayDrumBlock.resolve env (PlayDrumBlock.arg env args))) conns
    (by rw [reportBadInput_eq]; exact hpm) (by rw [reportBadInput_eq]; exact hm)
    (by rw [reportBadInput_eq]; exact hin) (by rw [reportBadInput_eq]; exact hc) hs
  refine ⟨_, e, rfl, ?_, ?_⟩
  · show ((reportBadInput args logo blk).errors ++ [(ErrMsg.drumUsage, blk)]).count
        (ErrMsg.drumUsage, blk) = _
    rcases reportBadInput_errors args logo blk with h | h <;> rw [h] <;>
      simp [List.count_append, List.count_cons]
  · rw [reportBadInput_eq]
    exact ⟨rfl, rfl, rfl, rfl, rfl, rfl, rfl⟩

/-- C12, for the block `1` with a connection before it, run by turtle `0` outside any
note: one usage warning, no note scheduled. -/
theorem C12_usage_warning_witness :
    ∃ logo', PlayDrumBlock.flow sampleConsts [JSVal.str "snare"] connectedLogo 0 1
        = Except.ok logo' ∧
      logo'.errors = [(ErrMsg.drumUsage, 1)] ∧ logo'.processNoteCalls = [] ∧
      logo'.inNoteBlock = connectedLogo.inNoteBlock ∧
      logo'.pushedNote = connectedLogo.pushedNote := by
  obtain ⟨l, e, h1, _, h3, h4, _, _, _, _, h9⟩ := C12_usage_warning sampleConsts
    [JSVal.str "snare"] connectedLogo 0 1 [some 3, none] rfl rfl rfl rfl rfl
  exact ⟨l, e, h1, h3, h4, h9⟩

/-! ## The noise block: bad input and the override (C14, C15) -/

theorem playNoise_arg_null : PlayNoiseBlock.arg [JSVal.null] = "noise1" := by
  decide

theorem playNoise_play_closed (env : Consts) (logo : Logo) (turtle : Turtle) (blk : Blk)
    (name : String) (hin : logo.inNoteBlock turtle = []) :
    PlayNoiseBlock.play env logo turtle blk name
      = Except.ok (errorMsg logo ErrMsg.noiseUsage blk) := by
  simp [PlayNoiseBlock.play, hin]

/-- C14: for `PlayNoiseBlock.flow` with `args = [null]` the missing-input error is reported
and the default noise name `noise1`, resolved through the noise table, is used. If a note
is open for the turtle the name is appended to the list of the innermost open note and
`pushedNote` becomes true; if none is open the usage warning is reported as well and
`noteDrums`, `noteBeatValues`, `synthVolume` and `pushedNote` are unchanged. -/
theorem C14_noise_null (env : Consts) (logo : Logo) (turtle : Turtle) (blk : Blk) :
    (∀ pre n ds bs, logo.inNoteBlock turtle = pre ++ [n] → logo.noteDrums turtle n = some ds →
      logo.noteBeatValues turtle n = some bs →
      ∃ logo', PlayNoiseBlock.flow env [JSVal.null] logo turtle blk = Except.ok logo' ∧
        logo'.errors = logo.errors ++ [(ErrMsg.NOINPUTERRORMSG, blk)] ∧
        logo'.noteDrums turtle n = some (ds ++ [PlayNoiseBlock.noisename env "noise1"]) ∧
        logo'.pushedNote turtle = true) ∧
    (logo.inNoteBlock turtle = [] →
      ∃ logo', PlayNoiseBlock.flow env [JSVal.null] logo turtle blk = Except.ok logo' ∧
        logo'.errors = logo.errors ++ [(ErrMsg.NOINPUTERRORMSG, blk), (ErrMsg.noiseUsage, blk)] ∧
        logo'.noteDrums = logo.noteDrums ∧ logo'.noteBeatValues = logo.noteBeatValues ∧
        logo'.synthVolume = logo.synthVolume ∧ logo'.pushedNote = logo.pushedNote ∧
        logo'.inNoteBlock = logo.inNoteBlock) := by
  have hbad : badInput [JSVal.null] = true := by decide
  constructor
  · intro pre n ds bs hin hd hb
    have e := playNoise_play_openNote env (reportBadInput [JSVal.null] logo blk) turtle blk
      (PlayNoiseBlock.noisename env (PlayNoiseBlock.arg [JSVal.null])) pre n ds bs
      (by rw [reportBadInput_eq]; exact hin) (by rw [reportBadInput_eq]; exact hd)
      (by rw [reportBadInput_eq]; exact hb)
    refine ⟨_, e, ?_, ?_, ?_⟩
    · rw [reportBadInput_eq]; simp [hbad]
    · rw [reportBadInput_eq, playNoise_arg_null]; simp
    · rw [reportBadInput_eq]; simp
  · intro hin
    have e := playNoise_play_closed env (reportBadInput [JSVal.null] logo blk) turtle blk
      (PlayNoiseBlock.noisename env (PlayNoiseBlock.arg [JSVal.null]))
      (by rw [reportBadInput_eq]; exact hin)
    refine ⟨_, e, ?_, ?_⟩
    · rw [reportBadInput_eq]; simp [errorMsg, hbad]
    · rw [reportBadInput_eq]
      exact ⟨rfl, rfl, rfl, rfl, rfl⟩

/-- C14, with the note `5` open for turtle `0` and with no note open. -/
theorem C14_noise_null_witness :
    (∃ logo', PlayNoiseBlock.flow sampleConsts [JSVal.null] openNoteLogo 0 1 = Except.ok logo' ∧
      logo'.errors = [(ErrMsg.NOINPUTERRORMSG, 1)] ∧
      logo'.noteDrums 0 5 = some ["noise1"] ∧ logo'.pushedNote 0 = true) ∧
    (∃ logo', PlayNoiseBlock.flow sampleConsts [JSVal.null] emptyLogo 0 1 = Except.ok logo' ∧
      logo'.errors = [(ErrMsg.NOINPUTERRORMSG, 1), (ErrMsg.noiseUsage, 1)] ∧
      logo'.noteDrums = emptyLogo.noteDrums ∧ logo'.pushedNote = emptyLogo.pushedNote) := by
  constructor
  · obtain ⟨l, e, h1, h2, h3⟩ :=
      (C14_noise_null sampleConsts openNoteLogo 0 1).1 [] 5 [] [] rfl rfl rfl
    exact ⟨l, e, h1, h2, h3⟩
  · obtain ⟨l, e, h1, h2, _, _, h5, _⟩ := (C14_noise_null sampleConsts emptyLogo 0 1).2 rfl
    exact ⟨l, e, h1, h2, h5⟩

/-- C15, as stated, fails: turtle `0` is inside a setdrum clamp, the top of `drumStyle[0]`
being `kick drum`, with the note `5` open, and `PlayNoiseBlock.flow` appends the name it
resolved from its argument, `noise2`. -/
theorem C15_counterexample :
    clampedNoteLogo.drumStyle 0 = ["kick drum"] ∧ clampedNoteLogo.inNoteBlock 0 = [5] ∧
      ∃ logo', PlayNoiseBlock.flow sampleConsts [JSVal.str "brown noise"] clampedNoteLogo 0 1
          = Except.ok logo' ∧
        logo'.noteDrums 0 5 = some ["noise2"] ∧ "noise2" ≠ "kick drum" :=
  ⟨rfl, rfl, _, rfl, rfl, by decide⟩

/-- C15, amended: the drum-timbre override does not apply to noise blocks. When
`PlayNoiseBlock.flow` runs inside an open note the name appended to the list of the
innermost open note is the name resolved from the argument, whatever the stacks
`drumStyle` hold, and `drumStyle` is left as it is. -/
theorem C15_noise_not_overridden (env : Consts) (args : List JSVal) (logo : Logo)
    (turtle : Turtle) (blk : Blk) (pre : List Blk) (n : Blk) (ds : List String) (bs : List ℚ)
    (hin : logo.inNoteBlock turtle = pre ++ [n])
    (hd : logo.noteDrums turtle n = some ds) (hb : logo.noteBeatValues turtle n = some bs)
    (style : Turtle → List String) :
    ∃ logo', PlayNoiseBlock.flow env args { logo with drumStyle := style } turtle blk
        = Except.ok logo' ∧
      logo'.noteDrums turtle n
        = some (ds ++ [PlayNoiseBlock.noisename env (PlayNoiseBlock.arg args)]) ∧
      logo'.drumStyle = style := by
  obtain ⟨l, e, h1, _, _, h4, _⟩ := playNoise_flow_openNote env args
    { logo with drumStyle := style } turtle blk pre n ds bs hin hd hb
  exact ⟨l, e, by rw [h1]; simp, h4⟩

/-- C15, amended, inside a setdrum clamp: the noise `brown noise` is recorded as `noise2`. -/
theorem C15_noise_not_overridden_witness :
    ∃ logo', PlayNoiseBlock.flow sampleConsts [JSVal.str "brown noise"]
        { openNoteLogo with drumStyle := fun _ => ["kick drum"] } 0 1 = Except.ok logo' ∧
      logo'.noteDrums 0 5 = some ["noise2"] ∧ logo'.drumStyle = fun _ => ["kick drum"] :=
  C15_noise_not_overridden sampleConsts [JSVal.str "brown noise"] openNoteLogo 0 1 [] 5 [] []
    rfl rfl rfl (fun _ => ["kick drum"])

/-! ## The exit listeners (C16, C17) -/

/-- C16, as stated, fails: with `drumStyle[0]` empty both exit listeners complete and leave
`drumStyle[0]` empty; so does a listener that is run a second time. -/
theorem C16_counterexample :
    emptyLogo.drumStyle 0 = [] ∧
      (∃ logo', invokeListener (Listener.setdrum 0) emptyLogo = Except.ok logo' ∧
        logo'.drumStyle 0 = []) ∧
      (∃ logo', invokeListener (Listener.mapdrum 0) emptyLogo = Except.ok logo' ∧
        logo'.drumStyle 0 = []) ∧
      (∃ once twice, invokeListener (Listener.setdrum 0)
          (SetDrumBlock.flow sampleConsts [JSVal.str "kick", JSVal.num 2] emptyLogo 0 1).1
            = Except.ok once ∧ once.drumStyle 0 = [] ∧
        invokeListener (Listener.setdrum 0) once = Except.ok twice ∧
        twice.drumStyle 0 = []) :=
  ⟨rfl, ⟨_, rfl, rfl⟩, ⟨_, rfl, rfl⟩, ⟨_, _, rfl, rfl, rfl, rfl⟩⟩

/-- C16, amended: popping an empty scoped-context stack is not an error. Running the exit
listener registered by `SetDrumBlock.flow` or `MapDrumBlock.flow` for a turtle whose
`drumStyle` stack is empty completes; every `drumStyle` stack is as before, the listener of
setdrum still resets `pitchDrumTable[turtle]`, and the listener of mapdrum leaves the whole
state as it was. -/
theorem C16_empty_pop_silent (logo : Logo) (turtle : Turtle)
    (hempty : logo.drumStyle turtle = []) :
    (∃ logo', invokeListener (Listener.setdrum turtle) logo = Except.ok logo' ∧
        logo'.drumStyle = logo.drumStyle ∧ logo'.pitchDrumTable turtle = []) ∧
      invokeListener (Listener.mapdrum turtle) logo = Except.ok logo := by
  have hst : Function.update logo.drumStyle turtle (pop (logo.drumStyle turtle))
      = logo.drumStyle := by
    rw [hempty]
    have : pop ([] : List String) = logo.drumStyle turtle := by rw [hempty]; rfl
    rw [this, Function.update_eq_self]
  constructor
  · refine ⟨_, rfl, ?_, ?_⟩
    · exact hst
    · simp [runListener]
  · simp only [invokeListener, runListener, hst]

/-- C16, amended, at a state where no clamp is open. -/
theorem C16_empty_pop_silent_witness :
    (∃ logo', invokeListener (Listener.setdrum 0) emptyLogo = Except.ok logo' ∧
        logo'.drumStyle = emptyLogo.drumStyle ∧ logo'.pitchDrumTable 0 = []) ∧
      invokeListener (Listener.mapdrum 0) emptyLogo = Except.ok emptyLogo :=
  C16_empty_pop_silent emptyLogo 0 rfl

/-- C17: the exit listener registered by `SetDrumBlock.flow` for `turtle` removes exactly the
top entry of `drumStyle[turtle]` and resets `pitchDrumTable[turtle]` to the empty table,
leaving `pitchDrumTable[u]` and `drumStyle[u]` of every other turtle, and every other field,
unchanged; the listener registered by `MapDrumBlock.flow` removes exactly the top entry of
`drumStyle[turtle]` and leaves everything else, every `pitchDrumTable` entry included,
unchanged. -/
theorem C17_listener_frame (logo : Logo) (turtle : Turtle) :
    (∀ stack top, logo.drumStyle turtle = stack ++ [top] →
      (runListener (Listener.setdrum turtle) logo).drumStyle turtle = stack ∧
      (runListener (Listener.mapdrum turtle) logo).drumStyle turtle = stack) ∧
    (runListener (Listener.setdrum turtle) logo).pitchDrumTable turtle = [] ∧
    (∀ u, u ≠ turtle →
      (runListener (Listener.setdrum turtle) logo).pitchDrumTable u = logo.pitchDrumTable u ∧
      (runListener (Listener.setdrum turtle) logo).drumStyle u = logo.drumStyle u ∧
      (runListener (Listener.mapdrum turtle) logo).drumStyle u = logo.drumStyle u) ∧
    (runListener (Listener.mapdrum turtle) logo).pitchDrumTable = logo.pitchDrumTable ∧
    runListener (Listener.setdrum turtle) logo = { logo with
      drumStyle := (runListener (Listener.setdrum turtle) logo).drumStyle
      pitchDrumTable := (runListener (Listener.setdrum turtle) logo).pitchDrumTable } ∧
    runListener (Listener.mapdrum turtle) logo = { logo with
      drumStyle := (runListener (Listener.mapdrum turtle) logo).drumStyle } := by
  refine ⟨?_, ?_, ?_, rfl, rfl, rfl⟩
  · intro stack top h
    simp [runListener, pop, h]
  · simp [runListener]
  · intro u hu
    simp [runListener, hu]

/-- C17, for turtle `0` inside a setdrum clamp: both listeners pop `kick drum`. -/
theorem C17_listener_frame_witness :
    (runListener (Listener.setdrum 0) clampedNoteLogo).drumStyle 0 = [] ∧
      (runListener (Listener.mapdrum 0) clampedNoteLogo).drumStyle 0 = [] ∧
      (runListener (Listener.setdrum 0) clampedNoteLogo).pitchDrumTable 1
        = clampedNoteLogo.pitchDrumTable 1 :=
  ⟨((C17_listener_frame clampedNoteLogo 0).1 [] "kick drum" rfl).1,
    ((C17_listener_frame clampedNoteLogo 0).1 [] "kick drum" rfl).2,
    ((C17_listener_frame clampedNoteLogo 0).2.2.1 1 (by decide)).1⟩

/-! ## What a flow call for one turtle leaves alone (C13, C18) -/

theorem pushAt_elsewhere {α : Type} (dict dict' : Turtle → Blk → Option (List α))
    (turtle : Turtle) (b : Option Blk) (x : α)
    (h : pushAt dict turtle b x = Except.ok dict') :
    ∀ u, u ≠ turtle → dict' u = dict u := by
  intro u hu
  unfold pushAt at h
  split at h
  · cases h
  · split at h
    · cases h
    · cases h
      simp [hu]

theorem pushNoteDrum_elsewhere (logo logo' : Logo) (turtle : Turtle) (name : String)
    (h : pushNoteDrum logo turtle name = Except.ok logo') :
    logo' = { logo with noteDrums := logo'.noteDrums } ∧
      ∀ u, u ≠ turtle → logo'.noteDrums u = logo.noteDrums u := by
  unfold pushNoteDrum at h
  split at h
  · cases h
  · rename_i nd hnd
    cases h
    exact ⟨rfl, pushAt_elsewhere _ _ _ _ _ hnd⟩

theorem noteTail_elsewhere (logo logo' : Logo) (turtle : Turtle)
    (h : noteTail logo turtle = Except.ok logo') :
    logo' = { logo with
        noteBeatValues := logo'.noteBeatValues
        pushedNote := Function.update logo.pushedNote turtle true } ∧
      ∀ u, u ≠ turtle → logo'.noteBeatValues u = logo.noteBeatValues u := by
  unfold noteTail at h
  split at h
  · split at h
    · cases h
    · rename_i nb hnb
      cases h
      exact ⟨rfl, pushAt_elsewhere _ _ _ _ _ hnb⟩
  · cases h
    exact ⟨rfl, fun _ _ => rfl⟩

theorem actorView_eq (logo logo' : Logo) (u : Turtle)
    (h1 : logo'.drumStyle u = logo.drumStyle u) (h2 : logo'.inNoteBlock u = logo.inNoteBlock u)
    (h3 : logo'.noteDrums u = logo.noteDrums u)
    (h4 : logo'.noteBeatValues u = logo.noteBeatValues u)
    (h5 : logo'.pushedNote u = logo.pushedNote u) :
    actorView logo' u = actorView logo u := by
  simp only [actorView, h1, h2, h3, h4, h5]

theorem noteTail_view (logo logo' : Logo) (turtle : Turtle)
    (h : noteTail logo turtle = Except.ok logo') :
    logo'.errors = logo.errors ∧ ∀ u, u ≠ turtle → actorView logo' u = actorView logo u := by
  obtain ⟨e, hnb⟩ := noteTail_elsewhere logo logo' turtle h
  refine ⟨by rw [e], ?_⟩
  intro u hu
  refine actorView_eq _ _ u (by rw [e]) (by rw [e]) (by rw [e]) (hnb u hu) ?_
  rw [e]
  simp [hu]

theorem pushNoteDrum_view (logo logo' : Logo) (turtle : Turtle) (name : String)
    (h : pushNoteDrum logo turtle name = Except.ok logo') :
    logo'.errors = logo.errors ∧ ∀ u, u ≠ turtle → actorView logo' u = actorView logo u := by
  obtain ⟨e, hnd⟩ := pushNoteDrum_elsewhere logo logo' turtle name h
  refine ⟨by rw [e], ?_⟩
  intro u hu
  exact actorView_eq _ _ u (by rw [e]) (by rw [e]) (hnd u hu) (by rw [e]) (by rw [e])

theorem initVolume_view (env : Consts) (logo : Logo) (turtle : Turtle) (name : String) :
    (initVolume env logo turtle name).errors = logo.errors ∧
      ∀ u, actorView (initVolume env logo turtle name) u = actorView logo u := by
  rw [initVolume_eq]
  exact ⟨rfl, fun _ => rfl⟩

theorem addDrumBlock_view (logo : Logo) (blk : Blk) :
    (addDrumBlock logo blk).errors = logo.errors ∧
      ∀ u, actorView (addDrumBlock logo blk) u = actorView logo u := by
  rw [addDrumBlock_eq]
  exact ⟨rfl, fun _ => rfl⟩

theorem standalone_view (env : Consts) (logo logo' : Logo) (turtle : Turtle) (blk : Blk)
    (name : String) (h : PlayDrumBlock.standalone env logo turtle blk name = Except.ok logo') :
    logo'.errors = logo.errors ∧ ∀ u, u ≠ turtle → actorView logo' u = actorView logo u := by
  unfold PlayDrumBlock.standalone at h
  dsimp only at h
  split at h
  · cases h
  · rename_i mid hmid
    split at h
    · cases h
      unfold PlayDrumBlock.openOwnNote at hmid
      obtain ⟨he, hv⟩ := pushNoteDrum_view _ _ turtle name hmid
      refine ⟨by simpa [processNote, clearNoteParams] using he, ?_⟩
      intro u hu
      have := hv u hu
      simp only [actorView, processNote, clearNoteParams, Function.update_noteq hu] at this ⊢
      exact this
    · cases h

theorem dispatch_view (env : Consts) (logo logo' : Logo) (turtle : Turtle) (blk : Blk)
    (name : String)
    (h : PlayDrumBlock.dispatch env logo turtle blk name = Except.ok (some logo')) :
    logo'.errors = logo.errors ∧ ∀ u, u ≠ turtle → actorView logo' u = actorView logo u := by
  unfold PlayDrumBlock.dispatch at h
  split at h
  · cases h
    exact ⟨(addDrumBlock_view _ blk).1, fun u _ => (addDrumBlock_view _ blk).2 u⟩
  · split at h
    · cases h
      exact ⟨(addDrumBlock_view _ blk).1, fun u _ => (addDrumBlock_view _ blk).2 u⟩
    · split at h
      · split at h
        · cases h
        · rename_i mid hmid
          cases h
          obtain ⟨he, hv⟩ := pushNoteDrum_view _ _ turtle name hmid
          exact ⟨((initVolume_view env mid turtle name).1).trans he,
            fun u hu => ((initVolume_view env mid turtle name).2 u).trans (hv u hu)⟩
      · split at h
        · cases h
        · split at h
          · split at h
            · cases h
            · rename_i mid hmid
              cases h
              exact standalone_view env logo _ turtle blk name hmid
          · cases h

theorem playDrum_play_view (env : Consts) (logo logo' : Logo) (turtle : Turtle) (blk : Blk)
    (name : String) (h : PlayDrumBlock.play env logo turtle blk name = Except.ok logo') :
    (logo'.errors = logo.errors ∨ logo'.errors = logo.errors ++ [(ErrMsg.drumUsage, blk)]) ∧
      ∀ u, u ≠ turtle → actorView logo' u = actorView logo u := by
  unfold PlayDrumBlock.play at h
  split at h
  · cases h
  · cases h
    exact ⟨Or.inr rfl, fun _ _ => rfl⟩
  · rename_i mid hmid
    obtain ⟨he, hv⟩ := dispatch_view env logo mid turtle blk name hmid
    obtain ⟨he', hv'⟩ := noteTail_view mid logo' turtle h
    exact ⟨Or.inl (he'.trans he), fun u hu => (hv' u hu).trans (hv u hu)⟩

theorem playNoise_play_view (env : Consts) (logo logo' : Logo) (turtle : Turtle) (blk : Blk)
    (name : String) (h : PlayNoiseBlock.play env logo turtle blk name = Except.ok logo') :
    (logo'.errors = logo.errors ∨ logo'.errors = logo.errors ++ [(ErrMsg.noiseUsage, blk)]) ∧
      ∀ u, u ≠ turtle → actorView logo' u = actorView logo u := by
  unfold PlayNoiseBlock.play at h
  split at h
  · split at h
    · cases h
    · rename_i mid hmid
      obtain ⟨he, hv⟩ := pushNoteDrum_view _ _ turtle name hmid
      obtain ⟨he', hv'⟩ := noteTail_view _ logo' turtle h
      exact ⟨Or.inl ((he'.trans (initVolume_view env mid turtle name).1).trans he),
        fun u hu => ((hv' u hu).trans ((initVolume_view env mid turtle name).2 u)).trans (hv u hu)⟩
  · cases h
    exact ⟨Or.inr rfl, fun _ _ => rfl⟩

/-! ## Listener names -/

theorem digitChar_value (k : Nat) (h : k < 10) : (Nat.digitChar k).toNat - 48 = k := by
  interval_cases k <;> rfl

theorem toDigitsCore_decode (fuel : Nat) :
    ∀ (n : Nat) (ds : List Char), n < fuel →
      (Nat.toDigitsCore 10 fuel n ds).foldl (fun a c => 10 * a + (c.toNat - 48)) 0
        = ds.foldl (fun a c => 10 * a + (c.toNat - 48)) n := by
  induction fuel with
  | zero => intro n ds h; omega
  | succ fuel ih =>
    intro n ds h
    have hd := digitChar_value (n % 10) (Nat.mod_lt _ (by decide))
    simp only [Nat.toDigitsCore]
    split
    · rename_i h0
      simp only [List.foldl_cons, hd]
      congr 1
      omega
    · rename_i h0
      rw [ih (n / 10) _ (by omega)]
      simp only [List.foldl_cons, hd]
      congr 1
      omega

theorem repr_injective (a b : Nat) (h : Nat.repr a = Nat.repr b) : a = b := by
  have hl : Nat.toDigits 10 a = Nat.toDigits 10 b := by
    have h' := congrArg String.data h
    simpa [Nat.repr, List.asString] using h'
  have ha := toDigitsCore_decode (a + 1) a [] (by omega)
  have hb := toDigitsCore_decode (b + 1) b [] (by omega)
  simp only [List.foldl_nil] at ha hb
  rw [← ha, ← hb]
  exact congrArg _ hl

theorem setdrum_name_injective (t u : Turtle)
    (h : SetDrumBlock.listenerName t = SetDrumBlock.listenerName u) : t = u := by
  have h' := congrArg String.data h
  simp only [SetDrumBlock.listenerName, String.data_append, List.append_cancel_left_eq] at h'
  exact repr_injective t u (String.ext h')

theorem mapdrum_name_injective (t u : Turtle)
    (h : MapDrumBlock.listenerName t = MapDrumBlock.listenerName u) : t = u := by
  have h' := congrArg String.data h
  simp only [MapDrumBlock.listenerName, String.data_append, List.append_cancel_left_eq] at h'
  exact repr_injective t u (String.ext h')

theorem setdrum_name_ne_mapdrum (t u : Turtle) :
    SetDrumBlock.listenerName t ≠ MapDrumBlock.listenerName u := by
  intro h
  have h' := congrArg String.data h
  simp [SetDrumBlock.listenerName, MapDrumBlock.listenerName, String.data_append] at h'

/-! ## Per-actor isolation (C18) -/

/-- C18: for distinct turtles `t` and `u`, the flow calls of the two clamp blocks for `t`,
their exit listeners for `t`, and every completed call of `PlayDrumBlock.flow` and
`PlayNoiseBlock.flow` for `t` leave `drumStyle[u]`, `inNoteBlock[u]`, `noteDrums[u]`,
`noteBeatValues[u]` and `pushedNote[u]` unchanged (the five components of `actorView`); and
the listener names `'_setdrum_' + t`, `'_mapdrum_' + t`, `'_setdrum_' + u` and
`'_mapdrum_' + u` are pairwise distinct. -/
theorem C18_actor_isolation (env : Consts) (args : List JSVal) (logo : Logo) (t u : Turtle)
    (blk : Blk) (htu : t ≠ u) :
    (∀ a b : Logo, actorView a u = actorView b u ↔
      a.drumStyle u = b.drumStyle u ∧ a.inNoteBlock u = b.inNoteBlock u ∧
      a.noteDrums u = b.noteDrums u ∧ a.noteBeatValues u = b.noteBeatValues u ∧
      a.pushedNote u = b.pushedNote u) ∧
    actorView (SetDrumBlock.flow env args logo t blk).1 u = actorView logo u ∧
    actorView (MapDrumBlock.flow env args logo t blk).1 u = actorView logo u ∧
    actorView (runListener (Listener.setdrum t) logo) u = actorView logo u ∧
    actorView (runListener (Listener.mapdrum t) logo) u = actorView logo u ∧
    (∀ logo', PlayDrumBlock.flow env args logo t blk = Except.ok logo' →
      actorView logo' u = actorView logo u) ∧
    (∀ logo', PlayNoiseBlock.flow env args logo t blk = Except.ok logo' →
      actorView logo' u = actorView logo u) ∧
    SetDrumBlock.listenerName t ≠ MapDrumBlock.listenerName t ∧
    SetDrumBlock.listenerName t ≠ SetDrumBlock.listenerName u ∧
    SetDrumBlock.listenerName t ≠ MapDrumBlock.listenerName u ∧
    MapDrumBlock.listenerName t ≠ SetDrumBlock.listenerName u ∧
    MapDrumBlock.listenerName t ≠ MapDrumBlock.listenerName u ∧
    SetDrumBlock.listenerName u ≠ MapDrumBlock.listenerName u := by
  have hut : u ≠ t := fun h => htu h.symm
  refine ⟨?_, ?_, ?_, ?_, ?_, ?_, ?_, setdrum_name_ne_mapdrum t t,
    fun h => htu (setdrum_name_injective t u h), setdrum_name_ne_mapdrum t u,
    fun h => setdrum_name_ne_mapdrum u t h.symm,
    fun h => htu (mapdrum_name_injective t u h), setdrum_name_ne_mapdrum u u⟩
  · intro a b
    simp only [actorView, Prod.mk.injEq]
  · rw [setDrum_flow_eq]
    simp only [actorView, Function.update_noteq hut]
  · rw [mapDrum_flow_eq]
    simp only [actorView, Function.update_noteq hut]
  · simp only [actorView, runListener, Function.update_noteq hut]
  · simp only [actorView, runListener, Function.update_noteq hut]
  · intro logo' h
    have hv := (playDrum_play_view env _ logo' t blk _ h).2 u hut
    rw [hv, reportBadInput_eq]
    rfl
  · intro logo' h
    have hv := (playNoise_play_view env _ logo' t blk _ h).2 u hut
    rw [hv, reportBadInput_eq]
    rfl

/-- C18, for the turtles `1` and `0`, each with a note open: a drum played by turtle `1`
leaves what belongs to turtle `0` alone, and the listener names differ. -/
theorem C18_actor_isolation_witness :
    (∃ logo', PlayDrumBlock.flow sampleConsts [JSVal.str "snare"] busyLogo 1 2
        = Except.ok logo' ∧
      actorView logo' 0 = actorView busyLogo 0) ∧
    SetDrumBlock.listenerName 1 ≠ SetDrumBlock.listenerName 0 ∧
    MapDrumBlock.listenerName 1 ≠ MapDrumBlock.listenerName 0 :=
  ⟨⟨_, rfl, (C18_actor_isolation sampleConsts [JSVal.str "snare"] busyLogo 1 0 2
      (by decide)).2.2.2.2.2.1 _ rfl⟩,
    (C18_actor_isolation sampleConsts [] emptyLogo 1 0 0 (by decide)).2.2.2.2.2.2.2.2.1,
    (C18_actor_isolation sampleConsts [] emptyLogo 1 0 0 (by decide)).2.2.2.2.2.2.2.2.2.2.2.1⟩

/-! ## Bad input (C13) -/

theorem badInput_false_iff (args : List JSVal) :
    badInput args = false ↔ ∃ s, args = [JSVal.str s] := by
  constructor
  · intro h
    match args, h with
    | [], h => simp [badInput] at h
    | [JSVal.str s], _ => exact ⟨s, rfl⟩
    | [JSVal.undefined], h => simp [badInput, argAt, looseEqNull] at h
    | [JSVal.null], h => simp [badInput, argAt, looseEqNull] at h
    | [JSVal.bool _], h => simp [badInput, argAt, looseEqNull, typeofIsString] at h
    | [JSVal.num _], h => simp [badInput, argAt, looseEqNull, typeofIsString] at h
    | _ :: _ :: _, h => simp [badInput] at h
  · rintro ⟨s, rfl⟩
    simp [badInput, argAt, looseEqNull, typeofIsString]

theorem pushNoteDrum_errors (logo : Logo) (es : List (ErrMsg × Blk)) (turtle : Turtle)
    (name : String) :
    pushNoteDrum { logo with errors := es } turtle name
      = (pushNoteDrum logo turtle name).map (fun s => { s with errors := es }) := by
  cases h : pushAt logo.noteDrums turtle (last (logo.inNoteBlock turtle)) name <;>
    simp [pushNoteDrum, h, Except.map]

theorem noteTail_errors (logo : Logo) (es : List (ErrMsg × Blk)) (turtle : Turtle) :
    noteTail { logo with errors := es } turtle
      = (noteTail logo turtle).map (fun s => { s with errors := es }) := by
  by_cases hl : (logo.inNoteBlock turtle).length > 0
  · cases h : pushAt logo.noteBeatValues turtle (last (logo.inNoteBlock turtle))
        (logo.beatFactor turtle) <;>
      simp [noteTail, hl, h, Except.map]
  · simp [noteTail, hl, Except.map]

theorem initVolume_errors (env : Consts) (logo : Logo) (es : List (ErrMsg × Blk))
    (turtle : Turtle) (name : String) :
    initVolume env { logo with errors := es } turtle name
      = { initVolume env logo turtle name with errors := es } := by
  unfold initVolume
  split <;> rfl

theorem addDrumBlock_errors (logo : Logo) (es : List (ErrMsg × Blk)) (blk : Blk) :
    addDrumBlock { logo with errors := es } blk
      = { addDrumBlock logo blk with errors := es } := by
  unfold addDrumBlock
  split <;> rfl

theorem standalone_errors (env : Consts) (logo : Logo) (es : List (ErrMsg × Blk))
    (turtle : Turtle) (blk : Blk) (name : String) :
    PlayDrumBlock.standalone env { logo with errors := es } turtle blk name
      = (PlayDrumBlock.standalone env logo turtle blk name).map
          (fun s => { s with errors := es }) := by
  have h := pushNoteDrum_errors
    { clearNoteParams logo turtle blk [] with
      inNoteBlock := Function.update logo.inNoteBlock turtle (logo.inNoteBlock turtle ++ [blk]) }
    es turtle name
  unfold PlayDrumBlock.standalone PlayDrumBlock.openOwnNote
  dsimp only
  cases h' : pushNoteDrum
    { clearNoteParams logo turtle blk [] with
      inNoteBlock := Function.update logo.inNoteBlock turtle (logo.inNoteBlock turtle ++ [blk]) }
    turtle name
  · rw [h'] at h
    simp only [clearNoteParams] at h h' ⊢
    rw [h, h']
    rfl
  · rw [h'] at h
    simp only [clearNoteParams] at h h' ⊢
    rw [h, h']
    cases env.globalCallback <;> rfl

theorem dispatch_errors (env : Consts) (logo : Logo) (es : List (ErrMsg × Blk))
    (turtle : Turtle) (blk : Blk) (name : String) :
    PlayDrumBlock.dispatch env { logo with errors := es } turtle blk name
      = (PlayDrumBlock.dispatch env logo turtle blk name).map
          (Option.map (fun s => { s with errors := es })) := by
  unfold PlayDrumBlock.dispatch
  by_cases hpm : logo.inPitchDrumMatrix = true
  · have hpm' : ({ logo with errors := es } : Logo).inPitchDrumMatrix = true := hpm
    rw [if_pos hpm', if_pos hpm]
    exact congrArg (fun s => Except.ok (some s)) (addDrumBlock_errors { logo with
      pitchDrumMatrixDrums := logo.pitchDrumMatrixDrums ++ [name]
      pitchDrumMatrixColBlocks := logo.pitchDrumMatrixColBlocks ++ [blk] } es blk)
  · have hpm' : ¬ ({ logo with errors := es } : Logo).inPitchDrumMatrix = true := hpm
    rw [if_neg hpm', if_neg hpm]
    by_cases hm : logo.inMatrix = true
    · have hm' : ({ logo with errors := es } : Logo).inMatrix = true := hm
      rw [if_pos hm', if_pos hm]
      exact congrArg (fun s => Except.ok (some s)) (addDrumBlock_errors { logo with
        rowLabels := logo.rowLabels ++ [name]
        rowArgs := logo.rowArgs ++ [-1]
        pitchTimeMatrixRowBlocks := logo.pitchTimeMatrixRowBlocks ++ [blk] } es blk)
    · have hm' : ¬ ({ logo with errors := es } : Logo).inMatrix = true := hm
      rw [if_neg hm', if_neg hm]
      by_cases hl : (logo.inNoteBlock turtle).length > 0
      · have hl' : (({ logo with errors := es } : Logo).inNoteBlock turtle).length > 0 := hl
        rw [if_pos hl', if_pos hl, pushNoteDrum_errors]
        cases pushNoteDrum logo turtle name
        · rfl
        · simp only [Except.map, Option.map, initVolume_errors]
      · have hl' : ¬ (({ logo with errors := es } : Logo).inNoteBlock turtle).length > 0 := hl
        rw [if_neg hl', if_neg hl]
        show (match logo.connections blk with
          | none => Except.error JSError.typeError
          | some connections =>
            if isStandalone connections then
              match PlayDrumBlock.standalone env { logo with errors := es } turtle blk name with
              | Except.error e => Except.error e
              | Except.ok logo => Except.ok (some logo)
            else Except.ok none) = _
        cases hc : logo.connections blk
        · rfl
        · rename_i conns
          by_cases hs : isStandalone conns = true
          · simp only [hs, if_true]
            rw [standalone_errors]
            cases PlayDrumBlock.standalone env logo turtle blk name <;> rfl
          · simp only [hs]
            rfl

theorem playDrum_play_errors (env : Consts) (logo : Logo) (es : List (ErrMsg × Blk))
    (turtle : Turtle) (blk : Blk) (name : String) :
    PlayDrumBlock.play env { logo with errors := es } turtle blk name
      = (PlayDrumBlock.play env logo turtle blk name).map
          (fun s => { s with errors := es ++ s.errors.drop logo.errors.length }) := by
  unfold PlayDrumBlock.play
  rw [dispatch_errors]
  cases hd : PlayDrumBlock.dispatch env logo turtle blk name with
  | error e => rfl
  | ok r =>
    cases r with
    | none => simp [Except.map, Option.map, errorMsg]
    | some mid =>
      simp only [Except.map, Option.map]
      rw [noteTail_errors]
      cases ht : noteTail mid turtle with
      | error e => rfl
      | ok s =>
        have h1 := (dispatch_view env logo mid turtle blk name hd).1
        have h2 := (noteTail_view mid s turtle ht).1
        simp [Except.map, h2, h1]

theorem reportBadInput_bad (args : List JSVal) (logo : Logo) (blk : Blk)
    (h : badInput args = true) :
    reportBadInput args logo blk = errorMsg logo ErrMsg.NOINPUTERRORMSG blk := by
  simp [reportBadInput, h]

theorem reportBadInput_str (s : String) (logo : Logo) (blk : Blk) :
    reportBadInput [JSVal.str s] logo blk = logo := by
  have h : badInput [JSVal.str s] = false := (badInput_false_iff _).2 ⟨s, rfl⟩
  simp [reportBadInput, h]

theorem playDrum_arg_bad (env : Consts) (args : List JSVal) (h : badInput args = true) :
    PlayDrumBlock.arg env args = env.DEFAULTDRUM := by
  simp [PlayDrumBlock.arg, h]

/-- C13: an `args` value is accepted exactly when it is a one-element list holding a string.
For every other `args`, `PlayDrumBlock.flow` reports the missing-input error for `blk` once
and then continues exactly as it does for `args = [DEFAULTDRUM]`: its result is that of the
flow call for `[DEFAULTDRUM]` from the state with the report, and it is the result of the
flow call for `[DEFAULTDRUM]` from the state without it, with the one report put back into
the list of errors. For a one-element list holding a string nothing is reported for a
missing input. -/
theorem C13_missing_input (env : Consts) (args : List JSVal) (logo : Logo) (turtle : Turtle)
    (blk : Blk) :
    (badInput args = false ↔ ∃ s, args = [JSVal.str s]) ∧
    (badInput args = true →
      reportBadInput args logo blk = errorMsg logo ErrMsg.NOINPUTERRORMSG blk ∧
      PlayDrumBlock.flow env args logo turtle blk
        = PlayDrumBlock.flow env [JSVal.str env.DEFAULTDRUM]
            (errorMsg logo ErrMsg.NOINPUTERRORMSG blk) turtle blk ∧
      PlayDrumBlock.flow env args logo turtle blk
        = (PlayDrumBlock.flow env [JSVal.str env.DEFAULTDRUM] logo turtle blk).map
            (fun s => { s with errors :=
              logo.errors ++ (ErrMsg.NOINPUTERRORMSG, blk) :: s.errors.drop logo.errors.length }) ∧
      ∀ logo', PlayDrumBlock.flow env args logo turtle blk = Except.ok logo' →
        logo'.errors.count (ErrMsg.NOINPUTERRORMSG, blk)
          = logo.errors.count (ErrMsg.NOINPUTERRORMSG, blk) + 1) ∧
    (∀ s, reportBadInput [JSVal.str s] logo blk = logo ∧
      ∀ logo', PlayDrumBlock.flow env [JSVal.str s] logo turtle blk = Except.ok logo' →
        logo'.errors.count (ErrMsg.NOINPUTERRORMSG, blk)
          = logo.errors.count (ErrMsg.NOINPUTERRORMSG, blk)) := by
  refine ⟨badInput_false_iff args, ?_, ?_⟩
  · intro hbad
    have hflow : PlayDrumBlock.flow env args logo turtle blk
        = PlayDrumBlock.play env (errorMsg logo ErrMsg.NOINPUTERRORMSG blk) turtle blk
          (PlayDrumBlock.override logo turtle (PlayDrumBlock.resolve env env.DEFAULTDRUM)) := by
      unfold PlayDrumBlock.flow
      simp only [playDrum_arg_bad env args hbad, reportBadInput_bad args logo blk hbad]
      rfl
    refine ⟨reportBadInput_bad args logo blk hbad, ?_, ?_, ?_⟩
    · rw [hflow]
      unfold PlayDrumBlock.flow
      simp only [playDrum_override_report, playDrum_arg_str, reportBadInput_str]
      rfl
    · rw [hflow]
      unfold PlayDrumBlock.flow
      simp only [playDrum_override_report, playDrum_arg_str, reportBadInput_str]
      have h := playDrum_play_errors env logo (logo.errors ++ [(ErrMsg.NOINPUTERRORMSG, blk)])
        turtle blk (PlayDrumBlock.override logo turtle (PlayDrumBlock.resolve env env.DEFAULTDRUM))
      simp only [List.append_assoc, List.singleton_append] at h
      exact h
    · intro logo' h
      rw [hflow] at h
      rcases (playDrum_play_view env _ logo' turtle blk _ h).1 with e | e <;> rw [e] <;>
        simp [errorMsg, List.count_append, List.count_cons]
  · intro s
    refine ⟨reportBadInput_str s logo blk, ?_⟩
    intro logo' h
    unfold PlayDrumBlock.flow at h
    simp only [reportBadInput_str] at h
    rcases (playDrum_play_view env _ logo' turtle blk _ h).1 with e | e <;>
      simp [e, List.count_append, List.count_cons]

/-- C13, for `args = [null]` and for `args = []` with the note `5` open for turtle `0`: the
error is reported once and the default drum is recorded. -/
theorem C13_missing_input_witness :
    (∃ logo', PlayDrumBlock.flow sampleConsts [JSVal.null] openNoteLogo 0 1 = Except.ok logo' ∧
      logo'.errors = [(ErrMsg.NOINPUTERRORMSG, 1)] ∧
      logo'.noteDrums 0 5 = some ["kick drum"]) ∧
    PlayDrumBlock.flow sampleConsts [] openNoteLogo 0 1
      = PlayDrumBlock.flow sampleConsts [JSVal.str sampleConsts.DEFAULTDRUM]
          (errorMsg openNoteLogo ErrMsg.NOINPUTERRORMSG 1) 0 1 ∧
    reportBadInput [JSVal.str "snare"] openNoteLogo 1 = openNoteLogo :=
  ⟨⟨_, ((C13_missing_input sampleConsts [JSVal.null] openNoteLogo 0 1).2.1 (by decide)).2.1,
      rfl, rfl⟩,
    ((C13_missing_input sampleConsts [] openNoteLogo 0 1).2.1 (by decide)).2.1,
    ((C13_missing_input sampleConsts [] openNoteLogo 0 1).2.2 "snare").1⟩

/-! ## The turtle list: `getTurtle` and `removeTurtle` (C19, C20) -/

theorem exists_split_at {α : Type} (l : List α) :
    ∀ n, n < l.length → ∃ pre x post, l = pre ++ x :: post ∧ pre.length = n := by
  induction l with
  | nil => intro n h; simp at h
  | cons hd tl ih =>
    intro n h
    cases n with
    | zero => exact ⟨[], hd, tl, rfl, rfl⟩
    | succ n =>
      obtain ⟨pre, x, post, e, hl⟩ := ih n (by simpa using h)
      exact ⟨hd :: pre, x, post, by simp [e], by simp [hl]⟩

theorem get?_split_self {α : Type} (pre post : List α) (x : α) :
    (pre ++ x :: post).get? pre.length = some x := by
  induction pre with
  | nil => rfl
  | cons hd tl ih => simpa using ih

theorem get?_split_before {α : Type} (pre post : List α) (x : α) :
    ∀ i, i < pre.length → (pre ++ post).get? i = (pre ++ x :: post).get? i := by
  induction pre with
  | nil => intro i h; simp at h
  | cons hd tl ih =>
    intro i h
    cases i with
    | zero => rfl
    | succ i => simpa using ih i (by simpa using h)

theorem get?_split_after {α : Type} (pre post : List α) (x : α) :
    ∀ i, pre.length ≤ i → (pre ++ post).get? i = (pre ++ x :: post).get? (i + 1) := by
  induction pre with
  | nil => intro i _; rfl
  | cons hd tl ih =>
    intro i h
    cases i with
    | zero => simp at h
    | succ i => simpa using ih i (by simpa using h)

theorem jsGet_outside {α : Type} (l : List α) (index : Int)
    (h : ¬ (0 ≤ index ∧ index < (l.length : Int))) : jsGet l index = none := by
  unfold jsGet
  split
  · rfl
  · rename_i hneg
    apply List.get?_eq_none.2
    omega

/-- C19: for every turtle list and every integer `index`, `getTurtle(index)` returns the
entry stored at `index` when `0 <= index < getTurtleCount()` and throws the not-found error
for every other index; what it returns is always an entry of the list. -/
theorem C19_getTurtle (turtleList : List TurtleObject) (index : Int) :
    (0 ≤ index → index < (TurtlesModel.getTurtleCount turtleList : Int) →
      ∃ turtle, turtleList.get? index.toNat = some turtle ∧
        TurtlesModel.getTurtle turtleList index = Except.ok turtle) ∧
    (¬ (0 ≤ index ∧ index < (TurtlesModel.getTurtleCount turtleList : Int)) →
      TurtlesModel.getTurtle turtleList index = Except.error (JSError.notFound index)) ∧
    (∀ turtle, TurtlesModel.getTurtle turtleList index = Except.ok turtle →
      turtle ∈ turtleList) := by
  refine ⟨?_, ?_, ?_⟩
  · intro h0 h1
    obtain ⟨pre, x, post, e, hl⟩ := exists_split_at turtleList index.toNat
      (by simp only [TurtlesModel.getTurtleCount] at h1; omega)
    have hg : turtleList.get? index.toNat = some x := by
      rw [e, ← hl]
      exact get?_split_self pre post x
    refine ⟨x, hg, ?_⟩
    have hn : ¬ index < 0 := by omega
    have hj : jsGet turtleList index = some x := by
      unfold jsGet
      rw [if_neg hn, hg]
    unfold TurtlesModel.getTurtle
    rw [hj]
    rfl
  · intro h
    simp [TurtlesModel.getTurtle, jsGet_outside turtleList index h]
  · intro turtle h
    unfold TurtlesModel.getTurtle at h
    split at h
    · cases h
    · rename_i t ht
      simp only [TurtleObject.isFalsy] at h
      cases h
      unfold jsGet at ht
      split at ht
      · cases ht
      · exact List.get?_mem ht

/-- C19, on a list of three turtles: index `1` gives the second one, the indices `3` and
`-1` throw. -/
theorem C19_getTurtle_witness :
    (∃ turtle, sampleTurtles.get? 1 = some turtle ∧
        TurtlesModel.getTurtle sampleTurtles 1 = Except.ok turtle) ∧
      TurtlesModel.getTurtle sampleTurtles 3 = Except.error (JSError.notFound 3) ∧
      TurtlesModel.getTurtle sampleTurtles (-1) = Except.error (JSError.notFound (-1)) :=
  ⟨(C19_getTurtle sampleTurtles 1).1 (by decide) (by decide),
    (C19_getTurtle sampleTurtles 3).2.1 (by decide),
    (C19_getTurtle sampleTurtles (-1)).2.1 (by decide)⟩

/-- C20: for every turtle list and every integer `index`, `removeTurtle(index)` completes;
when `0 <= index < length` the list afterwards is the list with exactly the entry at `index`
erased (the entries before `index` keep their indices, those after it move down by one, the
length decreases by one), and otherwise the list is as it was. -/
theorem C20_removeTurtle (turtleList : List TurtleObject) (index : Int) :
    (0 ≤ index → index < (turtleList.length : Int) →
      (∃ pre x post, turtleList = pre ++ x :: post ∧ (pre.length : Int) = index ∧
        TurtlesModel.removeTurtle turtleList index = pre ++ post) ∧
      TurtlesModel.removeTurtle turtleList index = turtleList.eraseIdx index.toNat ∧
      (TurtlesModel.removeTurtle turtleList index).length + 1 = turtleList.length ∧
      (∀ i : Nat, (i : Int) < index →
        (TurtlesModel.removeTurtle turtleList index).get? i = turtleList.get? i) ∧
      (∀ i : Nat, index ≤ (i : Int) →
        (TurtlesModel.removeTurtle turtleList index).get? i = turtleList.get? (i + 1))) ∧
    (¬ (0 ≤ index ∧ index < (turtleList.length : Int)) →
      TurtlesModel.removeTurtle turtleList index = turtleList) := by
  constructor
  · intro h0 h1
    obtain ⟨pre, x, post, e, hl⟩ := exists_split_at turtleList index.toNat (by omega)
    have hidx : (pre.length : Int) = index := by omega
    have hrm : TurtlesModel.removeTurtle turtleList index = pre ++ post := by
      unfold TurtlesModel.removeTurtle
      rw [if_pos ⟨h0, h1⟩, ← hidx, e]
      exact spliceOne_first pre post x
    refine ⟨⟨pre, x, post, e, hidx, hrm⟩, ?_, ?_, ?_, ?_⟩
    · rw [hrm, e, ← hl]
      exact (eraseIdx_first pre post x).symm
    · rw [hrm, e]
      simp only [List.length_append, List.length_cons]
      omega
    · intro i hi
      rw [hrm, e]
      exact get?_split_before pre post x i (by omega)
    · intro i hi
      rw [hrm, e]
      exact get?_split_after pre post x i (by omega)
  · intro h
    unfold TurtlesModel.removeTurtle
    rw [if_neg h]

/-- C20, on a list of three turtles: removing index `1` leaves the first and the third
one, removing index `3` or `-1` leaves the list as it was. -/
theorem C20_removeTurtle_witness :
    (TurtlesModel.removeTurtle sampleTurtles 1).length + 1 = sampleTurtles.length ∧
      (TurtlesModel.removeTurtle sampleTurtles 1).get? 0 = sampleTurtles.get? 0 ∧
      (TurtlesModel.removeTurtle sampleTurtles 1).get? 1 = sampleTurtles.get? 2 ∧
      TurtlesModel.removeTurtle sampleTurtles 3 = sampleTurtles ∧
      TurtlesModel.removeTurtle sampleTurtles (-1) = sampleTurtles :=
  ⟨((C20_removeTurtle sampleTurtles 1).1 (by decide) (by decide)).2.2.1,
    ((C20_removeTurtle sampleTurtles 1).1 (by decide) (by decide)).2.2.2.1 0 (by decide),
    ((C20_removeTurtle sampleTurtles 1).1 (by decide) (by decide)).2.2.2.2 1 (by decide),
    (C20_removeTurtle sampleTurtles 3).2 (by decide),
    (C20_removeTurtle sampleTurtles (-1)).2 (by decide)⟩

/-! ## The companion of a turtle (C21) -/

theorem getTurtle_split (pre post : List TurtleObject) (x : TurtleObject) :
    TurtlesModel.getTurtle (pre ++ x :: post) (pre.length : Int) = Except.ok x := by
  have hj : jsGet (pre ++ x :: post) (pre.length : Int) = some x := by
    unfold jsGet
    rw [if_neg (by omega), Int.toNat_ofNat]
    exact get?_split_self pre post x
  unfold TurtlesModel.getTurtle
  rw [hj]
  rfl

theorem exists_first_link (i : JSVal) (l : List TurtleObject)
    (h : ∃ y ∈ l, y.companionTurtle = i) :
    ∃ pre x post, l = pre ++ x :: post ∧ (∀ y ∈ pre, y.companionTurtle ≠ i) ∧
      x.companionTurtle = i := by
  induction l with
  | nil => obtain ⟨y, hy, _⟩ := h; simp at hy
  | cons hd tl ih =>
    by_cases h1 : hd.companionTurtle = i
    · exact ⟨[], hd, tl, rfl, by simp, h1⟩
    · have h' : ∃ y ∈ tl, y.companionTurtle = i := by
        obtain ⟨y, hy, hm⟩ := h
        rcases List.mem_cons.1 hy with rfl | hy
        · exact absurd hm h1
        · exact ⟨y, hy, hm⟩
      obtain ⟨pre, x, post, e, hp, hm⟩ := ih h'
      refine ⟨hd :: pre, x, post, by simp [e], ?_, hm⟩
      intro y hy
      rcases List.mem_cons.1 hy with rfl | hy
      · exact h1
      · exact hp y hy

theorem companionTurtleFrom_none (i : JSVal) :
    ∀ (rest done : List TurtleObject), (∀ y ∈ rest, y.companionTurtle ≠ i) →
      TurtlesModel.companionTurtleFrom (done ++ rest) i rest.length done.length
        = Except.ok i := by
  intro rest
  induction rest with
  | nil => intro done _; rfl
  | cons x tl ih =>
    intro done h
    have hx : ¬ x.companionTurtle = i := h x (List.mem_cons_self _ _)
    have ht := ih (done ++ [x]) (fun y hy => h y (List.mem_cons_of_mem _ hy))
    simp only [List.length_cons, TurtlesModel.companionTurtleFrom, getTurtle_split, if_neg hx]
    simpa using ht

theorem companionTurtleFrom_first (i : JSVal) (x : TurtleObject) (post : List TurtleObject)
    (hx : x.companionTurtle = i) :
    ∀ (pre done : List TurtleObject), (∀ y ∈ pre, y.companionTurtle ≠ i) →
      TurtlesModel.companionTurtleFrom (done ++ (pre ++ x :: post)) i
          (pre ++ x :: post).length done.length
        = Except.ok (JSVal.num ((done.length + pre.length : Nat) : Int)) := by
  intro pre
  induction pre with
  | nil =>
    intro done _
    simp only [List.nil_append, List.length_cons, TurtlesModel.companionTurtleFrom,
      getTurtle_split, if_pos hx, List.length_nil, Nat.add_zero]
  | cons y tl ih =>
    intro done h
    have hy : ¬ y.companionTurtle = i := h y (List.mem_cons_self _ _)
    have ht := ih (done ++ [y]) (fun z hz => h z (List.mem_cons_of_mem _ hz))
    simp only [List.cons_append, List.length_cons, TurtlesModel.companionTurtleFrom,
      getTurtle_split, if_neg hy]
    have e : done.length + (tl.length + 1) = (done ++ [y]).length + tl.length := by
      simp only [List.length_append, List.length_singleton]
      omega
    rw [e]
    simpa using ht

theorem companionTurtle_none (turtleList : List TurtleObject) (i : JSVal)
    (h : ∀ y ∈ turtleList, y.companionTurtle ≠ i) :
    TurtlesModel.companionTurtle turtleList i = Except.ok i := by
  have := companionTurtleFrom_none i turtleList [] h
  simpa [TurtlesModel.companionTurtle, TurtlesModel.getTurtleCount] using this

theorem companionTurtle_first (pre post : List TurtleObject) (x : TurtleObject) (i : JSVal)
    (hpre : ∀ y ∈ pre, y.companionTurtle ≠ i) (hx : x.companionTurtle = i) :
    TurtlesModel.companionTurtle (pre ++ x :: post) i
      = Except.ok (JSVal.num (pre.length : Int)) := by
  have := companionTurtleFrom_first i x post hx pre [] hpre
  simpa [TurtlesModel.companionTurtle, TurtlesModel.getTurtleCount] using this

/-- C21: for every list of actor objects and every value `i`, `companionTurtle(i)` completes;
it returns the smallest index whose actor has `i` in its field `companionTurtle` if there
is such an actor (the list splits as `pre ++ x :: post` with no such actor in `pre` and `x`
one), and `i` itself otherwise. -/
theorem C21_companionTurtle (turtleList : List TurtleObject) (i : JSVal) :
    (∃ v, TurtlesModel.companionTurtle turtleList i = Except.ok v) ∧
    (∀ pre x post, turtleList = pre ++ x :: post →
      (∀ y ∈ pre, y.companionTurtle ≠ i) → x.companionTurtle = i →
      (pre.length < TurtlesModel.getTurtleCount turtleList ∧
        TurtlesModel.companionTurtle turtleList i = Except.ok (JSVal.num (pre.length : Int)))) ∧
    ((∀ y ∈ turtleList, y.companionTurtle ≠ i) →
      TurtlesModel.companionTurtle turtleList i = Except.ok i) := by
  have hfirst : ∀ pre x post, turtleList = pre ++ x :: post →
      (∀ y ∈ pre, y.companionTurtle ≠ i) → x.companionTurtle = i →
      (pre.length < TurtlesModel.getTurtleCount turtleList ∧
        TurtlesModel.companionTurtle turtleList i
          = Except.ok (JSVal.num (pre.length : Int))) := by
    intro pre x post e hp hx
    subst e
    refine ⟨?_, companionTurtle_first pre post x i hp hx⟩
    simp only [TurtlesModel.getTurtleCount, List.length_append, List.length_cons]
    omega
  refine ⟨?_, hfirst, companionTurtle_none turtleList i⟩
  by_cases h : ∃ y ∈ turtleList, y.companionTurtle = i
  · obtain ⟨pre, x, post, e, hp, hx⟩ := exists_first_link i turtleList h
    exact ⟨_, (hfirst pre x post e hp hx).2⟩
  · refine ⟨i, companionTurtle_none turtleList i ?_⟩
    intro y hy hc
    exact h ⟨y, hy, hc⟩

/-- C21, on a list of three turtles the second of which has the link `0`: the companion of
`0` is `1`, and a value no link equals, in range or not, is returned as it is. -/
theorem C21_companionTurtle_witness :
    TurtlesModel.companionTurtle sampleTurtles (JSVal.num 0) = Except.ok (JSVal.num 1) ∧
      TurtlesModel.companionTurtle sampleTurtles (JSVal.num 2) = Except.ok (JSVal.num 2) ∧
      TurtlesModel.companionTurtle sampleTurtles (JSVal.num 7) = Except.ok (JSVal.num 7) :=
  ⟨((C21_companionTurtle sampleTurtles (JSVal.num 0)).2.1
      [{ ref := 1, id := 100, name := "start", companionTurtle := JSVal.undefined,
          inTrash := false, running := false }]
      { ref := 2, id := 101, name := "drone", companionTurtle := JSVal.num 0, inTrash := false,
        running := true }
      [{ ref := 3, id := 102, name := "start", companionTurtle := JSVal.undefined,
          inTrash := true, running := false }] rfl (by decide) rfl).2,
    (C21_companionTurtle sampleTurtles (JSVal.num 2)).2.2 (by decide),
    (C21_companionTurtle sampleTurtles (JSVal.num 7)).2.2 (by decide)⟩

/-! ## Counting turtles (C22, C23) -/

theorem getTurtle_of_get? (l : List TurtleObject) (t : Nat) (x : TurtleObject)
    (h : l.get? t = some x) : TurtlesModel.getTurtle l (t : Int) = Except.ok x := by
  have hj : jsGet l (t : Int) = some x := by
    unfold jsGet
    rw [if_neg (by omega), Int.toNat_ofNat]
    exact h
  unfold TurtlesModel.getTurtle
  rw [hj]
  rfl

theorem get?_of_lt (l : List TurtleObject) (t : Nat) (h : t < l.length) :
    ∃ x, l.get? t = some x ∧ x ∈ l := by
  obtain ⟨pre, x, post, e, hl⟩ := exists_split_at l t h
  refine ⟨x, ?_, by simp [e]⟩
  rw [e, ← hl]
  exact get?_split_self pre post x

theorem companionTurtle_self_iff (l : List TurtleObject) (t : Nat)
    (hself : ∀ s x, l.get? s = some x → x.companionTurtle ≠ JSVal.num (s : Int)) :
    ∃ c, TurtlesModel.companionTurtle l (JSVal.num (t : Int)) = Except.ok c ∧
      (c = JSVal.num (t : Int) ↔ ∀ y ∈ l, y.companionTurtle ≠ JSVal.num (t : Int)) := by
  by_cases h : ∃ y ∈ l, y.companionTurtle = JSVal.num (t : Int)
  · obtain ⟨pre, x, post, e, hp, hx⟩ := exists_first_link _ l h
    refine ⟨JSVal.num (pre.length : Int), ?_, ?_⟩
    · rw [e]
      exact companionTurtle_first pre post x _ hp hx
    · have hg : l.get? pre.length = some x := by rw [e]; exact get?_split_self pre post x
      have hne := hself pre.length x hg
      constructor
      · intro hc
        rw [hc] at hne
        exact absurd hx hne
      · intro hall
        exact absurd hx (hall x (by simp [e]))
  · have hall : ∀ y ∈ l, y.companionTurtle ≠ JSVal.num (t : Int) :=
      fun y hy hc => h ⟨y, hy, hc⟩
    exact ⟨_, companionTurtle_none l _ hall, ⟨fun _ => hall, fun _ => rfl⟩⟩

theorem turtleCountFrom_eq (l : List TurtleObject)
    (hself : ∀ s x, l.get? s = some x → x.companionTurtle ≠ JSVal.num (s : Int)) :
    ∀ steps t count, t + steps = l.length →
      TurtlesModel.turtleCountFrom l steps t count
        = Except.ok (count + ((List.range' t steps).filter (isUntargetedLive l)).length) := by
  intro steps
  induction steps with
  | zero => intro t count _; rfl
  | succ steps ih =>
    intro t count ht
    obtain ⟨x, hx, _⟩ := get?_of_lt l t (by omega)
    obtain ⟨c, hc, hiff⟩ := companionTurtle_self_iff l t hself
    have hrec := fun k => ih (t + 1) k (by omega)
    simp only [TurtlesModel.turtleCountFrom, hc, getTurtle_of_get? l t x hx, List.range'_succ,
      List.filter_cons, isUntargetedLive, hx]
    by_cases hcase : c = JSVal.num (t : Int)
    · have hall := hiff.1 hcase
      rw [if_pos hcase]
      by_cases htr : x.inTrash = true
      · simp only [htr, hrec, hall, Bool.not_true, Bool.and_false]
        simp
      · have htr' : x.inTrash = false := by simpa using htr
        simp only [htr', hrec, Bool.not_false, Bool.and_true]
        have hd : decide (∀ turtle ∈ l, turtle.companionTurtle ≠ JSVal.num (t : Int)) = true :=
          decide_eq_true hall
        simp only [hd, if_true, List.length_cons]
        congr 1
        omega
    · have hall : ¬ ∀ y ∈ l, y.companionTurtle ≠ JSVal.num (t : Int) := fun h => hcase (hiff.2 h)
      have hd : decide (∀ turtle ∈ l, turtle.companionTurtle ≠ JSVal.num (t : Int)) = false :=
        decide_eq_false hall
      rw [if_neg hcase, hrec]
      simp only [hd, Bool.false_and]
      simp

theorem turtleCount_eq (l : List TurtleObject)
    (hself : ∀ s x, l.get? s = some x → x.companionTurtle ≠ JSVal.num (s : Int)) :
    TurtlesModel.turtleCount l = Except.ok (countUntargetedLive l) := by
  unfold TurtlesModel.turtleCount TurtlesModel.getTurtleCount countUntargetedLive
  rw [turtleCountFrom_eq l hself l.length 0 0 (by omega), List.range_eq_range']
  simp

theorem hasLink_false (x : TurtleObject) (h : hasLink x = false) (n : Int) :
    x.companionTurtle ≠ JSVal.num n := by
  intro hc
  simp [hasLink, hc] at h

theorem wellLinked_no_self (l : List TurtleObject) (h : wellLinked l = true) :
    ∀ s x, l.get? s = some x → x.companionTurtle ≠ JSVal.num (s : Int) := by
  intro s x hx hc
  have hs : s < l.length := by
    by_contra hlt
    rw [List.get?_eq_none.2 (by omega)] at hx
    cases hx
  unfold wellLinked at h
  rw [Bool.and_eq_true] at h
  have h1 := List.all_eq_true.1 h.1 s (List.mem_range.2 hs)
  rw [hx] at h1
  simp only [hc] at h1
  simp at h1

/-- C22: for a registry of exactly two actors, neither in the trash, where `A` has no
companion link and the field `companionTurtle` of `B` is the index of `A`, in either storage
order, `turtleCount()` returns `1` and `getTurtleCount()` returns `2`. -/
theorem C22_pair_counts_one (A B : TurtleObject) (hA : hasLink A = false)
    (hAt : A.inTrash = false) (hBt : B.inTrash = false) :
    (B.companionTurtle = JSVal.num 0 →
      TurtlesModel.turtleCount [A, B] = Except.ok 1 ∧
      TurtlesModel.getTurtleCount [A, B] = 2) ∧
    (B.companionTurtle = JSVal.num 1 →
      TurtlesModel.turtleCount [B, A] = Except.ok 1 ∧
      TurtlesModel.getTurtleCount [B, A] = 2) := by
  have hA0 := hasLink_false A hA 0
  have hA1 := hasLink_false A hA 1
  constructor
  · intro hB
    refine ⟨?_, rfl⟩
    have hself : ∀ s x, [A, B].get? s = some x → x.companionTurtle ≠ JSVal.num (s : Int) := by
      intro s x hx
      match s, hx with
      | 0, hx => cases hx; exact hA0
      | 1, hx => cases hx; rw [hB]; decide
      | s + 2, hx => cases hx
    rw [turtleCount_eq _ hself]
    have e : countUntargetedLive [A, B] = 1 := by
      simp [countUntargetedLive, isUntargetedLive, List.range_succ, List.filter_cons, hB, hBt,
        hA1]
    rw [e]
  · intro hB
    refine ⟨?_, rfl⟩
    have hself : ∀ s x, [B, A].get? s = some x → x.companionTurtle ≠ JSVal.num (s : Int) := by
      intro s x hx
      match s, hx with
      | 0, hx => cases hx; rw [hB]; decide
      | 1, hx => cases hx; exact hA1
      | s + 2, hx => cases hx
    rw [turtleCount_eq _ hself]
    have e : countUntargetedLive [B, A] = 1 := by
      simp [countUntargetedLive, isUntargetedLive, List.range_succ, List.filter_cons, hB, hBt,
        hAt, hA0]
    rw [e]

/-- C22, for a primary actor and an actor linked to it, in both storage orders. -/
theorem C22_pair_counts_one_witness :
    (TurtlesModel.turtleCount [primaryTurtle, linkedTurtle] = Except.ok 1 ∧
      TurtlesModel.getTurtleCount [primaryTurtle, linkedTurtle] = 2) ∧
    (TurtlesModel.turtleCount [linkedToOneTurtle, primaryTurtle] = Except.ok 1 ∧
      TurtlesModel.getTurtleCount [linkedToOneTurtle, primaryTurtle] = 2) :=
  ⟨(C22_pair_counts_one primaryTurtle linkedTurtle rfl rfl rfl).1 rfl,
    (C22_pair_counts_one primaryTurtle linkedToOneTurtle rfl rfl rfl).2 rfl⟩

/-- C23, as stated, fails: the primary actor `A`, not in the trash, is paired with the actor
`B`, in the trash, whose link points at `A`; the registry is one of the claim, one actor has
no link and is not in the trash, yet `turtleCount()` returns `0`. -/
theorem C23_counterexample :
    wellLinked [primaryTurtle, { linkedTurtle with inTrash := true }] = true ∧
      hasLink primaryTurtle = false ∧ primaryTurtle.inTrash = false ∧
      countUnlinkedLive [primaryTurtle, { linkedTurtle with inTrash := true }] = 1 ∧
      TurtlesModel.turtleCount [primaryTurtle, { linkedTurtle with inTrash := true }]
        = Except.ok 0 :=
  ⟨by decide, rfl, rfl, by decide, rfl⟩

/-- C23, amended: in every registry in which each companion link that is set points at the
index of another actor (so in every registry of the claim), `turtleCount()` returns the
number of actors that are not in the trash and at whose index no companion link points. The
actors left out are the targets of the links, not the actors that carry one. -/
theorem C23_turtleCount_untargeted (turtleList : List TurtleObject) :
    ((∀ s x, turtleList.get? s = some x → x.companionTurtle ≠ JSVal.num (s : Int)) →
      TurtlesModel.turtleCount turtleList = Except.ok (countUntargetedLive turtleList)) ∧
    (wellLinked turtleList = true →
      TurtlesModel.turtleCount turtleList = Except.ok (countUntargetedLive turtleList)) :=
  ⟨turtleCount_eq turtleList,
    fun h => turtleCount_eq turtleList (wellLinked_no_self turtleList h)⟩

/-- C23, amended, at three registries of the claim: a pair with the linked actor in the
trash counts `0`, a pair with both actors live counts `1`, and two pairs count `2`. -/
theorem C23_turtleCount_untargeted_witness :
    TurtlesModel.turtleCount [primaryTurtle, { linkedTurtle with inTrash := true }]
        = Except.ok (countUntargetedLive [primaryTurtle, { linkedTurtle with inTrash := true }]) ∧
      countUntargetedLive [primaryTurtle, { linkedTurtle with inTrash := true }] = 0 ∧
      TurtlesModel.turtleCount [primaryTurtle, linkedTurtle]
        = Except.ok (countUntargetedLive [primaryTurtle, linkedTurtle]) ∧
      countUntargetedLive [primaryTurtle, linkedTurtle] = 1 ∧
      TurtlesModel.turtleCount [linkedToOneTurtle, primaryTurtle]
        = Except.ok (countUntargetedLive [linkedToOneTurtle, primaryTurtle]) :=
  ⟨(C23_turtleCount_untargeted _).2 (by decide), by decide,
    (C23_turtleCount_untargeted _).2 (by decide), by decide,
    (C23_turtleCount_untargeted _).1 (by
      intro s x hx
      match s, hx with
      | 0, hx => cases hx; decide
      | 1, hx => cases hx; decide
      | s + 2, hx => cases hx)⟩

/-! ## No actor twice in the turtle list (C24) -/

theorem includes_false_iff (turtleList : List TurtleObject) (turtle : TurtleObject) :
    TurtlesModel.includes turtleList turtle = false ↔ ∀ x ∈ turtleList, x.ref ≠ turtle.ref := by
  simp [TurtlesModel.includes]

theorem includes_true_iff (turtleList : List TurtleObject) (turtle : TurtleObject) :
    TurtlesModel.includes turtleList turtle = true ↔ ∃ x ∈ turtleList, x.ref = turtle.ref := by
  simp [TurtlesModel.includes]

theorem pushTurtle_new (turtleList : List TurtleObject) (turtle : TurtleObject)
    (h : ∀ x ∈ turtleList, x.ref ≠ turtle.ref) :
    TurtlesModel.pushTurtle turtleList turtle = turtleList ++ [turtle] := by
  have hi := (includes_false_iff turtleList turtle).mpr h
  simp [TurtlesModel.pushTurtle, hi]

theorem pushTurtle_old (turtleList : List TurtleObject) (turtle : TurtleObject)
    (h : ∃ x ∈ turtleList, x.ref = turtle.ref) :
    TurtlesModel.pushTurtle turtleList turtle = turtleList := by
  have hi := (includes_true_iff turtleList turtle).mpr h
  simp [TurtlesModel.pushTurtle, hi]

theorem pushTurtle_nodup (turtleList : List TurtleObject) (turtle : TurtleObject)
    (h : (turtleList.map TurtleObject.ref).Nodup) :
    ((TurtlesModel.pushTurtle turtleList turtle).map TurtleObject.ref).Nodup := by
  by_cases hm : ∃ x ∈ turtleList, x.ref = turtle.ref
  · rw [pushTurtle_old _ _ hm]
    exact h
  · have hn : ∀ x ∈ turtleList, x.ref ≠ turtle.ref := fun x hx e => hm ⟨x, hx, e⟩
    rw [pushTurtle_new _ _ hn, List.map_append, List.nodup_append]
    refine ⟨h, List.nodup_singleton _, ?_⟩
    intro r hr hr'
    obtain ⟨x, hx, e⟩ := List.mem_map.mp hr
    simp only [List.map_cons, List.map_nil, List.mem_singleton] at hr'
    exact hn x hx (e.trans hr')

theorem removeTurtle_nodup (turtleList : List TurtleObject) (index : Int)
    (h : (turtleList.map TurtleObject.ref).Nodup) :
    ((TurtlesModel.removeTurtle turtleList index).map TurtleObject.ref).Nodup := by
  unfold TurtlesModel.removeTurtle
  split
  · exact h.sublist ((List.eraseIdx_sublist _ _).map _)
  · exact h

theorem foldl_applyOp_nodup (ops : List ListOp) :
    ∀ l : List TurtleObject, (l.map TurtleObject.ref).Nodup →
      ((ops.foldl applyOp l).map TurtleObject.ref).Nodup := by
  induction ops with
  | nil => intro l h; exact h
  | cons op rest ih =>
    intro l h
    cases op with
    | pushTurtle turtle => exact ih _ (pushTurtle_nodup l turtle h)
    | removeTurtle index => exact ih _ (removeTurtle_nodup l index h)

/-- C24: `pushTurtle(turtle)` appends `turtle` at the end of the list when the object is not
in the list, also when an entry agrees with it in every field, and leaves the list unchanged
when the object is in it; consequently every list reached from the empty list by a sequence
of `pushTurtle` and `removeTurtle` calls contains no object twice (no reference occurs at
two indices, so no two entries are equal either), and both calls keep a list without
repetition so. -/
theorem C24_no_actor_twice (turtleList : List TurtleObject) (turtle : TurtleObject) :
    ((∀ x ∈ turtleList, x.ref ≠ turtle.ref) →
      TurtlesModel.pushTurtle turtleList turtle = turtleList ++ [turtle]) ∧
    ((∃ x ∈ turtleList, x.ref = turtle.ref) →
      TurtlesModel.pushTurtle turtleList turtle = turtleList) ∧
    (∀ ops : List ListOp, ((runOps ops).map TurtleObject.ref).Nodup ∧ (runOps ops).Nodup) ∧
    ((turtleList.map TurtleObject.ref).Nodup →
      ∀ op, ((applyOp turtleList op).map TurtleObject.ref).Nodup) := by
  refine ⟨pushTurtle_new turtleList turtle, pushTurtle_old turtleList turtle, ?_, ?_⟩
  · intro ops
    have h := foldl_applyOp_nodup ops [] List.nodup_nil
    exact ⟨h, List.Nodup.of_map _ h⟩
  · intro h op
    cases op with
    | pushTurtle t => exact pushTurtle_nodup turtleList t h
    | removeTurtle index => exact removeTurtle_nodup turtleList index h

/-- C24, on small lists: a new object goes to the end, also when it agrees in every field
with the one entry of the list; an object of the list is not added again; and a removal
keeps a list without repetition so. -/
theorem C24_no_actor_twice_witness :
    TurtlesModel.pushTurtle sampleTurtles freshTurtle = sampleTurtles ++ [freshTurtle] ∧
      TurtlesModel.pushTurtle [freshTurtle] { freshTurtle with ref := 21 }
        = [freshTurtle, { freshTurtle with ref := 21 }] ∧
      TurtlesModel.pushTurtle [primaryTurtle, freshTurtle] freshTurtle
        = [primaryTurtle, freshTurtle] ∧
      ((applyOp [primaryTurtle, freshTurtle] (ListOp.removeTurtle 0)).map
        TurtleObject.ref).Nodup :=
  ⟨(C24_no_actor_twice sampleTurtles freshTurtle).1 (by decide),
    (C24_no_actor_twice [freshTurtle] { freshTurtle with ref := 21 }).1 (by decide),
    (C24_no_actor_twice [primaryTurtle, freshTurtle] freshTurtle).2.1 (by decide),
    (C24_no_actor_twice [primaryTurtle, freshTurtle] freshTurtle).2.2.2 (by decide)
      (ListOp.removeTurtle 0)⟩

/-! ## `PlayDrumMacroBlock` (C27) -/

/-- C27: in the macro built by `PlayDrumMacroBlock(name, displayName, isDrum, drumName)` the
value of the name block is `displayName || name` (`displayName`, or `name` when
`displayName` is absent or otherwise falsy) whenever `isDrum` or `drumName` is truthy, and
`name` otherwise; it is always `displayName` or `name`, whatever `drumName` is. The block
`chine` expands to a `playdrum` block whose drum name is `chime`, the block `floortom`
expands with the value `floor tom`, and `duck`, created with a name only, expands with
that name as an effects name. -/
theorem C27_macro_value (name displayName isDrum drumName : JSVal) :
    ((truthy isDrum = true ∨ truthy drumName = true) →
      (PlayDrumMacroBlock.macroOf name displayName isDrum drumName).value
        = jsOr displayName name) ∧
    ((truthy isDrum = true ∨ truthy drumName = true) → ∀ d : String, d ≠ "" →
      displayName = JSVal.str d →
      (PlayDrumMacroBlock.macroOf name displayName isDrum drumName).value = JSVal.str d) ∧
    ((truthy isDrum = true ∨ truthy drumName = true) → displayName = JSVal.undefined →
      (PlayDrumMacroBlock.macroOf name displayName isDrum drumName).value = name) ∧
    (truthy isDrum = false → truthy drumName = false →
      (PlayDrumMacroBlock.macroOf name displayName isDrum drumName).value = name) ∧
    ((PlayDrumMacroBlock.macroOf name displayName isDrum drumName).value = displayName ∨
      (PlayDrumMacroBlock.macroOf name displayName isDrum drumName).value = name) ∧
    (PlayDrumMacroBlock.macroOf name displayName isDrum drumName).block = "playdrum" ∧
    macroNamed "chine" = some (DrumMacro.mk "playdrum" "drumname" (JSVal.str "chime")) ∧
    macroNamed "floortom"
      = some (DrumMacro.mk "playdrum" "drumname" (JSVal.str "floor tom")) ∧
    macroNamed "duck" = some (DrumMacro.mk "playdrum" "effectsname" (JSVal.str "duck")) := by
  have hor : (truthy isDrum = true ∨ truthy drumName = true) →
      truthy (jsOr drumName isDrum) = true := by
    intro h
    unfold jsOr
    by_cases hd : truthy drumName = true
    · simp [hd]
    · rcases h with h | h
      · simp [hd, h]
      · exact absurd h hd
  have hval : (truthy isDrum = true ∨ truthy drumName = true) →
      (PlayDrumMacroBlock.macroOf name displayName isDrum drumName).value
        = jsOr displayName name := by
    intro h
    simp [PlayDrumMacroBlock.macroOf, hor h]
  refine ⟨hval, ?_, ?_, ?_, ?_, rfl, by decide, by decide, by decide⟩
  · intro h d hd e
    rw [hval h, e]
    simp [jsOr, truthy, hd]
  · intro h e
    rw [hval h, e]
    simp [jsOr, truthy]
  · intro h1 h2
    simp [PlayDrumMacroBlock.macroOf, jsOr, h1, h2]
  · by_cases h : truthy (jsOr drumName isDrum) = true
    · have e : (PlayDrumMacroBlock.macroOf name displayName isDrum drumName).value
          = jsOr displayName name := by
        simp only [PlayDrumMacroBlock.macroOf, h, if_true]
      rw [e]
      unfold jsOr
      split
      · exact Or.inl rfl
      · exact Or.inr rfl
    · right
      simp only [PlayDrumMacroBlock.macroOf, if_neg h]

/-- C27, at the constructor calls for `chine`, `floortom` and `duck`. -/
theorem C27_macro_value_witness :
    (PlayDrumMacroBlock.macroOf (JSVal.str "chine") (JSVal.str "chime") (JSVal.bool true)
        JSVal.undefined).value = JSVal.str "chime" ∧
      (PlayDrumMacroBlock.macroOf (JSVal.str "floortom") (JSVal.str "floor tom")
        (JSVal.bool true) (JSVal.str "floor tom tom")).value = JSVal.str "floor tom" ∧
      (PlayDrumMacroBlock.macroOf (JSVal.str "floortom") JSVal.undefined
        JSVal.undefined (JSVal.str "floor tom tom")).value = JSVal.str "floortom" ∧
      (PlayDrumMacroBlock.macroOf (JSVal.str "duck") JSVal.undefined JSVal.undefined
        JSVal.undefined).value = JSVal.str "duck" :=
  ⟨(C27_macro_value (JSVal.str "chine") (JSVal.str "chime") (JSVal.bool true)
      JSVal.undefined).2.1 (Or.inl rfl) "chime" (by decide) rfl,
    (C27_macro_value (JSVal.str "floortom") (JSVal.str "floor tom") (JSVal.bool true)
      (JSVal.str "floor tom tom")).2.1 (Or.inl rfl) "floor tom" (by decide) rfl,
    (C27_macro_value (JSVal.str "floortom") JSVal.undefined JSVal.undefined
      (JSVal.str "floor tom tom")).2.2.1 (Or.inr (by decide)) rfl,
    (C27_macro_value (JSVal.str "duck") JSVal.undefined JSVal.undefined
      JSVal.undefined).2.2.2.1 rfl rfl⟩

/-! ## Adding a turtle (C25, C26) -/

theorem companionColourFrom_none (L : List TurtleObject) (i : Nat) :
    ∀ (rest done : List TurtleObject), done ++ rest = L →
      (∀ y ∈ rest,
        y.companionTurtle ≠ JSVal.num ((TurtlesModel.getTurtleCount L : Int) - 1)) →
      Turtles.companionColourFrom L i rest.length done.length = Except.ok i := by
  intro rest
  induction rest with
  | nil => intro done _ _; rfl
  | cons x tl ih =>
    intro done hL h
    have hx := h x (List.mem_cons_self _ _)
    have hg : TurtlesModel.getTurtle L (done.length : Int) = Except.ok x := by
      rw [← hL]
      exact getTurtle_split done tl x
    have ht := ih (done ++ [x]) (by rw [← hL]; simp)
      (fun y hy => h y (List.mem_cons_of_mem _ hy))
    simp only [List.length_cons, Turtles.companionColourFrom, hg, if_neg hx]
    simpa using ht

theorem companionColourFrom_first (L : List TurtleObject) (i : Nat) (x : TurtleObject)
    (post : List TurtleObject)
    (hx : x.companionTurtle = JSVal.num ((TurtlesModel.getTurtleCount L : Int) - 1)) :
    ∀ (pre done : List TurtleObject), done ++ (pre ++ x :: post) = L →
      (∀ y ∈ pre,
        y.companionTurtle ≠ JSVal.num ((TurtlesModel.getTurtleCount L : Int) - 1)) →
      Turtles.companionColourFrom L i (pre ++ x :: post).length done.length
        = Except.ok ((done.length + pre.length) % 10) := by
  intro pre
  induction pre with
  | nil =>
    intro done hL _
    have hg : TurtlesModel.getTurtle L (done.length : Int) = Except.ok x := by
      rw [← hL]
      exact getTurtle_split done post x
    simp only [List.nil_append, List.length_cons, Turtles.companionColourFrom, hg, if_pos hx,
      List.length_nil, Nat.add_zero]
  | cons y tl ih =>
    intro done hL h
    have hy := h y (List.mem_cons_self _ _)
    have hg : TurtlesModel.getTurtle L (done.length : Int) = Except.ok y := by
      rw [← hL]
      exact getTurtle_split done (tl ++ x :: post) y
    have ht := ih (done ++ [y]) (by rw [← hL]; simp)
      (fun z hz => h z (List.mem_cons_of_mem _ hz))
    have hlen : done.length + (tl.length + 1) = (done ++ [y]).length + tl.length := by
      simp only [List.length_append, List.length_singleton]
      omega
    simp only [List.cons_append, List.length_cons, Turtles.companionColourFrom, hg, if_neg hy]
    rw [hlen]
    simpa using ht

/-- The colour search of `add` over the whole list: it completes, with the index of the first
actor whose link is the last index of the list, reduced modulo `10`, or with `i`. -/
theorem companionColour_total (l : List TurtleObject) (i : Nat) :
    (∀ pre x post, l = pre ++ x :: post →
      (∀ y ∈ pre, y.companionTurtle ≠ JSVal.num ((l.length : Int) - 1)) →
      x.companionTurtle = JSVal.num ((l.length : Int) - 1) →
      Turtles.companionColourFrom l i (TurtlesModel.getTurtleCount l) 0
        = Except.ok (pre.length % 10)) ∧
    ((∀ y ∈ l, y.companionTurtle ≠ JSVal.num ((l.length : Int) - 1)) →
      Turtles.companionColourFrom l i (TurtlesModel.getTurtleCount l) 0 = Except.ok i) ∧
    (i < 10 → ∃ c, Turtles.companionColourFrom l i (TurtlesModel.getTurtleCount l) 0
      = Except.ok c ∧ c < 10) := by
  have hfirst : ∀ pre x post, l = pre ++ x :: post →
      (∀ y ∈ pre, y.companionTurtle ≠ JSVal.num ((l.length : Int) - 1)) →
      x.companionTurtle = JSVal.num ((l.length : Int) - 1) →
      Turtles.companionColourFrom l i (TurtlesModel.getTurtleCount l) 0
        = Except.ok (pre.length % 10) := by
    intro pre x post e hp hx
    have := companionColourFrom_first l i x post hx pre [] (by simp [e]) hp
    subst e
    simpa [TurtlesModel.getTurtleCount] using this
  have hnone : (∀ y ∈ l, y.companionTurtle ≠ JSVal.num ((l.length : Int) - 1)) →
      Turtles.companionColourFrom l i (TurtlesModel.getTurtleCount l) 0 = Except.ok i := by
    intro h
    have := companionColourFrom_none l i l [] (by simp) h
    simpa [TurtlesModel.getTurtleCount] using this
  refine ⟨hfirst, hnone, ?_⟩
  intro hi
  by_cases h : ∃ y ∈ l, y.companionTurtle = JSVal.num ((l.length : Int) - 1)
  · obtain ⟨pre, x, post, e, hp, hx⟩ := exists_first_link _ l h
    exact ⟨_, hfirst pre x post e hp hx, Nat.mod_lt _ (by decide)⟩
  · exact ⟨i, hnone (fun y hy hc => h ⟨y, hy, hc⟩), hi⟩

theorem le_foldr_max (rs : List Nat) : ∀ r ∈ rs, r ≤ rs.foldr max 0 := by
  induction rs with
  | nil => intro r hr; cases hr
  | cons x tl ih =>
    intro r hr
    rcases List.mem_cons.mp hr with e | e
    · rw [e]
      exact le_max_left _ _
    · exact le_trans (ih r e) (le_max_right _ _)

/-- The object `new Turtle(...)` constructs is no entry of the list. -/
theorem newTurtle_fresh (turtleList : List TurtleObject) (made : TurtleObject) :
    ∀ x ∈ turtleList, x.ref ≠ (newTurtle turtleList made).ref := by
  intro x hx e
  have h := le_foldr_max (turtleList.map TurtleObject.ref) x.ref (List.mem_map_of_mem _ hx)
  simp only [newTurtle] at e
  omega

theorem add_null (self : Turtles) (infoDict : Option (List (String × JSVal)))
    (made : TurtleObject) :
    Turtles.add self none infoDict made = Except.ok ({ self with
      stageProps := self.stageProps ++
        [(newTurtle self.turtleList made, blkInfoAvailable infoDict)]
      turtleList := self.turtleList ++ [newTurtle self.turtleList made] }, none) := by
  simp only [Turtles.add, Option.map, pushTurtle_new _ _ (newTurtle_fresh _ _)]

theorem add_start (self : Turtles) (b : StartBlock)
    (infoDict : Option (List (String × JSVal))) (made : TurtleObject)
    (hname : b.name = "start") :
    ∃ b', b'.name = b.name ∧
      b'.value = JSVal.num (TurtlesModel.getTurtleCount self.turtleList : Int) ∧
      Turtles.add self (some b) infoDict made = Except.ok (Turtles.finishAdd { self with
        stageProps := self.stageProps ++
          [(newTurtle self.turtleList made, blkInfoAvailable infoDict)]
        turtleList := self.turtleList ++ [newTurtle self.turtleList made]
        artwork := self.artwork ++
          [(newTurtle self.turtleList made,
            TurtlesModel.getTurtleCount self.turtleList % 10, true)] }
        (newTurtle self.turtleList made) (blkInfoAvailable infoDict), some b') := by
  by_cases hv : b.value = JSVal.num (TurtlesModel.getTurtleCount self.turtleList : Int)
  · refine ⟨b, rfl, hv, ?_⟩
    simp [Turtles.add, Option.map, pushTurtle_new _ _ (newTurtle_fresh _ _), hv, hname]
  · refine ⟨{ b with value := JSVal.num (TurtlesModel.getTurtleCount self.turtleList : Int) },
      rfl, rfl, ?_⟩
    simp [Turtles.add, Option.map, pushTurtle_new _ _ (newTurtle_fresh _ _), hv, hname]

theorem add_other (self : Turtles) (b : StartBlock)
    (infoDict : Option (List (String × JSVal))) (made : TurtleObject) (c : Nat)
    (hname : b.name ≠ "start")
    (hc : Turtles.companionColourFrom (self.turtleList ++ [newTurtle self.turtleList made])
      (TurtlesModel.getTurtleCount self.turtleList % 10)
      (TurtlesModel.getTurtleCount (self.turtleList ++ [newTurtle self.turtleList made])) 0
        = Except.ok c) :
    ∃ b', b'.name = b.name ∧
      b'.value = JSVal.num (TurtlesModel.getTurtleCount self.turtleList : Int) ∧
      Turtles.add self (some b) infoDict made = Except.ok (Turtles.finishAdd { self with
        stageProps := self.stageProps ++
          [(newTurtle self.turtleList made, blkInfoAvailable infoDict)]
        turtleList := self.turtleList ++ [newTurtle self.turtleList made]
        artwork := self.artwork ++ [(newTurtle self.turtleList made, c, false)] }
        (newTurtle self.turtleList made) (blkInfoAvailable infoDict), some b') := by
  by_cases hv : b.value = JSVal.num (TurtlesModel.getTurtleCount self.turtleList : Int)
  · refine ⟨b, rfl, hv, ?_⟩
    simp [Turtles.add, Option.map, pushTurtle_new _ _ (newTurtle_fresh _ _), hv, hname, hc]
  · refine ⟨{ b with value := JSVal.num (TurtlesModel.getTurtleCount self.turtleList : Int) },
      rfl, rfl, ?_⟩
    simp [Turtles.add, Option.map, pushTurtle_new _ _ (newTurtle_fresh _ _), hv, hname, hc]

/-- C25: for every registry with `n` actors and every call `add(startBlock, infoDict)`, with
`infoDict` an object or `undefined` and `startBlock` a block or `null`, whatever the fields
of the constructed actor hold: afterwards `getTurtleCount()` is `n + 1`, the actors at the
indices below `n` are where they were and the new actor, an object that was not in the
list, is at index `n`; for a block its field `value` is `n` afterwards and `getTurtle` of
it is the new actor; for `null` no artwork, hit area or event handler is created and no
canvas refresh is requested. -/
theorem C25_add_appends (self : Turtles) (startBlock : Option StartBlock)
    (infoDict : Option (List (String × JSVal))) (made : TurtleObject) :
    ∃ r, Turtles.add self startBlock infoDict made = Except.ok r ∧
      TurtlesModel.getTurtleCount r.1.turtleList
        = TurtlesModel.getTurtleCount self.turtleList + 1 ∧
      r.1.turtleList = self.turtleList ++ [newTurtle self.turtleList made] ∧
      (∀ x ∈ self.turtleList, x.ref ≠ (newTurtle self.turtleList made).ref) ∧
      { newTurtle self.turtleList made with ref := made.ref } = made ∧
      (∀ i, i < TurtlesModel.getTurtleCount self.turtleList →
        r.1.turtleList.get? i = self.turtleList.get? i) ∧
      r.1.turtleList.get? (TurtlesModel.getTurtleCount self.turtleList)
        = some (newTurtle self.turtleList made) ∧
      (∀ b, startBlock = some b → ∃ b', r.2 = some b' ∧ b'.name = b.name ∧
        b'.value = JSVal.num (TurtlesModel.getTurtleCount self.turtleList : Int) ∧
        TurtlesModel.getTurtle r.1.turtleList
          (TurtlesModel.getTurtleCount self.turtleList : Int)
            = Except.ok (newTurtle self.turtleList made)) ∧
      (startBlock = none → r.2 = none ∧ r.1.artwork = self.artwork ∧
        r.1.hitAreas = self.hitAreas ∧ r.1.handlers = self.handlers ∧
        r.1.refreshCanvasCalls = self.refreshCanvasCalls) := by
  have hget : TurtlesModel.getTurtle (self.turtleList ++ [newTurtle self.turtleList made])
      (TurtlesModel.getTurtleCount self.turtleList : Int)
        = Except.ok (newTurtle self.turtleList made) :=
    getTurtle_split self.turtleList [] (newTurtle self.turtleList made)
  have key : ∃ r, Turtles.add self startBlock infoDict made = Except.ok r ∧
      r.1.turtleList = self.turtleList ++ [newTurtle self.turtleList made] ∧
      (∀ b, startBlock = some b → ∃ b', r.2 = some b' ∧ b'.name = b.name ∧
        b'.value = JSVal.num (TurtlesModel.getTurtleCount self.turtleList : Int)) ∧
      (startBlock = none → r.2 = none ∧ r.1.artwork = self.artwork ∧
        r.1.hitAreas = self.hitAreas ∧ r.1.handlers = self.handlers ∧
        r.1.refreshCanvasCalls = self.refreshCanvasCalls) := by
    cases startBlock with
    | none =>
      exact ⟨_, add_null self infoDict made, rfl, (fun b hb => by cases hb),
        fun _ => ⟨rfl, rfl, rfl, rfl, rfl⟩⟩
    | some b =>
      by_cases hname : b.name = "start"
      · obtain ⟨b', h1, h2, e⟩ := add_start self b infoDict made hname
        refine ⟨_, e, rfl, ?_, fun h => by cases h⟩
        intro b0 hb0
        cases hb0
        exact ⟨b', rfl, h1, h2⟩
      · obtain ⟨c, hc, _⟩ := (companionColour_total
          (self.turtleList ++ [newTurtle self.turtleList made])
          (TurtlesModel.getTurtleCount self.turtleList % 10)).2.2 (Nat.mod_lt _ (by decide))
        obtain ⟨b', h1, h2, e⟩ := add_other self b infoDict made c hname hc
        refine ⟨_, e, rfl, ?_, fun h => by cases h⟩
        intro b0 hb0
        cases hb0
        exact ⟨b', rfl, h1, h2⟩
  obtain ⟨r, e, hl, hb, hn⟩ := key
  refine ⟨r, e, ?_, hl, newTurtle_fresh self.turtleList made, rfl, ?_, ?_, ?_, hn⟩
  · rw [hl]
    simp [TurtlesModel.getTurtleCount]
  · intro i hi
    rw [hl]
    have := get?_split_before self.turtleList [] (newTurtle self.turtleList made) i hi
    rw [List.append_nil] at this
    exact this.symm
  · rw [hl]
    exact get?_split_self self.turtleList [] (newTurtle self.turtleList made)
  · intro b hb0
    obtain ⟨b', h1, h2, h3⟩ := hb b hb0
    exact ⟨b', h1, h2, h3, by rw [hl]; exact hget⟩

/-- C25, on a registry of three turtles: with a start block the new actor is at index `3`
and the block's value is `3`; with `null` nothing is drawn; and an actor whose fields are
those of the one entry of the list is a second entry. -/
theorem C25_add_appends_witness :
    (∃ r, Turtles.add { emptyTurtles with turtleList := sampleTurtles }
        (some (StartBlock.mk "start" JSVal.undefined)) none freshTurtle = Except.ok r ∧
      r.1.turtleList = sampleTurtles ++ [{ freshTurtle with ref := 4 }] ∧
      r.2 = some (StartBlock.mk "start" (JSVal.num 3))) ∧
    (∃ r, Turtles.add { emptyTurtles with turtleList := sampleTurtles } none none freshTurtle
        = Except.ok r ∧
      r.1.turtleList = sampleTurtles ++ [{ freshTurtle with ref := 4 }] ∧ r.1.artwork = [] ∧
      r.1.hitAreas = [] ∧ r.1.handlers = [] ∧ r.1.refreshCanvasCalls = 0) ∧
    (∃ r, Turtles.add { emptyTurtles with turtleList := [freshTurtle] } none none freshTurtle
        = Except.ok r ∧
      r.1.turtleList = [freshTurtle, { freshTurtle with ref := 21 }] ∧
      TurtlesModel.getTurtleCount r.1.turtleList = 2) := by
  refine ⟨?_, ?_, ?_⟩
  · obtain ⟨r, e, _, hl, _, _, _, _, _, _⟩ := C25_add_appends
      { emptyTurtles with turtleList := sampleTurtles }
      (some (StartBlock.mk "start" JSVal.undefined)) none freshTurtle
    refine ⟨r, e, hl, ?_⟩
    have e' : Turtles.add { emptyTurtles with turtleList := sampleTurtles }
        (some (StartBlock.mk "start" JSVal.undefined)) none freshTurtle = Except.ok
        (Turtles.finishAdd { emptyTurtles with
          turtleList := sampleTurtles ++ [{ freshTurtle with ref := 4 }]
          stageProps := [({ freshTurtle with ref := 4 }, false)]
          artwork := [({ freshTurtle with ref := 4 }, 3, true)] }
          { freshTurtle with ref := 4 } false,
          some (StartBlock.mk "start" (JSVal.num 3))) := rfl
    rw [e'] at e
    cases e
    rfl
  · obtain ⟨r, e, _, hl, _, _, _, _, _, hn⟩ := C25_add_appends
      { emptyTurtles with turtleList := sampleTurtles } none none freshTurtle
    obtain ⟨_, h1, h2, h3, h4⟩ := hn rfl
    exact ⟨r, e, hl, h1, h2, h3, h4⟩
  · obtain ⟨r, e, hc, hl, _⟩ := C25_add_appends
      { emptyTurtles with turtleList := [freshTurtle] } none none freshTurtle
    exact ⟨r, e, hl, hc⟩

/-- C26: in `add` with a start block, on a registry of `n` actors, the colour index passed
to `createArtwork` is `n mod 10` when the block's name is `start`; otherwise it is
`j mod 10` for the smallest index `j <= n` of the list with the new actor appended whose
actor has `n` in its field `companionTurtle`, and `n mod 10` when there is no such actor; in
every case the index is below `10`. The list scanned has `n + 1` entries whatever the
fields of the new actor hold. -/
theorem C26_colour_index (self : Turtles) (b : StartBlock)
    (infoDict : Option (List (String × JSVal))) (made : TurtleObject) :
    (b.name = "start" →
      ∃ r, Turtles.add self (some b) infoDict made = Except.ok r ∧
        r.1.artwork = self.artwork ++
          [(newTurtle self.turtleList made,
            TurtlesModel.getTurtleCount self.turtleList % 10, true)]) ∧
    (b.name ≠ "start" →
      (∀ pre x post, self.turtleList ++ [newTurtle self.turtleList made] = pre ++ x :: post →
        (∀ y ∈ pre, y.companionTurtle
          ≠ JSVal.num (TurtlesModel.getTurtleCount self.turtleList : Int)) →
        x.companionTurtle = JSVal.num (TurtlesModel.getTurtleCount self.turtleList : Int) →
        pre.length ≤ TurtlesModel.getTurtleCount self.turtleList ∧
        ∃ r, Turtles.add self (some b) infoDict made = Except.ok r ∧
          r.1.artwork = self.artwork ++
            [(newTurtle self.turtleList made, pre.length % 10, false)]) ∧
      ((∀ y ∈ self.turtleList ++ [newTurtle self.turtleList made], y.companionTurtle
          ≠ JSVal.num (TurtlesModel.getTurtleCount self.turtleList : Int)) →
        ∃ r, Turtles.add self (some b) infoDict made = Except.ok r ∧
          r.1.artwork = self.artwork ++
            [(newTurtle self.turtleList made,
              TurtlesModel.getTurtleCount self.turtleList % 10, false)])) ∧
    (∃ r i u, Turtles.add self (some b) infoDict made = Except.ok r ∧
      r.1.artwork = self.artwork ++ [(newTurtle self.turtleList made, i, u)] ∧ i < 10 ∧
      TurtlesModel.getTurtleCount r.1.turtleList
        = TurtlesModel.getTurtleCount self.turtleList + 1) := by
  have hlen : (((self.turtleList ++ [newTurtle self.turtleList made]).length : Nat) : Int) - 1
      = (TurtlesModel.getTurtleCount self.turtleList : Int) := by
    simp [TurtlesModel.getTurtleCount]
  have htot := companionColour_total (self.turtleList ++ [newTurtle self.turtleList made])
    (TurtlesModel.getTurtleCount self.turtleList % 10)
  rw [hlen] at htot
  refine ⟨?_, ?_, ?_⟩
  · intro hname
    obtain ⟨b', _, _, e⟩ := add_start self b infoDict made hname
    exact ⟨_, e, rfl⟩
  · intro hname
    constructor
    · intro pre x post e hp hx
      have hle : pre.length ≤ TurtlesModel.getTurtleCount self.turtleList := by
        have := congrArg List.length e
        simp only [List.length_append, List.length_cons, List.length_singleton,
          List.length_nil] at this
        simp only [TurtlesModel.getTurtleCount]
        omega
      obtain ⟨b', _, _, e'⟩ := add_other self b infoDict made _ hname
        (htot.1 pre x post e hp hx)
      exact ⟨hle, _, e', rfl⟩
    · intro hall
      obtain ⟨b', _, _, e'⟩ := add_other self b infoDict made _ hname (htot.2.1 hall)
      exact ⟨_, e', rfl⟩
  · by_cases hname : b.name = "start"
    · obtain ⟨b', _, _, e⟩ := add_start self b infoDict made hname
      exact ⟨_, _, _, e, rfl, Nat.mod_lt _ (by decide),
        by simp [Turtles.finishAdd, TurtlesModel.getTurtleCount]⟩
    · obtain ⟨c, hc, hc10⟩ := htot.2.2 (Nat.mod_lt _ (by decide))
      obtain ⟨b', _, _, e⟩ := add_other self b infoDict made c hname hc
      exact ⟨_, _, _, e, rfl, hc10,
        by simp [Turtles.finishAdd, TurtlesModel.getTurtleCount]⟩

/-- C26, on four registries: a `start` block on three actors gets the colour `3`; a block
of another name added to `[primary, linked to 2]` gets the colour `1` of the actor whose
link is `2`; with no such link on three actors it gets the colour `3`; and added to a list
whose one entry has the fields of the new actor and the link `1`, it gets the colour `0` of
that entry. -/
theorem C26_colour_index_witness :
    (∃ r, Turtles.add { emptyTurtles with turtleList := sampleTurtles }
        (some (StartBlock.mk "start" JSVal.undefined)) none freshTurtle = Except.ok r ∧
      r.1.artwork = [({ freshTurtle with ref := 4 }, 3, true)]) ∧
    (∃ r, Turtles.add { emptyTurtles with turtleList := [primaryTurtle, linkedToTwoTurtle] }
        (some (StartBlock.mk "drum" JSVal.undefined)) none freshTurtle = Except.ok r ∧
      r.1.artwork = [({ freshTurtle with ref := 14 }, 1, false)]) ∧
    (∃ r, Turtles.add { emptyTurtles with turtleList := sampleTurtles }
        (some (StartBlock.mk "drum" JSVal.undefined)) none freshTurtle = Except.ok r ∧
      r.1.artwork = [({ freshTurtle with ref := 4 }, 3, false)]) ∧
    (∃ r, Turtles.add { emptyTurtles with turtleList := [linkedToOneTurtle] }
        (some (StartBlock.mk "drum" JSVal.undefined)) none linkedToOneTurtle = Except.ok r ∧
      r.1.artwork = [({ linkedToOneTurtle with ref := 13 }, 0, false)]) :=
  ⟨(C26_colour_index { emptyTurtles with turtleList := sampleTurtles }
      (StartBlock.mk "start" JSVal.undefined) none freshTurtle).1 rfl,
    (((C26_colour_index { emptyTurtles with turtleList := [primaryTurtle, linkedToTwoTurtle] }
      (StartBlock.mk "drum" JSVal.undefined) none freshTurtle).2.1 (by decide)).1
      [primaryTurtle] linkedToTwoTurtle [{ freshTurtle with ref := 14 }] rfl (by decide)
      rfl).2,
    ((C26_colour_index { emptyTurtles with turtleList := sampleTurtles }
      (StartBlock.mk "drum" JSVal.undefined) none freshTurtle).2.1 (by decide)).2
      (by decide),
    (((C26_colour_index { emptyTurtles with turtleList := [linkedToOneTurtle] }
      (StartBlock.mk "drum" JSVal.undefined) none linkedToOneTurtle).2.1 (by decide)).1
      [] linkedToOneTurtle [{ linkedToOneTurtle with ref := 13 }] rfl (by decide) rfl).2⟩

end MusicBlocks
